import Mathlib

/-!
# Device Config Manager: profile validation, the partition engine, the retry session and the
worker

A shallow embedding of `pkg/config_manager/configmanager.go` (ROCm/device-config-manager)
together with the constants of `pkg/config_manager/globals/constants.go` and the result
record of `pkg/config_manager/interface/types.go`.

Conventions of the embedding.

* Go `uint32` and `int` values are natural numbers.  `int` is 64 bit on the platforms the
  cgo bindings build for, the device filter ids and `NumGPUsAssigned` are `uint32`, so the
  sums formed by `validateProfile` cannot wrap for any list that fits in memory.
* A Go `error` is represented by its message.
* A run-time panic (index out of range) is an explicit outcome.
* `log.Printf` output is not modelled, except the per-device lines `GPU ID %v`,
  `Requested compute partition %v` and `Requested memory partition %v`, which the engine
  trace keeps as the marker of the device being processed and of its target.
* `RetryPartition` runs against a clock, `time.Now()` in nanoseconds.  Only an engine
  invocation and the wait of one minute take time.  The instant at which the token of the
  session is cancelled, the config document at each instant, and the driver are given from
  outside (`RetryEnv`).
* The `Worker` goroutine, the channel `retryCh` and the attempts form a transition system
  (`Coordinator.step`).  A send to a receiver parked on the channel is a `trigger` step
  followed at once by a `receive` step.
-/

namespace DCM

/-! ## Data model (`gen/partition`, `interface/types.go`) -/

/-- Modelled from the spec: `partition_pb.ProfileConfig`, declared in the generated package
`gen/partition`, which is not among the sources.  One assignment of a profile
`{computeType, memoryType, count}`, with the field names the program and its tests use. -/
structure ProfileConfig where
  ComputePartition : String
  MemoryPartition : String
  NumGPUsAssigned : Nat
  deriving DecidableEq, Repr

/-- Modelled from the spec: `partition_pb.GPUConfigProfile`, declared in the generated
package `gen/partition`, which is not among the sources.  A profile is an ordered list of
assignments plus the exclusions.  `Filters` is the id list of `profile.Filters`
(`SkippedGPUs.Id`); `amdSMIHelper` replaces a nil filter by the empty list before the profile
is validated or used. -/
structure GPUConfigProfile where
  Filters : List Nat
  Profiles : List ProfileConfig
  deriving DecidableEq, Repr

/-- Result of a Go function returning `error`: `nil`, an error value, or a panic. -/
inductive Verdict where
  | nil
  | err (msg : String)
  | panic
  deriving DecidableEq, Repr

/-! ## Constants (`globals/constants.go`) -/

def ValidComputePartitions : List String := ["SPX", "CPX", "DPX", "QPX"]

def ValidMemoryPartitions : List String := ["NPS1", "NPS2", "NPS4"]

def K8EventPartitionFailed : String := "PartitionFailure"
def K8EventInvalidProfile : String := "InvalidProfileInfo"
def K8EventNonExistentProfile : String := "NonExistentProfile"
def K8EventSuccessfullyPartitioned : String := "SuccessfullyPartitioned"
def K8EventPartitionNotNeeded : String := "RequestedPartitionConfigAlreadyExists"
def K8EventPartitionRetrying : String := "PartitionRetrying"
def K8EventConfigMapNotPresent : String := "ConfigMapNotPresent"
def K8EventInvalidJSONInConfigMap : String := "InvalidJSONInConfigMap"
def K8EventAMDSMIAPIFailure : String := "AMDSMIAPIFailure"

/-- The table `globals.AmdsmiStatusStrings`. -/
def AmdsmiStatusStrings : List (Nat × String) :=
  [(0, "Call succeeded."), (1, "Invalid parameters."), (2, "Command not supported."),
   (3, "Not implemented yet."), (4, "Fail to load lib."), (5, "Fail to load symbol."),
   (6, "Error when calling libdrm."), (7, "API call failed."), (8, "Timeout in API call."),
   (9, "Retry operation."), (10, "Permission Denied."),
   (11, "An interrupt occurred during execution of function."), (12, "I/O Error."),
   (13, "Bad address."), (14, "Problem accessing a file."), (15, "Not enough memory."),
   (16, "An internal exception was caught."),
   (17, "The provided input is out of allowable or safe range."),
   (18, "An error occurred when initializing internal data structures."),
   (19, "An internal reference counter exceeded INT32_MAX."),
   (30, "Device busy."), (31, "Device not found."), (32, "Device not initialized."),
   (33, "No more free slots."), (34, "Processor driver not loaded."),
   (40, "No data was found for a given input."),
   (41, "Not enough resources were available for the operation."),
   (42, "An unexpected amount of data was read."),
   (43, "The data read or provided to function is not what was expected."),
   (44, "System has a different CPU than AMD."), (45, "Energy driver not found."),
   (46, "MSR driver not found."), (47, "HSMP driver not found."),
   (48, "HSMP not supported."), (49, "HSMP message/feature not supported."),
   (50, "HSMP message timeout."), (51, "No Energy and HSMP driver present."),
   (52, "File or directory not found."), (53, "Parsed argument is invalid."),
   (54, "AMDGPU restart failed."), (55, "Setting is not available."),
   (0xFFFFFFFE, "The internal library error did not map to a status code."),
   (0xFFFFFFFF, "An unknown error occurred.")]

/-- Modelled from the spec: `AMDSMI_STATUS_SUCCESS` of `amdsmi.h`, which is not among the
sources; the status of a call that succeeded, `0` in `AmdsmiStatusStrings`. -/
def AMDSMI_STATUS_SUCCESS : Nat := 0

/-- Modelled from the spec: `AMDSMI_STATUS_BUSY` of `amdsmi.h`, which is not among the
sources; the device busy status, `30` in `AmdsmiStatusStrings`. -/
def AMDSMI_STATUS_BUSY : Nat := 30

/-! ## Error values of `validateProfile` and `checkInvalidPartitionType` -/

def errFilterLength : String :=
  "GPU ID list specified in the device filter is invalid, list length is exceeding the total number of GPUs available on this node"

def errInvalidGPUID : String := "invalid gpu id"

def errCountMismatch : String :=
  "the total of all numGPUsAssigned values across profiles, combined with the count of IDs in the skippedGPUs list, does not equal the total number of GPUs available on this node"

def errInvalidComputeType : String := "not a valid profile. Invalid compute type"

def errInvalidMemoryType : String := "not a valid profile. Invalid memory type"

def errMixedMemory : String :=
  "profile cannot have combination of NPS1, NPS2 and NPS4 memory types"

/-! ## `getAMDSMIStatusString`, `ValidateList`, `checkInvalidPartitionType` -/

/-- Lookup in a Go map given as an association list. -/
def mapLookup (code : Nat) : List (Nat × String) → Option String
  | [] => none
  | (k, v) :: rest => if k = code then some v else mapLookup code rest

def getAMDSMIStatusString (code : Nat) : String :=
  match mapLookup code AmdsmiStatusStrings with
  | some status => status
  | none => "UNKNOWN_STATUS"

def ValidateList (config : String) : List String → Bool
  | [] => false
  | ctype :: rest => if ctype = config then true else ValidateList config rest

/-- Returns `none` for Go's `nil`. -/
def checkInvalidPartitionType (computeType memoryType : String) : Option String :=
  if !ValidateList computeType ValidComputePartitions then
    some errInvalidComputeType
  else if !ValidateList memoryType ValidMemoryPartitions then
    some errInvalidMemoryType
  else
    none

/-! ## `createGPUIDList` -/

/-- The inner loop of `createGPUIDList`: does some filter id equal `i`
(`continue outer`)? -/
def filterHit (i : Nat) : List Nat → Bool
  | [] => false
  | fID :: rest => if fID = i then true else filterHit i rest

def createGPUIDList (filter_ids : List Nat) (totalGPUCount : Nat) : List Nat :=
  (List.range totalGPUCount).foldl
    (fun result i => if filterHit i filter_ids then result else result ++ [i]) []

/-! ## `validateProfile` -/

/-- The loop of lines 297-303: is some filter id out of range? -/
def hasInvalidGPUID (totalGPUCount : Nat) : List Nat → Bool
  | [] => false
  | id :: rest => if id + 1 > totalGPUCount then true else hasInvalidGPUID totalGPUCount rest

/-- The loop of lines 305-308, started with the running total. -/
def sumAssigned (total_devices : Nat) : List ProfileConfig → Nat
  | [] => total_devices
  | p :: rest => sumAssigned (total_devices + p.NumGPUsAssigned) rest

/-- The loop of lines 317-331 over the assignments still to visit. -/
def checkPartitionTypes (currentMemory : String) : List ProfileConfig → Verdict
  | [] => Verdict.nil
  | p :: rest =>
    match checkInvalidPartitionType p.ComputePartition p.MemoryPartition with
    | some err => Verdict.err err
    | none =>
      if currentMemory ≠ p.MemoryPartition then Verdict.err errMixedMemory
      else checkPartitionTypes currentMemory rest

def validateProfile (profile : GPUConfigProfile) (totalGPUCount : Nat) : Verdict :=
  let profiles := profile.Profiles
  let devicefilter := profile.Filters
  if devicefilter.length > totalGPUCount then
    Verdict.err errFilterLength
  else if hasInvalidGPUID totalGPUCount devicefilter then
    Verdict.err errInvalidGPUID
  else if sumAssigned 0 profiles + devicefilter.length ≠ totalGPUCount then
    Verdict.err errCountMismatch
  else
    -- line 316: `profiles[0]` is read before the loop runs
    match profiles with
    | [] => Verdict.panic
    | p0 :: _ => checkPartitionTypes p0.MemoryPartition profiles

/-! ## Result record (`interface/types.go`) and the reporter -/

structure GPUPartitionStatus where
  GpuID : Nat
  PartitionType : String
  Status : String
  Message : String
  deriving DecidableEq, Repr

structure PartitionStatus where
  SelectedProfile : String
  FinalStatus : String
  Reason : String
  GPUStatus : List GPUPartitionStatus
  deriving DecidableEq, Repr

/-- An event handed to `kc.CreateEvent` by `generateK8sEvent`: the event name, whether its
type is `Warning` (otherwise `Normal`), and the marshalled status record. -/
structure K8sEvent where
  reason : String
  warning : Bool
  status : PartitionStatus
  deriving DecidableEq, Repr

/-! ## The device driver (AMD SMI, reached through cgo)

The C library is a parameter of the embedding.  Handles are numbers.  The query calls
observe a hardware state `σ`; the two set calls return a status and the next state. -/

/-- Modelled from the spec: the values of `amdsmi_compute_partition_type_t` (`amdsmi.h`, not
among the sources) that the program uses, the compute partition modes. -/
inductive ComputePartitionType where
  | CPX | SPX | DPX | QPX
  deriving DecidableEq, Repr

/-- Modelled from the spec: the values of `amdsmi_memory_partition_type_t` (`amdsmi.h`, not
among the sources) that the program uses, the memory partition modes. -/
inductive MemoryPartitionType where
  | NPS1 | NPS2 | NPS4
  deriving DecidableEq, Repr

/-- Modelled from the spec: `processor_type_t` (`amdsmi.h`, not among the sources), which
classifies a handle as accelerator (`AMDSMI_PROCESSOR_TYPE_AMD_GPU`) or not. -/
inductive ProcessorType where
  | AMD_GPU
  | OTHER (code : Nat)
  deriving DecidableEq, Repr

/-- Result of a handle enumeration call: status, the count written back, and the handles
written into the caller's buffer (none when the buffer argument is nil). -/
structure HandleReply where
  ret : Nat
  count : Nat
  handles : List Nat
  deriving DecidableEq, Repr

/-- Modelled from the spec: the device driver interface, the functions of the C library
`libamd_smi` that the program calls (`amdsmi.h`, not among the sources): init, enumerate
socket and processor handles, classify a handle, get and set the compute and the memory
partition type.  Each call returns its status first. -/
structure Driver (σ : Type) where
  amdsmi_init : σ → Nat
  /-- `none` is the nil buffer of the counting call, `some n` a buffer of `n` handles. -/
  amdsmi_get_socket_handles : σ → Option Nat → HandleReply
  amdsmi_get_processor_handles : σ → Nat → Option Nat → HandleReply
  amdsmi_get_processor_type : σ → Nat → Nat × ProcessorType
  amdsmi_get_gpu_compute_partition : σ → Nat → Nat × String
  amdsmi_get_gpu_memory_partition : σ → Nat → Nat × String
  amdsmi_set_gpu_memory_partition : σ → Nat → MemoryPartitionType → Nat × σ
  amdsmi_set_gpu_compute_partition : σ → Nat → ComputePartitionType → Nat × σ

/-- What the engine did, in order. -/
inductive TraceEntry where
  /-- Lines 427-429: the device whose turn starts and the partition types requested for
  it. -/
  | gpu (gpu_id : Nat) (currentCompute currentMemory : String)
  /-- Lines 449-450: the current partition state read from the device. -/
  | read (handle : Nat) (compute memory : String)
  /-- Lines 467-468: a memory partition change, its status, the memory type read before the
  call and the one read back after it. -/
  | setMemory (handle : Nat) (ty : MemoryPartitionType) (ret : Nat) (existing updated : String)
  /-- Lines 496-499: a compute partition change, its status, the compute type read before
  the call and the one read back after it. -/
  | setCompute (handle : Nat) (ty : ComputePartitionType) (ret : Nat)
      (existing updated : String)
  deriving DecidableEq, Repr

/-- The package-level state of `configmanager.go` together with the outside world: the
hardware, the result record `partStatus`, the flag `partition_failed`, the driver calls made
so far, the events created and the values requested for the node status label. -/
structure World (σ : Type) where
  hw : σ
  partStatus : PartitionStatus
  partition_failed : Bool
  trace : List TraceEntry
  events : List K8sEvent
  labels : List String

/-- `generateK8sEvent`: the event type is `Warning` exactly when `err` is not nil. -/
def generateK8sEvent {σ : Type} (err : Option String) (event_n : String) (w : World σ) :
    World σ :=
  { w with events := w.events ++ [⟨event_n, err.isSome, w.partStatus⟩] }

/-- `kc.AddNodeLabel(nodeName, "dcm.amd.com/gpu-config-profile-state", value)`; its error is
only logged. -/
def addStateLabel {σ : Type} (value : String) (w : World σ) : World σ :=
  { w with labels := w.labels ++ [value] }

def setReason {σ : Type} (reason : String) (w : World σ) : World σ :=
  { w with partStatus := { w.partStatus with Reason := reason } }

/-! ## Wrappers of the driver calls -/

def convertComputePartitonType (partitionType : String) : ComputePartitionType :=
  if partitionType = "CPX" then ComputePartitionType.CPX
  else if partitionType = "SPX" then ComputePartitionType.SPX
  else if partitionType = "DPX" then ComputePartitionType.DPX
  else if partitionType = "QPX" then ComputePartitionType.QPX
  else ComputePartitionType.SPX

def convertMemoryPartitionType (memoryPartition : String) : MemoryPartitionType :=
  if memoryPartition = "NPS1" then MemoryPartitionType.NPS1
  else if memoryPartition = "NPS2" then MemoryPartitionType.NPS2
  else if memoryPartition = "NPS4" then MemoryPartitionType.NPS4
  else MemoryPartitionType.NPS1

/-- A Go slice made with `count` nil handles into which the driver wrote `written`. -/
def fillSlice (count : Nat) (written : List Nat) : List Nat :=
  (written ++ List.replicate count 0).take count

/-- Returns the handles and the count; `none` is the panic of `&sockets[0]` on an empty
slice. -/
def amdsmiGetSocketHandles {σ : Type} (d : Driver σ) (hw : σ) : Option (List Nat × Nat) :=
  let r1 := d.amdsmi_get_socket_handles hw none
  if r1.ret ≠ AMDSMI_STATUS_SUCCESS then some ([], 0)
  else if r1.count = 0 then none
  else
    let r2 := d.amdsmi_get_socket_handles hw (some r1.count)
    if r2.ret ≠ AMDSMI_STATUS_SUCCESS then some ([], 0)
    else some (fillSlice r1.count r2.handles, r2.count)

/-- Returns the handles and the count; `none` is the panic of `&processors[0]` on an empty
slice. -/
def amdsmiGetProcessorHandles {σ : Type} (d : Driver σ) (hw : σ) (socket : Nat) :
    Option (List Nat × Nat) :=
  let r1 := d.amdsmi_get_processor_handles hw socket none
  if r1.ret ≠ AMDSMI_STATUS_SUCCESS then some ([], 0)
  else if r1.count = 0 then none
  else
    let r2 := d.amdsmi_get_processor_handles hw socket (some r1.count)
    if r2.ret ≠ AMDSMI_STATUS_SUCCESS then some ([], 0)
    else some (fillSlice r1.count r2.handles, r2.count)

def errGetProcessorType : String := "AMD SMI get processor type failed"

def amdsmiGetProcessorType {σ : Type} (d : Driver σ) (hw : σ) (processor_handle : Nat) :
    Except String ProcessorType :=
  let r := d.amdsmi_get_processor_type hw processor_handle
  if r.1 ≠ 0 then Except.error errGetProcessorType else Except.ok r.2

def getCurrentGPUComputePartition {σ : Type} (d : Driver σ) (hw : σ) (processor_handle : Nat) :
    String :=
  let r := d.amdsmi_get_gpu_compute_partition hw processor_handle
  if r.1 ≠ AMDSMI_STATUS_SUCCESS then "" else r.2

def getCurrentGPUMemoryPartition {σ : Type} (d : Driver σ) (hw : σ) (processor_handle : Nat) :
    String :=
  let r := d.amdsmi_get_gpu_memory_partition hw processor_handle
  if r.1 ≠ AMDSMI_STATUS_SUCCESS then "" else r.2

/-- `populateGPUEventStatus`; `none` is the panic of `partStatus.GPUStatus[idx]` out of
range. -/
def populateGPUEventStatus (gpu_id : Nat) (partitionType status message : String) (idx : Nat)
    (ps : PartitionStatus) : Option PartitionStatus :=
  if idx < ps.GPUStatus.length then
    some { ps with GPUStatus := ps.GPUStatus.set idx ⟨gpu_id, partitionType, status, message⟩ }
  else
    none

/-! ## The engine loop of `amdSMIHelper` (lines 419-530) -/

/-- The local variables of `amdSMIHelper` that change in the loop, and the world. -/
structure LoopState (σ : Type) where
  w : World σ
  idx : Nat
  partition_needed : Bool
  partition_err_reason : String

/-- How one iteration of the loop ends: the loop goes on, `amdSMIHelper` returns, or the
program panics. -/
inductive Step (α : Type) where
  | next (a : α)
  | ret (a : α)
  | panic

/-- Lines 430-447: what the engine learns about device `gpu_id` before touching it. -/
inductive Probe where
  /-- `sockets[gpu_id]`, `&processors[0]` or `processor_handles[0]` is out of range. -/
  | panic
  /-- `amdsmiGetProcessorType` returned an error. -/
  | apiError
  /-- The processor is not an accelerator. -/
  | notGPU
  /-- An accelerator, with its processor handle. -/
  | gpu (processor_handle : Nat)
  deriving DecidableEq, Repr

def probeGPU {σ : Type} (d : Driver σ) (hw : σ) (sockets : List Nat) (gpu_id : Nat) : Probe :=
  match sockets[gpu_id]? with
  | none => Probe.panic
  | some socket =>
    match amdsmiGetProcessorHandles d hw socket with
    | none => Probe.panic
    | some (processor_handles, _) =>
      match processor_handles with
      | [] => Probe.panic
      | processor_handle :: _ =>
        match amdsmiGetProcessorType d hw processor_handle with
        | Except.error _ => Probe.apiError
        | Except.ok processor_type =>
          if processor_type ≠ ProcessorType.AMD_GPU then Probe.notGPU
          else Probe.gpu processor_handle

def logTrace {σ : Type} (e : TraceEntry) (st : LoopState σ) : LoopState σ :=
  { st with w := { st.w with trace := st.w.trace ++ [e] } }

/-- Lines 470-479 and 501-510: a failed change. -/
def markFailed {σ : Type} (ret_n : Nat) (st : LoopState σ) : LoopState σ :=
  { st with
    w := { addStateLabel "failure" st.w with partition_failed := true }
    partition_err_reason := getAMDSMIStatusString ret_n }

/-- Lines 462-486. -/
def memoryStep {σ : Type} (d : Driver σ) (currentMemory existingMemory : String)
    (processor_handle : Nat) (st : LoopState σ) : LoopState σ :=
  if currentMemory ≠ existingMemory then
    let memoryType := convertMemoryPartitionType currentMemory
    let r := d.amdsmi_set_gpu_memory_partition st.w.hw processor_handle memoryType
    let updatedMemory := getCurrentGPUMemoryPartition d r.2 processor_handle
    let st1 : LoopState σ := logTrace
      (TraceEntry.setMemory processor_handle memoryType r.1 existingMemory updatedMemory)
      { st with w := { st.w with hw := r.2 } }
    if r.1 ≠ AMDSMI_STATUS_SUCCESS ∨ updatedMemory = existingMemory then markFailed r.1 st1
    else st1
  else st

/-- Lines 488-517. -/
def computeStep {σ : Type} (d : Driver σ) (currentCompute : String) (processor_handle : Nat)
    (st : LoopState σ) : LoopState σ :=
  let existingCompute := getCurrentGPUComputePartition d st.w.hw processor_handle
  if currentCompute ≠ existingCompute then
    let computeType := convertComputePartitonType currentCompute
    let r := d.amdsmi_set_gpu_compute_partition st.w.hw processor_handle computeType
    let updatedCompute := getCurrentGPUComputePartition d r.2 processor_handle
    let st1 : LoopState σ := logTrace
      (TraceEntry.setCompute processor_handle computeType r.1 existingCompute updatedCompute)
      { st with w := { st.w with hw := r.2 } }
    if r.1 ≠ AMDSMI_STATUS_SUCCESS then markFailed r.1 st1
    else st1
  else st

/-- One call of `populateGPUEventStatus` followed by `idx = idx + 1`. -/
def recordGPU {σ : Type} (gpu_id : Nat) (partitionType status message : String)
    (st : LoopState σ) : Option (LoopState σ) :=
  match populateGPUEventStatus gpu_id partitionType status message st.idx st.w.partStatus with
  | none => none
  | some ps => some { st with w := { st.w with partStatus := ps }, idx := st.idx + 1 }

/-- Lines 518-525. -/
def recordStep {σ : Type} (gpu_id : Nat) (partitionType : String) (st : LoopState σ) :
    Step (LoopState σ) :=
  if st.w.partition_failed then
    match recordGPU gpu_id partitionType "Failure"
        ("Partition failed with reason: " ++ st.partition_err_reason) st with
    | none => Step.panic
    | some st1 =>
      Step.next { st1 with
        w := setReason ("Partition failed with reason: " ++ st.partition_err_reason) st1.w }
  else
    match recordGPU gpu_id partitionType "Success" "Successfully partitioned" st with
    | none => Step.panic
    | some st1 => Step.next st1

/-- The body of the inner loop (lines 425-525) for the assignment `p`. -/
def processGPU {σ : Type} (d : Driver σ) (sockets gpu_ids_list : List Nat) (p : ProfileConfig)
    (st : LoopState σ) : Step (LoopState σ) :=
  let currentCompute := p.ComputePartition
  let currentMemory := p.MemoryPartition
  let partitionType := currentCompute ++ "-" ++ currentMemory
  match gpu_ids_list[st.idx]? with
  | none => Step.panic
  | some gpu_id =>
    let st0 := logTrace (TraceEntry.gpu gpu_id currentCompute currentMemory) st
    match probeGPU d st0.w.hw sockets gpu_id with
    | Probe.panic => Step.panic
    | Probe.apiError =>
      Step.ret { st0 with
        w := addStateLabel "failure"
          (generateK8sEvent (some errGetProcessorType) K8EventAMDSMIAPIFailure
            (setReason ("AMD-SMI API error : " ++ errGetProcessorType) st0.w)) }
    | Probe.notGPU => Step.next st0
    | Probe.gpu processor_handle =>
      let existingCompute := getCurrentGPUComputePartition d st0.w.hw processor_handle
      let existingMemory := getCurrentGPUMemoryPartition d st0.w.hw processor_handle
      let st1 := logTrace (TraceEntry.read processor_handle existingCompute existingMemory) st0
      if currentCompute = existingCompute ∧ currentMemory = existingMemory then
        match recordGPU gpu_id partitionType "Success" "Partition not required" st1 with
        | none => Step.panic
        | some st2 => Step.next st2
      else
        recordStep gpu_id partitionType
          (computeStep d currentCompute processor_handle
            (memoryStep d currentMemory existingMemory processor_handle
              { st1 with partition_needed := true }))

/-- The inner loop `for j := 0; j < int(nod); j++`, with the iterations still to run. -/
def innerLoop {σ : Type} (d : Driver σ) (sockets gpu_ids_list : List Nat) (p : ProfileConfig) :
    Nat → LoopState σ → Step (LoopState σ)
  | 0, st => Step.next st
  | j + 1, st =>
    match processGPU d sockets gpu_ids_list p st with
    | Step.next st1 => innerLoop d sockets gpu_ids_list p j st1
    | Step.ret st1 => Step.ret st1
    | Step.panic => Step.panic

/-- The outer loop over the assignments still to visit. -/
def outerLoop {σ : Type} (d : Driver σ) (sockets gpu_ids_list : List Nat) :
    List ProfileConfig → LoopState σ → Step (LoopState σ)
  | [], st => Step.next st
  | p :: rest, st =>
    match innerLoop d sockets gpu_ids_list p p.NumGPUsAssigned st with
    | Step.next st1 => outerLoop d sockets gpu_ids_list rest st1
    | Step.ret st1 => Step.ret st1
    | Step.panic => Step.panic

/-! ## `amdSMIHelper` and `PartitionGPU` -/

/-- The zero value of `types.GPUPartitionStatus`. -/
def zeroGPUStatus : GPUPartitionStatus := ⟨0, "", "", ""⟩

/-- Lines 532-551. -/
def finishBatch {σ : Type} (st : LoopState σ) : World σ :=
  if st.w.partition_failed then st.w
  else
    let w1 : World σ := { st.w with partStatus := { st.w.partStatus with FinalStatus := "Success" } }
    let w2 : World σ :=
      if st.partition_needed then
        generateK8sEvent none K8EventSuccessfullyPartitioned
          (setReason "All GPUs were successfully partitioned" w1)
      else
        generateK8sEvent
          (some "GPU's existing partition configuration same as profile's partition config")
          K8EventPartitionNotNeeded
          (setReason "Existing GPU's partition configuration same as profile's partition config"
            w1)
    addStateLabel "success" w2

/-- Lines 414-418: the state in which the loop starts. -/
def startBatch {σ : Type} (gpu_ids_list : List Nat) (w : World σ) : LoopState σ :=
  { w := { w with
      partStatus := { w.partStatus with
        GPUStatus := List.replicate gpu_ids_list.length zeroGPUStatus }
      partition_failed := false }
    idx := 0
    partition_needed := false
    partition_err_reason := "" }

/-- Lines 373-380: zero sockets are reported, and `amdSMIHelper` goes on. -/
def reportNoSockets {σ : Type} (totalGPUCount : Nat) (w : World σ) : World σ :=
  if totalGPUCount = 0 then
    addStateLabel "failure"
      (generateK8sEvent (some "no sockets found") K8EventAMDSMIAPIFailure
        (setReason "Partition failed with reason: 0 sockets found" w))
  else w

/-- `amdSMIHelper`; `none` is a panic.  The package variables `sockets` and `totalGPUCount`
are assigned on entry and read nowhere else, so they are locals here. -/
def amdSMIHelper {σ : Type} (d : Driver σ) (profile : GPUConfigProfile) (w : World σ) :
    Option (World σ) :=
  match amdsmiGetSocketHandles d w.hw with
  | none => none
  | some (sockets, totalGPUCount) =>
    let w1 : World σ := reportNoSockets totalGPUCount w
    match validateProfile profile totalGPUCount with
    | Verdict.panic => none
    | Verdict.err err =>
      some (addStateLabel "failure"
        (generateK8sEvent (some err) K8EventInvalidProfile
          (setReason ("Partition failed with reason: " ++ err) w1)))
    | Verdict.nil =>
      let gpu_ids_list := createGPUIDList profile.Filters totalGPUCount
      match outerLoop d sockets gpu_ids_list profile.Profiles (startBatch gpu_ids_list w1) with
      | Step.panic => none
      | Step.ret st => some st.w
      | Step.next st => some (finishBatch st)

/-- The config document at `globals.JsonFilePath` as `PartitionGPU` sees it: absent, not
parsable by `json.Unmarshal`, or the parsed `ProfilesList` (a map from profile names to
profiles, none of them nil). -/
inductive ConfigFile where
  | missing
  | unparsable
  | parsed (ProfilesList : List (String × GPUConfigProfile))

/-- Lookup in the map `profiles.ProfilesList`. -/
def lookupProfile (selectedProfile : String) :
    List (String × GPUConfigProfile) → Option GPUConfigProfile
  | [] => none
  | (name, profile) :: rest =>
    if name = selectedProfile then some profile else lookupProfile selectedProfile rest

/-- Lines 619-621: the result record is started afresh, with overall status `Failure`. -/
def resetStatus {σ : Type} (selectedProfile : String) (w : World σ) : World σ :=
  { w with partStatus :=
      { w.partStatus with
        SelectedProfile := selectedProfile, GPUStatus := [], FinalStatus := "Failure" } }

/-- `PartitionGPU`: the world after the call and the returned error; `none` is a panic. -/
def PartitionGPU {σ : Type} (d : Driver σ) (cfg : ConfigFile) (selectedProfile : String)
    (w : World σ) : Option (World σ × Option String) :=
  let w0 : World σ := resetStatus selectedProfile w
  match cfg with
  | ConfigFile.missing =>
    some (addStateLabel "failure"
      (generateK8sEvent (some "configmap not found") K8EventConfigMapNotPresent
        (setReason "Configmap does not exist" w0)), none)
  | ConfigFile.unparsable =>
    some (addStateLabel "failure"
      (generateK8sEvent (some "invalid json in configmap") K8EventInvalidJSONInConfigMap
        (setReason "Invalid JSON inside configmap" w0)), none)
  | ConfigFile.parsed ProfilesList =>
    match lookupProfile selectedProfile ProfilesList with
    | none =>
      some (addStateLabel "failure"
        (generateK8sEvent (some "profile not found") K8EventNonExistentProfile
          (setReason "Profile does not exist in the configmap" w0)), none)
    | some profile =>
      if d.amdsmi_init w0.hw ≠ AMDSMI_STATUS_SUCCESS then
        -- line 671 passes `err`, the nil result of `json.Unmarshal`
        some (addStateLabel "failure"
          (generateK8sEvent none K8EventAMDSMIAPIFailure
            (setReason "AMD-SMI API error : Failed to initialize AMD SMI!" w0)), none)
      else
        match amdSMIHelper d profile w0 with
        | none => none
        | some w1 =>
          some (w1, if w1.partition_failed then some "partition failed" else none)

/-! ## Notions used to state the properties -/

/-- An assignment whose two partition types are recognized. -/
def validTypes (p : ProfileConfig) : Prop :=
  p.ComputePartition ∈ ValidComputePartitions ∧ p.MemoryPartition ∈ ValidMemoryPartitions

/-- The conditions of rules 1-3 of the validator. -/
def rules123 (profile : GPUConfigProfile) (n : Nat) : Prop :=
  profile.Filters.length ≤ n ∧ (∀ id ∈ profile.Filters, id < n) ∧
    (profile.Profiles.map (·.NumGPUsAssigned)).sum + profile.Filters.length = n

/-- The target label `computeType-memoryType` of an assignment (line 422). -/
def targetLabel (p : ProfileConfig) : String :=
  p.ComputePartition ++ "-" ++ p.MemoryPartition

/-- The number of devices bound by the first `i` assignments: `count_0 + ... + count_(i-1)`. -/
def countsBefore (ps : List ProfileConfig) (i : Nat) : Nat :=
  ((ps.take i).map (·.NumGPUsAssigned)).sum

/-- The assignment of each bound device, in processing order: every assignment repeated
`count` times. -/
def boundTargets : List ProfileConfig → List ProfileConfig
  | [] => []
  | p :: rest => List.replicate p.NumGPUsAssigned p ++ boundTargets rest

/-- The engine loop as a single loop over the bound devices. -/
def deviceLoop {σ : Type} (d : Driver σ) (sockets gpu_ids_list : List Nat) :
    List ProfileConfig → LoopState σ → Step (LoopState σ)
  | [], st => Step.next st
  | p :: rest, st =>
    match processGPU d sockets gpu_ids_list p st with
    | Step.next st1 => deviceLoop d sockets gpu_ids_list rest st1
    | Step.ret st1 => Step.ret st1
    | Step.panic => Step.panic

/-- The devices whose turn is recorded in a trace, in order, each with the compute and
memory type requested for it. -/
def gpuMarkers : List TraceEntry → List (Nat × String × String)
  | [] => []
  | TraceEntry.gpu gpu_id c m :: rest => (gpu_id, c, m) :: gpuMarkers rest
  | _ :: rest => gpuMarkers rest

/-- The usable devices paired, in order, with the targets of the bound devices. -/
def boundDevices (ids : List Nat) (ts : List ProfileConfig) : List (Nat × String × String) :=
  List.zipWith (fun gpu_id p => (gpu_id, p.ComputePartition, p.MemoryPartition)) ids ts

/-- A driver mutation call: a set-memory-partition or set-compute-partition call. -/
def isMutation : TraceEntry → Bool
  | TraceEntry.setMemory _ _ _ _ _ => true
  | TraceEntry.setCompute _ _ _ _ _ => true
  | _ => false

/-- A change whose call did not return success, or a memory change whose readback is the
value read before the call. -/
def failedChange : TraceEntry → Bool
  | TraceEntry.setMemory _ _ ret existing updated =>
    decide (ret ≠ AMDSMI_STATUS_SUCCESS) || decide (updated = existing)
  | TraceEntry.setCompute _ _ ret _ _ => decide (ret ≠ AMDSMI_STATUS_SUCCESS)
  | _ => false

/-- A change whose call returned success and whose readback differs from the value read
before the call. -/
def confirmedChange : TraceEntry → Bool
  | TraceEntry.setMemory _ _ ret existing updated =>
    decide (ret = AMDSMI_STATUS_SUCCESS) && decide (updated ≠ existing)
  | TraceEntry.setCompute _ _ ret existing updated =>
    decide (ret = AMDSMI_STATUS_SUCCESS) && decide (updated ≠ existing)
  | _ => true

/-- The name the driver reports for a compute partition type. -/
def ComputePartitionType.name : ComputePartitionType → String
  | ComputePartitionType.CPX => "CPX"
  | ComputePartitionType.SPX => "SPX"
  | ComputePartitionType.DPX => "DPX"
  | ComputePartitionType.QPX => "QPX"

/-- The name the driver reports for a memory partition type. -/
def MemoryPartitionType.name : MemoryPartitionType → String
  | MemoryPartitionType.NPS1 => "NPS1"
  | MemoryPartitionType.NPS2 => "NPS2"
  | MemoryPartitionType.NPS4 => "NPS4"

/-! ## A simulated node, for concrete runs -/

/-- Behaviour of the simulated driver: the status of the processor type query, and for each
of the two set calls its status and whether it changes the device. -/
structure SimConfig where
  typeRet : Nat
  memRet : Nat
  memEffect : Bool
  compRet : Nat
  compEffect : Bool

/-- The simulated hardware: the (compute, memory) partition of each device. -/
abbrev SimState := Nat → String × String

/-- A node with `n` devices, one socket per device and one processor per socket; socket
and processor handles are the device index. -/
def simDriver (c : SimConfig) (n : Nat) : Driver SimState where
  amdsmi_init := fun _ => 0
  amdsmi_get_socket_handles := fun _ buf =>
    if n = 0 then ⟨31, 0, []⟩
    else match buf with
      | none => ⟨0, n, []⟩
      | some _ => ⟨0, n, List.range n⟩
  amdsmi_get_processor_handles := fun _ socket buf =>
    match buf with
    | none => ⟨0, 1, []⟩
    | some _ => ⟨0, 1, [socket]⟩
  amdsmi_get_processor_type := fun _ _ => (c.typeRet, ProcessorType.AMD_GPU)
  amdsmi_get_gpu_compute_partition := fun hw h => (0, (hw h).1)
  amdsmi_get_gpu_memory_partition := fun hw h => (0, (hw h).2)
  amdsmi_set_gpu_memory_partition := fun hw h ty =>
    (c.memRet, if c.memEffect then Function.update hw h ((hw h).1, ty.name) else hw)
  amdsmi_set_gpu_compute_partition := fun hw h ty =>
    (c.compRet, if c.compEffect then Function.update hw h (ty.name, (hw h).2) else hw)

/-- A driver whose changes succeed and take effect. -/
def idealConfig : SimConfig := ⟨0, 0, true, 0, true⟩

/-- A world with the given hardware, before any engine run. -/
def world0 (hw : SimState) : World SimState :=
  ⟨hw, ⟨"", "", "", []⟩, false, [], [], []⟩

/-- All devices in `SPX`/`NPS1`. -/
def hwSPX : SimState := fun _ => ("SPX", "NPS1")

/-- Example A of the specification. -/
def exampleA : GPUConfigProfile := ⟨[], [⟨"SPX", "NPS1", 8⟩]⟩

/-- Example B of the specification (`e2e_profile1` of the end-to-end tests). -/
def exampleB : GPUConfigProfile :=
  ⟨[2, 3], [⟨"CPX", "NPS1", 1⟩, ⟨"DPX", "NPS1", 4⟩, ⟨"SPX", "NPS1", 1⟩]⟩

/-- The rest of the nested loops of `amdSMIHelper` from a point inside the inner loop: `j`
more iterations for the assignment `p`, then the assignments `rest`. -/
def loopFrom {σ : Type} (d : Driver σ) (sockets gpu_ids_list : List Nat) (p : ProfileConfig)
    (j : Nat) (rest : List ProfileConfig) (st : LoopState σ) : Step (LoopState σ) :=
  match innerLoop d sockets gpu_ids_list p j st with
  | Step.next st1 => outerLoop d sockets gpu_ids_list rest st1
  | Step.ret st1 => Step.ret st1
  | Step.panic => Step.panic

/-- The loop state in which a step ends, if it does not panic. -/
def Step.state? {α : Type} : Step α → Option α
  | Step.next a => some a
  | Step.ret a => some a
  | Step.panic => none

/-- The trace entry of the memory change of lines 467-468 made in hardware state `hw`. -/
def memoryEntry {σ : Type} (d : Driver σ) (cm em : String) (h : Nat) (hw : σ) : TraceEntry :=
  TraceEntry.setMemory h (convertMemoryPartitionType cm)
    (d.amdsmi_set_gpu_memory_partition hw h (convertMemoryPartitionType cm)).1 em
    (getCurrentGPUMemoryPartition d
      (d.amdsmi_set_gpu_memory_partition hw h (convertMemoryPartitionType cm)).2 h)

/-- The trace entry of the compute change of lines 496-499 made in hardware state `hw`. -/
def computeEntry {σ : Type} (d : Driver σ) (cc : String) (h : Nat) (hw : σ) : TraceEntry :=
  TraceEntry.setCompute h (convertComputePartitonType cc)
    (d.amdsmi_set_gpu_compute_partition hw h (convertComputePartitonType cc)).1
    (getCurrentGPUComputePartition d hw h)
    (getCurrentGPUComputePartition d
      (d.amdsmi_set_gpu_compute_partition hw h (convertComputePartitonType cc)).2 h)

/-- The per-device entry written by lines 518-523. -/
def recordedStatus (gpu_id : Nat) (partitionType : String) (failed : Bool) (reason : String) :
    GPUPartitionStatus :=
  if failed then ⟨gpu_id, partitionType, "Failure", "Partition failed with reason: " ++ reason⟩
  else ⟨gpu_id, partitionType, "Success", "Successfully partitioned"⟩

/-- The loop state after lines 425-461 for an accelerator that needs a change. -/
def readState {σ : Type} (d : Driver σ) (p : ProfileConfig) (gpu_id h : Nat)
    (st : LoopState σ) : LoopState σ :=
  { logTrace (TraceEntry.read h (getCurrentGPUComputePartition d st.w.hw h)
      (getCurrentGPUMemoryPartition d st.w.hw h))
      (logTrace (TraceEntry.gpu gpu_id p.ComputePartition p.MemoryPartition) st) with
    partition_needed := true }

/-- The invariant of the engine loop when every usable device is an accelerator: `k` devices
have had their turn, in the order of the usable list, each has its entry in the per-device
result, and `partition_failed` tells whether a change failed so far. -/
def loopInv {σ : Type} (ids : List Nat) (ts : List ProfileConfig) (st : LoopState σ) (k : Nat)
    (s : LoopState σ) : Prop :=
  s.idx = k ∧ s.w.partStatus.GPUStatus.length = ids.length ∧
  (∃ tail, s.w.trace = st.w.trace ++ tail ∧ gpuMarkers tail = (boundDevices ids ts).take k ∧
    s.w.partition_failed = (st.w.partition_failed || tail.any failedChange)) ∧
  (∀ j, j < k → ∃ gpu_id p status message, ids[j]? = some gpu_id ∧ ts[j]? = some p ∧
    s.w.partStatus.GPUStatus[j]? = some ⟨gpu_id, targetLabel p, status, message⟩) ∧
  s.w.events = st.w.events ∧ s.w.partStatus.FinalStatus = st.w.partStatus.FinalStatus ∧
  s.w.partStatus.SelectedProfile = st.w.partStatus.SelectedProfile

/-- A driver on `n` devices whose partition changes succeed and take effect: the driver
initializes, enumerates the same sockets in every hardware state, every device is an
accelerator with processor handle `handle gpu_id`, each set call returns success and the
addressed device then reports the requested type, a compute change leaves the memory type of
the device alone, and a change on one device leaves the compute type of the other devices
alone and their memory type either alone or at the requested type (the memory partition mode
may be node-wide). -/
structure IdealDriver {σ : Type} (d : Driver σ) (sockets : List Nat) (n : Nat)
    (handle : Nat → Nat) : Prop where
  init_ok : ∀ hw, d.amdsmi_init hw = AMDSMI_STATUS_SUCCESS
  sockets_ok : ∀ hw, amdsmiGetSocketHandles d hw = some (sockets, n)
  probe_ok : ∀ hw gpu_id, gpu_id < n → probeGPU d hw sockets gpu_id = Probe.gpu (handle gpu_id)
  memory_ok : ∀ hw i ty, i < n →
    (d.amdsmi_set_gpu_memory_partition hw (handle i) ty).1 = AMDSMI_STATUS_SUCCESS
  memory_effect : ∀ hw i ty, i < n →
    getCurrentGPUMemoryPartition d (d.amdsmi_set_gpu_memory_partition hw (handle i) ty).2
      (handle i) = ty.name
  memory_frame : ∀ hw i ty j, i < n → j < n → j ≠ i →
    getCurrentGPUComputePartition d (d.amdsmi_set_gpu_memory_partition hw (handle i) ty).2
        (handle j) = getCurrentGPUComputePartition d hw (handle j) ∧
    (getCurrentGPUMemoryPartition d (d.amdsmi_set_gpu_memory_partition hw (handle i) ty).2
        (handle j) = getCurrentGPUMemoryPartition d hw (handle j) ∨
     getCurrentGPUMemoryPartition d (d.amdsmi_set_gpu_memory_partition hw (handle i) ty).2
        (handle j) = ty.name)
  compute_ok : ∀ hw i ty, i < n →
    (d.amdsmi_set_gpu_compute_partition hw (handle i) ty).1 = AMDSMI_STATUS_SUCCESS
  compute_effect : ∀ hw i ty, i < n →
    getCurrentGPUComputePartition d (d.amdsmi_set_gpu_compute_partition hw (handle i) ty).2
      (handle i) = ty.name ∧
    getCurrentGPUMemoryPartition d (d.amdsmi_set_gpu_compute_partition hw (handle i) ty).2
      (handle i) = getCurrentGPUMemoryPartition d hw (handle i)
  compute_frame : ∀ hw i ty j, i < n → j < n → j ≠ i →
    getCurrentGPUComputePartition d (d.amdsmi_set_gpu_compute_partition hw (handle i) ty).2
        (handle j) = getCurrentGPUComputePartition d hw (handle j) ∧
    getCurrentGPUMemoryPartition d (d.amdsmi_set_gpu_compute_partition hw (handle i) ty).2
        (handle j) = getCurrentGPUMemoryPartition d hw (handle j)

/-- Device `gpu_id` reports the partition types of the assignment `p`. -/
def atTarget {σ : Type} (d : Driver σ) (hw : σ) (h : Nat) (p : ProfileConfig) : Prop :=
  getCurrentGPUComputePartition d hw h = p.ComputePartition ∧
  getCurrentGPUMemoryPartition d hw h = p.MemoryPartition

/-- The invariant of a run on an ideal driver: the first `k` bound devices report their
targets and nothing has failed. -/
def firstRunInv {σ : Type} (d : Driver σ) (handle : Nat → Nat) (ids : List Nat)
    (ts : List ProfileConfig) (st : LoopState σ) (k : Nat) (s : LoopState σ) : Prop :=
  s.idx = k ∧ s.w.partStatus.GPUStatus.length = ids.length ∧
  s.w.partition_failed = st.w.partition_failed ∧
  ∀ j g q, j < k → ids[j]? = some g → ts[j]? = some q → atTarget d s.w.hw (handle g) q

/-- The invariant of a run that finds every bound device at its target: the hardware is
untouched and the trace gains no mutation call. -/
def secondRunInv {σ : Type} (st : LoopState σ) (ids : List Nat) (k : Nat) (s : LoopState σ) :
    Prop :=
  s.idx = k ∧ s.w.partStatus.GPUStatus.length = ids.length ∧ s.w.hw = st.w.hw ∧
  s.w.partition_failed = st.w.partition_failed ∧ s.partition_needed = st.partition_needed ∧
  (∃ tail, s.w.trace = st.w.trace ++ tail ∧ ∀ e ∈ tail, isMutation e = false) ∧
  s.w.events = st.w.events ∧ s.w.labels = st.w.labels ∧
  s.w.partStatus.FinalStatus = st.w.partStatus.FinalStatus

/-- A driver whose memory change reports `AMDSMI_STATUS_BUSY` and changes nothing, and whose
compute change succeeds and takes effect. -/
def busyMemoryConfig : SimConfig := ⟨0, 30, false, 0, true⟩

/-- A driver whose set calls report success and change nothing. -/
def inertConfig : SimConfig := ⟨0, 0, false, 0, false⟩

/-- A driver whose processor type query fails. -/
def noTypeConfig : SimConfig := ⟨7, 0, true, 0, true⟩

/-- The loop state at the start of a batch on one device in `SPX`/`NPS1`. -/
def oneDeviceStart : LoopState SimState := startBatch [0] (world0 hwSPX)

/-- The config document of the end-to-end tests, reduced to Examples A and B. -/
def exampleConfig : List (String × GPUConfigProfile) :=
  [("default", exampleA), ("e2e_profile1", exampleB)]
/-- A driver whose compute change reports `AMDSMI_STATUS_BUSY` and changes nothing. -/
def busyComputeConfig : SimConfig := ⟨0, 0, true, 30, false⟩

/-- A config document with one profile asking for `CPX`/`NPS1` on the only device, and one
asking for `SPX`/`NPS4`. -/
def oneDeviceConfig : List (String × GPUConfigProfile) :=
  [("cpx", ⟨[], [⟨"CPX", "NPS1", 1⟩]⟩), ("nps4", ⟨[], [⟨"SPX", "NPS4", 1⟩]⟩)]

/-- A loop state in the middle of a batch on two devices: the first device has failed. -/
def midBatch : LoopState SimState :=
  { w := { hw := hwSPX
           partStatus := ⟨"p", "Failure", "", [⟨0, "CPX-NPS4", "Failure", "x"⟩, ⟨0, "", "", ""⟩]⟩
           partition_failed := true
           trace := []
           events := []
           labels := ["failure"] }
    idx := 1
    partition_needed := true
    partition_err_reason := "Device busy." }

/-! ## The config document of the end-to-end tests

`CreateConfigMap` of `test/k8s-e2e/clients/k8s.go`; a `NumGPUsAssigned` left out is zero. -/

/-- The map `profileslist.ProfilesList` written by `CreateConfigMap`. -/
def e2eConfig : List (String × GPUConfigProfile) :=
  [("default", ⟨[], [⟨"SPX", "NPS1", 8⟩]⟩),
   ("e2e_profile1", ⟨[2, 3], [⟨"CPX", "NPS1", 1⟩, ⟨"DPX", "NPS1", 4⟩, ⟨"SPX", "NPS1", 1⟩]⟩),
   ("e2e_profile2", ⟨[], [⟨"CPX", "NPS4", 0⟩]⟩),
   ("inval_prof1", ⟨[], [⟨"InvalidName", "NPS1", 8⟩]⟩),
   ("inval_prof2", ⟨[], [⟨"SPX", "InvalidName", 8⟩]⟩),
   ("inval_prof3", ⟨[], [⟨"SPX", "NPS1", 100⟩]⟩),
   ("inval_prof4", ⟨[], [⟨"DPX", "NPS4", 7⟩, ⟨"SPX", "NPS1", 1⟩]⟩),
   ("nps4", ⟨[], [⟨"CPX", "NPS4", 8⟩]⟩),
   ("nps2", ⟨[], [⟨"DPX", "NPS2", 8⟩]⟩)]

/-- Example C of the specification. -/
def exampleC : GPUConfigProfile := ⟨[], [⟨"CPX", "NPS1", 4⟩, ⟨"SPX", "NPS4", 4⟩]⟩

/-- What an engine invocation on the eight-device simulated node leaves: the error returned,
the node status labels requested, the names of the events created and the driver calls. -/
def e2eRun (selectedProfile : String) :
    Option (Option String × List String × List String × List TraceEntry) :=
  (PartitionGPU (simDriver idealConfig 8) (ConfigFile.parsed e2eConfig) selectedProfile
    (world0 hwSPX)).map
    (fun r => (r.2, r.1.labels, r.1.events.map (fun e => e.reason), r.1.trace))

/-! ## `RetryPartition` (lines 753-798)

Time is `time.Now()` in nanoseconds.  Only an engine invocation and the wait of one minute
take time; the token `ctx`, the config document and the driver are given from outside. -/

/-- `time.Minute`. -/
def Minute : Nat := 60 * 1000000000

/-- What a session meets from outside: the instant at which its token `ctx` is cancelled (if
ever), the config document at each instant, and for the `k`-th engine invocation of the
session the driver as it answers then and the time the invocation takes. -/
structure RetryEnv (σ : Type) where
  cancelAt : Option Nat
  config : Nat → ConfigFile
  driver : Nat → Driver σ
  duration : Nat → Nat

/-- Whether `ctx.Done()` is closed at the instant `now`. -/
def ctxDone {σ : Type} (env : RetryEnv σ) (now : Nat) : Bool :=
  match env.cancelAt with
  | none => false
  | some t => decide (t ≤ now)

/-- The `select` of lines 786-792 entered at `now`: whether `ctx.Done()` is closed before
the timer of one minute fires. -/
def waitCancelled {σ : Type} (env : RetryEnv σ) (now : Nat) : Bool :=
  match env.cancelAt with
  | none => false
  | some t => decide (t < now + Minute)

/-- One call of `PartitionGPU` made by a session: when it started, when it returned, and the
error it returned. -/
structure Invocation where
  start : Nat
  finish : Nat
  err : Option String
  deriving DecidableEq, Repr

/-- The world, the clock, the local `count` and the engine invocations made so far. -/
structure RetryState (σ : Type) where
  w : World σ
  now : Nat
  count : Nat
  calls : List Invocation

/-- How `RetryPartition` returns. -/
inductive Ending where
  /-- Lines 760-762: the token was found cancelled at the start of an iteration. -/
  | aborted
  /-- Lines 789-791: the token was cancelled during the wait. -/
  | abortedInWait
  /-- Lines 768-771: the session is past its deadline. -/
  | expired
  /-- Lines 794-795: `PartitionGPU` returned nil. -/
  | done
  /-- `PartitionGPU` panicked. -/
  | panic
  /-- The iterations allowed to the model are used up. -/
  | outOfFuel
  deriving DecidableEq, Repr

/-- Lines 781-783: the one-time notification of a retry. -/
def markRetrying {σ : Type} (selectedProfile : String) (w : World σ) : World σ :=
  generateK8sEvent (some "partition retrying") K8EventPartitionRetrying
    { w with partStatus :=
        { w.partStatus with
          FinalStatus := "Partition failed, retrying."
          Reason := "Partition retrying for profile: " ++ selectedProfile } }

/-- The state when an engine invocation that started at `s.now` has returned. -/
def recordCall {σ : Type} (env : RetryEnv σ) (s : RetryState σ) (w1 : World σ)
    (err : Option String) : RetryState σ :=
  { s with
    w := w1
    now := s.now + env.duration s.calls.length
    calls := s.calls ++ [⟨s.now, s.now + env.duration s.calls.length, err⟩] }

/-- Lines 779-784: on the first failure of the session the retry is notified. -/
def notifyRetry {σ : Type} (selectedProfile : String) (s : RetryState σ) : RetryState σ :=
  if s.count = 1 then { s with count := s.count + 1, w := markRetrying selectedProfile s.w }
  else s

/-- One iteration of the `for` loop (lines 758-797): the state it leaves, and how
`RetryPartition` returns if it does (`none`: the loop goes on). -/
def retryIteration {σ : Type} (env : RetryEnv σ) (selectedProfile : String) (expiration : Nat)
    (s : RetryState σ) : RetryState σ × Option Ending :=
  if ctxDone env s.now then (s, some Ending.aborted)
  else if expiration < s.now then
    ({ s with w := generateK8sEvent (some "partition failed") K8EventPartitionFailed s.w },
      some Ending.expired)
  else
    match PartitionGPU (env.driver s.calls.length) (env.config s.now) selectedProfile s.w with
    | none => (s, some Ending.panic)
    | some (w1, none) => (recordCall env s w1 none, some Ending.done)
    | some (w1, some err) =>
      let s1 := notifyRetry selectedProfile (recordCall env s w1 (some err))
      if waitCancelled env s1.now then (s1, some Ending.abortedInWait)
      else ({ s1 with now := s1.now + Minute }, none)

/-- The `for` loop, with the number of iterations it may still run. -/
def retryLoop {σ : Type} (env : RetryEnv σ) (selectedProfile : String) (expiration : Nat) :
    Nat → RetryState σ → Ending × RetryState σ
  | 0, s => (Ending.outOfFuel, s)
  | fuel + 1, s =>
    match retryIteration env selectedProfile expiration s with
    | (s1, some e) => (e, s1)
    | (s1, none) => retryLoop env selectedProfile expiration fuel s1

/-- `RetryPartition` called at the instant `start`.  The loop gets 32 iterations: a session
never runs more (`retryLoop_fuel`). -/
def RetryPartition {σ : Type} (env : RetryEnv σ) (selectedProfile : String) (start : Nat)
    (w : World σ) : Ending × RetryState σ :=
  retryLoop env selectedProfile (start + 30 * Minute) 32 ⟨w, start, 1, []⟩

/-! ## The trigger mailbox and the `Worker` (lines 57-62, 800-828) -/

/-- `TriggerRetryLoop` on the channel `retryCh` of capacity one, given as the value it
buffers: the `select` has a `default` branch, so the call returns in both cases. -/
def TriggerRetryLoop (selectedProfile : String) (retryCh : Option String) : Option String :=
  match retryCh with
  | none => some selectedProfile
  | some pending => some pending

/-- Where the `Worker` goroutine stands: at `for prof := range retryCh` (parked there or
about to be), or in `wg.Wait()` with the trigger `prof` it has received. -/
inductive WorkerPc where
  | receiving
  | waiting (prof : String)
  deriving DecidableEq, Repr

/-- One goroutine `RetryPartition(ctx, prof)` started by the `Worker`: its profile, whether
its token has been cancelled, and whether it has returned (`wg.Done()`). -/
structure Attempt where
  profile : String
  cancelled : Bool
  returned : Bool
  deriving DecidableEq, Repr

/-- The package variables `retryCh`, `cancelFunc` (the index of the attempt whose token it
cancels) and `wg`, the `Worker` goroutine, and the attempts started so far. -/
structure Coordinator where
  retryCh : Option String
  worker : WorkerPc
  cancelFunc : Option Nat
  wg : Nat
  attempts : List Attempt
  deriving DecidableEq, Repr

/-- What can happen next. -/
inductive Action where
  /-- Some goroutine calls `TriggerRetryLoop(prof, _)`. -/
  | trigger (prof : String)
  /-- The `Worker` takes the pending trigger from `retryCh` and runs up to `wg.Wait()` or,
  when no cancel function is stored, to the end of the loop body. -/
  | receive
  /-- The call `wg.Wait()` returns and the `Worker` runs to the end of the loop body. -/
  | resume
  /-- The attempt of index `i` returns: its deferred `wg.Done()` runs (line 754). -/
  | finish (i : Nat)
  deriving DecidableEq, Repr

/-- Lines 811-817: a new attempt is started and its cancel function stored. -/
def startAttempt (prof : String) (c : Coordinator) : Coordinator :=
  { c with
    worker := WorkerPc.receiving
    cancelFunc := some c.attempts.length
    wg := c.wg + 1
    attempts := c.attempts ++ [⟨prof, false, false⟩] }

/-- The call `cancelFunc()` for the attempt of index `i`. -/
def cancelAttempt (i : Nat) (attempts : List Attempt) : List Attempt :=
  attempts.modify (fun a => { a with cancelled := true }) i

/-- One step of the system; `none` when the action cannot happen in state `c`. -/
def Coordinator.step (c : Coordinator) : Action → Option Coordinator
  | Action.trigger prof => some { c with retryCh := TriggerRetryLoop prof c.retryCh }
  | Action.receive =>
    match c.worker, c.retryCh with
    | WorkerPc.receiving, some prof =>
      match c.cancelFunc with
      | some i =>
        some { c with
          retryCh := none
          worker := WorkerPc.waiting prof
          attempts := cancelAttempt i c.attempts }
      | none => some (startAttempt prof { c with retryCh := none })
    | _, _ => none
  | Action.resume =>
    match c.worker with
    | WorkerPc.waiting prof => if c.wg = 0 then some (startAttempt prof c) else none
    | WorkerPc.receiving => none
  | Action.finish i =>
    match c.attempts[i]? with
    | some a =>
      if a.returned then none
      else some { c with
        wg := c.wg - 1
        attempts := c.attempts.modify (fun a => { a with returned := true }) i }
    | none => none

/-- The steps of a schedule, in order. -/
def Coordinator.run (c : Coordinator) : List Action → Option Coordinator
  | [] => some c
  | a :: rest =>
    match c.step a with
    | some c1 => c1.run rest
    | none => none

/-- The state in which `main` starts the `Worker`. -/
def Coordinator.init : Coordinator := ⟨none, WorkerPc.receiving, none, 0, []⟩

/-! ## Notions used to state the properties of a session -/

/-- The event names used by `PartitionGPU` and `amdSMIHelper`. -/
def engineEvents : List String :=
  [K8EventConfigMapNotPresent, K8EventInvalidJSONInConfigMap, K8EventNonExistentProfile,
   K8EventAMDSMIAPIFailure, K8EventInvalidProfile, K8EventSuccessfullyPartitioned,
   K8EventPartitionNotNeeded]

/-- An event of the engine whose result record has overall status `Success` or `Failure`. -/
def engineEvent (e : K8sEvent) : Prop :=
  e.reason ∈ engineEvents ∧ (e.status.FinalStatus = "Success" ∨ e.status.FinalStatus = "Failure")

/-- The number of events of name `reason` in a list of events. -/
def countReason (reason : String) (events : List K8sEvent) : Nat :=
  events.countP (fun e => e.reason = reason)

/-- Between two consecutive engine invocations of a session the earlier one returned an error
and exactly one minute passed from its return to the start of the later one. -/
def waitsBetween (calls : List Invocation) : Prop :=
  ∀ (i : Nat) (c c' : Invocation), calls[i]? = some c → calls[i + 1]? = some c' →
    c.err ≠ none ∧ c'.start = c.finish + Minute

/-- The event of lines 781-783, created when the result record is `ps`. -/
def retryingEvent (selectedProfile : String) (ps : PartitionStatus) : K8sEvent :=
  ⟨K8EventPartitionRetrying, true,
    { ps with
      FinalStatus := "Partition failed, retrying."
      Reason := "Partition retrying for profile: " ++ selectedProfile }⟩

/-- The kinds of event a session creates: an engine event with overall status `Success` or
`Failure`, the notification of a retry, and the final report of an expired session. -/
def sessionEvent (ev : K8sEvent) : Prop :=
  engineEvent ev ∨
  (ev.reason = K8EventPartitionRetrying ∧
    ev.status.FinalStatus = "Partition failed, retrying.") ∨
  (ev.reason = K8EventPartitionFailed ∧
    (ev.status.FinalStatus = "Failure" ∨
      ev.status.FinalStatus = "Partition failed, retrying."))

/-- What holds at the start of every iteration of the session started at `start` in the
world `w`. -/
structure SessionInv {σ : Type} (env : RetryEnv σ) (selectedProfile : String) (start : Nat)
    (w : World σ) (s : RetryState σ) : Prop where
  waits : waitsBetween s.calls
  starts : ∀ c ∈ s.calls, c.start ≤ start + 30 * Minute ∧ ctxDone env c.start = false
  took : ∀ (k : Nat) (c : Invocation), s.calls[k]? = some c →
    c.finish = c.start + env.duration k
  spaced : ∀ (k : Nat) (c : Invocation), s.calls[k]? = some c → start + k * Minute ≤ c.start
  failed : ∀ c ∈ s.calls, c.err ≠ none
  clock : s.calls = [] → s.now = start
  fresh : s.calls = [] → s.w = w
  clockLast : ∀ c, s.calls.getLast? = some c → s.now = c.finish + Minute
  elapsed : start + s.calls.length * Minute ≤ s.now
  count : s.count = 1 ↔ s.calls = []
  events : ∃ added, s.w.events = w.events ++ added ∧ (∀ ev ∈ added, sessionEvent ev) ∧
    countReason K8EventPartitionRetrying added = (if s.calls = [] then 0 else 1) ∧
    countReason K8EventPartitionFailed added = 0
  statusOne : s.calls.length = 1 →
    s.w.partStatus.FinalStatus = "Partition failed, retrying."
  statusMore : 2 ≤ s.calls.length → s.w.partStatus.FinalStatus = "Failure"
  first : ∀ c, s.calls[0]? = some c → ∃ w1 err rest,
    PartitionGPU (env.driver 0) (env.config start) selectedProfile w = some (w1, some err) ∧
    c = ⟨start, start + env.duration 0, some err⟩ ∧
    s.w.events = w1.events ++ retryingEvent selectedProfile w1.partStatus :: rest

/-- What holds when the session started at `start` in the world `w` has ended in the way
`e`, leaving the state `s`. -/
structure SessionEnd {σ : Type} (env : RetryEnv σ) (selectedProfile : String) (start : Nat)
    (w : World σ) (e : Ending) (s : RetryState σ) : Prop where
  waits : waitsBetween s.calls
  starts : ∀ c ∈ s.calls, c.start ≤ start + 30 * Minute ∧ ctxDone env c.start = false
  took : ∀ (k : Nat) (c : Invocation), s.calls[k]? = some c →
    c.finish = c.start + env.duration k
  spaced : ∀ (k : Nat) (c : Invocation), s.calls[k]? = some c → start + k * Minute ≤ c.start
  bound : s.calls.length ≤ 31
  events : ∃ added, s.w.events = w.events ++ added ∧ (∀ ev ∈ added, sessionEvent ev) ∧
    countReason K8EventPartitionRetrying added =
      (if s.calls.any (fun c => c.err.isSome) then 1 else 0) ∧
    countReason K8EventPartitionFailed added = (if e = Ending.expired then 1 else 0)
  first : ∀ c, s.calls[0]? = some c → c.err ≠ none → ∃ w1 err rest,
    PartitionGPU (env.driver 0) (env.config start) selectedProfile w = some (w1, some err) ∧
    c = ⟨start, start + env.duration 0, some err⟩ ∧
    s.w.events = w1.events ++ retryingEvent selectedProfile w1.partStatus :: rest
  expired : e = Ending.expired →
    ctxDone env s.now = false ∧ start + 30 * Minute < s.now ∧ s.calls ≠ [] ∧
    s.w.events.getLast? = some ⟨K8EventPartitionFailed, true, s.w.partStatus⟩ ∧
    (s.calls.length = 1 → s.w.partStatus.FinalStatus = "Partition failed, retrying.") ∧
    (2 ≤ s.calls.length → s.w.partStatus.FinalStatus = "Failure")
  aborted : e = Ending.aborted → ctxDone env s.now = true
  clock : e = Ending.aborted ∨ e = Ending.expired →
    (s.calls = [] → s.now = start) ∧ ∀ c, s.calls.getLast? = some c → s.now = c.finish + Minute
  inWait : e = Ending.abortedInWait →
    ∃ c, s.calls.getLast? = some c ∧ c.err ≠ none ∧ waitCancelled env c.finish = true
  done : e = Ending.done → ∃ c, s.calls.getLast? = some c ∧ c.err = none
  failed : e ≠ Ending.done → ∀ c ∈ s.calls, c.err ≠ none

/-! ## Sessions on the simulated node -/

/-- The attempt-fatal conditions of an engine invocation, as the code meets them: the config
document is missing or unparsable, the profile name is not in it, the driver does not
initialize, or the profile is rejected by `validateProfile` (the flag `partition_failed` not
being left set by an earlier invocation). -/
def attemptFatal {σ : Type} (d : Driver σ) (cfg : ConfigFile) (selectedProfile : String)
    (w : World σ) : Prop :=
  match cfg with
  | ConfigFile.missing => True
  | ConfigFile.unparsable => True
  | ConfigFile.parsed ProfilesList =>
    match lookupProfile selectedProfile ProfilesList with
    | none => True
    | some profile =>
      d.amdsmi_init w.hw ≠ AMDSMI_STATUS_SUCCESS ∨
      (w.partition_failed = false ∧
        ∃ sockets n e, amdsmiGetSocketHandles d w.hw = some (sockets, n) ∧
          validateProfile profile n = Verdict.err e)

/-- What is seen of a session from outside: how it ended, the clock, the engine invocations,
the events created (name and overall status), the node status labels requested and the
engine's turns. -/
structure SessionView where
  ending : Ending
  now : Nat
  calls : List Invocation
  events : List (String × String)
  labels : List String
  trace : List TraceEntry
  deriving DecidableEq, Repr

def sessionView {σ : Type} (r : Ending × RetryState σ) : SessionView :=
  ⟨r.1, r.2.now, r.2.calls, r.2.w.events.map (fun e => (e.reason, e.status.FinalStatus)),
    r.2.w.labels, r.2.w.trace⟩

/-- Eight devices and a well-behaved driver; the config document of the end-to-end tests
appears one minute after the start of the session; an engine invocation takes a second. -/
def lateConfigEnv : RetryEnv SimState :=
  ⟨none, fun t => if t < Minute then ConfigFile.missing else ConfigFile.parsed e2eConfig,
    fun _ => simDriver idealConfig 8, fun _ => 1000000000⟩

/-- One device whose compute change always reports `AMDSMI_STATUS_BUSY`; every engine
invocation takes `duration`. -/
def busyEnv (cancelAt : Option Nat) (duration : Nat) : RetryEnv SimState :=
  ⟨cancelAt, fun _ => ConfigFile.parsed oneDeviceConfig, fun _ => simDriver busyComputeConfig 1,
    fun _ => duration⟩

/-- As `busyEnv`, the config document being removed within the first minute. -/
def removedConfigEnv : RetryEnv SimState :=
  ⟨none, fun t => if t < Minute then ConfigFile.parsed oneDeviceConfig else ConfigFile.missing,
    fun _ => simDriver busyComputeConfig 1, fun _ => 0⟩

/-- A driver that does not initialize. -/
def noInitDriver : Driver SimState :=
  { simDriver idealConfig 8 with amdsmi_init := fun _ => 1 }

/-! ## Notions used to state the properties of the `Worker` -/

/-- The triggers accepted and not yet turned into an attempt, in the order in which they
will be: the one the `Worker` holds in `wg.Wait()`, then the one in the mailbox. -/
def Coordinator.pending (c : Coordinator) : List String :=
  (match c.worker with
    | WorkerPc.waiting prof => [prof]
    | WorkerPc.receiving => []) ++ c.retryCh.toList

/-- The number of attempts that have not returned. -/
def Coordinator.running (c : Coordinator) : Nat :=
  c.attempts.countP (fun a => !a.returned)

/-- What holds in every state the system reaches from `Coordinator.init`. -/
structure CoordInv (c : Coordinator) : Prop where
  wgRunning : c.wg = c.running
  single : c.running ≤ 1
  earlier : ∀ (i : Nat) (a : Attempt), c.attempts[i]? = some a → i + 1 < c.attempts.length →
    a.cancelled = true ∧ a.returned = true
  lastCancelled : ∀ a, c.attempts.getLast? = some a →
    (a.cancelled = true ↔ ∃ prof, c.worker = WorkerPc.waiting prof)
  stored : c.cancelFunc = if c.attempts = [] then none else some (c.attempts.length - 1)
  idle : c.attempts = [] → c.worker = WorkerPc.receiving

/-- Whether the `Worker` holds a trigger in `wg.Wait()`: 1 if so, 0 otherwise. -/
def Coordinator.held (c : Coordinator) : Nat :=
  match c.worker with
  | WorkerPc.waiting _ => 1
  | WorkerPc.receiving => 0

/-- The state after `main` has submitted the trigger `"A"`, before the `Worker` has taken
it. -/
def pendingA : Coordinator := ⟨some "A", WorkerPc.receiving, none, 0, []⟩

/-! ## Notions used to state what the engine reports -/

/-- What `steps` turns of the engine loop do to the world, from the loop state `st` to the
loop state `stF`; `ret` tells whether the last turn made `amdSMIHelper` return (the
processor type query failed).  The index moves on by at most one per turn, the per-device
list keeps its length, the overall status is left alone, `partition_failed` is never reset,
the only label requested is `failure` (whenever the flag gets set and when the loop
returns), and an event is created only when the loop returns. -/
structure LoopEffect {σ : Type} (st stF : LoopState σ) (steps : Nat) (ret : Bool) : Prop where
  idxGe : st.idx ≤ stF.idx
  idxLe : stF.idx ≤ st.idx + steps
  len : stF.w.partStatus.GPUStatus.length = st.w.partStatus.GPUStatus.length
  status : stF.w.partStatus.FinalStatus = st.w.partStatus.FinalStatus
  mono : st.w.partition_failed = true → stF.w.partition_failed = true
  labels : ∃ la, stF.w.labels = st.w.labels ++ la ∧ (∀ l ∈ la, l = "failure") ∧
    (stF.w.partition_failed = true → st.w.partition_failed = true ∨ la ≠ []) ∧
    (ret = false → la ≠ [] → stF.w.partition_failed = true) ∧
    (ret = true → la ≠ [])
  events : (ret = false → stF.w.events = st.w.events) ∧
    (ret = true → ∃ e, stF.w.events = st.w.events ++ [e] ∧
      e.reason = K8EventAMDSMIAPIFailure ∧ e.warning = true ∧
      e.status.FinalStatus = st.w.partStatus.FinalStatus)

/-! ## Engine invocations on the simulated node -/

/-- What is seen of an engine invocation from outside: the error returned, the overall
status, the events created (name, whether of type `Warning`, overall status), the node
status labels requested, the per-device result and the engine's turns. -/
structure InvocationView where
  err : Option String
  finalStatus : String
  events : List (String × Bool × String)
  labels : List String
  perDevice : List GPUPartitionStatus
  trace : List TraceEntry
  deriving DecidableEq, Repr

/-- The view of the result of `PartitionGPU`; `none` is a panic. -/
def invocationView {σ : Type} (r : Option (World σ × Option String)) : Option InvocationView :=
  r.map (fun x =>
    ⟨x.2, x.1.partStatus.FinalStatus,
      x.1.events.map (fun e => (e.reason, e.warning, e.status.FinalStatus)),
      x.1.labels, x.1.partStatus.GPUStatus, x.1.trace⟩)

/-- A driver on `n` devices whose compute change is refused with `AMDSMI_STATUS_BUSY` on
device 0 and succeeds on every other device. -/
def firstBusyDriver (n : Nat) : Driver SimState :=
  { simDriver idealConfig n with
    amdsmi_set_gpu_compute_partition := fun hw h ty =>
      if h = 0 then (AMDSMI_STATUS_BUSY, hw)
      else (simDriver idealConfig n).amdsmi_set_gpu_compute_partition hw h ty }

/-- A config document for small nodes: `cpx2` and `cpx1` ask for `CPX`/`NPS1` on two devices
and on one, `dup` excludes device 2 twice and asks for `CPX`/`NPS1` on six devices, `none`
has no assignment and no exclusion, `zero` has one assignment of no device, `many` asks
for a hundred devices. -/
def smallConfig : List (String × GPUConfigProfile) :=
  [("cpx2", ⟨[], [⟨"CPX", "NPS1", 2⟩]⟩),
   ("cpx1", ⟨[], [⟨"CPX", "NPS1", 1⟩]⟩),
   ("dup", ⟨[2, 2], [⟨"CPX", "NPS1", 6⟩]⟩),
   ("none", ⟨[], []⟩),
   ("zero", ⟨[], [⟨"SPX", "NPS1", 0⟩]⟩),
   ("many", ⟨[], [⟨"SPX", "NPS1", 100⟩]⟩)]

/-- A driver on a node of three devices that counts two sockets when asked for the count
and three when asked for the handles, of which it writes two: the slice returned by
`amdsmiGetSocketHandles` has two handles while its count is three. -/
def overcountDriver : Driver SimState :=
  { simDriver idealConfig 3 with
    amdsmi_get_socket_handles := fun _ buf =>
      match buf with
      | none => ⟨0, 2, []⟩
      | some _ => ⟨0, 3, [0, 1]⟩ }

/-- A config document for a node of three devices: `spx3` asks for `SPX`/`NPS1` on all
three. -/
def threeConfig : List (String × GPUConfigProfile) :=
  [("spx3", ⟨[], [⟨"SPX", "NPS1", 3⟩]⟩)]

/-! # Theorems

## `createGPUIDList` -/

theorem filterHit_iff (i : Nat) (f : List Nat) : filterHit i f = true ↔ i ∈ f := by
  induction f with
  | nil => simp [filterHit]
  | cons a rest ih =>
    simp only [filterHit, List.mem_cons]
    by_cases h : a = i
    · simp [h]
    · simp only [h, if_false, ih]
      constructor
      · intro hm; exact Or.inr hm
      · rintro (rfl | hm)
        · exact absurd rfl h
        · exact hm

theorem createGPUIDList_succ (f : List Nat) (n : Nat) :
    createGPUIDList f (n + 1) =
      createGPUIDList f n ++ (if filterHit n f then [] else [n]) := by
  unfold createGPUIDList
  rw [List.range_succ, List.foldl_append]
  simp only [List.foldl_cons, List.foldl_nil]
  split <;> simp

theorem createGPUIDList_eq_filter (f : List Nat) (n : Nat) :
    createGPUIDList f n = (List.range n).filter (fun i => !filterHit i f) := by
  induction n with
  | zero => rfl
  | succ n ih =>
    rw [createGPUIDList_succ, ih, List.range_succ, List.filter_append]
    congr 1
    by_cases h : filterHit n f = true
    · simp [h]
    · simp [h]

theorem mem_createGPUIDList (f : List Nat) (n i : Nat) :
    i ∈ createGPUIDList f n ↔ (i < n ∧ i ∉ f) := by
  rw [createGPUIDList_eq_filter, List.mem_filter, List.mem_range]
  have := filterHit_iff i f
  constructor
  · rintro ⟨h1, h2⟩
    refine ⟨h1, fun hm => ?_⟩
    rw [this.mpr hm] at h2
    simp at h2
  · rintro ⟨h1, h2⟩
    refine ⟨h1, ?_⟩
    cases hh : filterHit i f
    · rfl
    · exact absurd (this.mp hh) h2

theorem createGPUIDList_pairwise (f : List Nat) (n : Nat) :
    (createGPUIDList f n).Pairwise (· < ·) := by
  rw [createGPUIDList_eq_filter]
  exact List.Pairwise.filter _ (List.pairwise_lt_range n)

theorem createGPUIDList_nodup (f : List Nat) (n : Nat) :
    (createGPUIDList f n).Nodup := by
  rw [createGPUIDList_eq_filter]
  exact List.Nodup.filter _ (List.nodup_range n)

/-- C2: for every exclusion list and device count `n`, `createGPUIDList` returns exactly the
indices `i < n` that do not occur in the exclusion list, each exactly once, in strictly
ascending order; exclusions `[2, 3]` with `n = 8` give `[0, 1, 4, 5, 6, 7]`. -/
theorem createGPUIDList_spec (f : List Nat) (n : Nat) :
    (∀ i, i ∈ createGPUIDList f n ↔ (i < n ∧ i ∉ f)) ∧
    (∀ i, (createGPUIDList f n).count i = if i < n ∧ i ∉ f then 1 else 0) ∧
    (createGPUIDList f n).Pairwise (· < ·) ∧
    createGPUIDList [2, 3] 8 = [0, 1, 4, 5, 6, 7] := by
  refine ⟨mem_createGPUIDList f n, fun i => ?_, createGPUIDList_pairwise f n, by decide⟩
  split
  · next h =>
    exact List.count_eq_one_of_mem (createGPUIDList_nodup f n) ((mem_createGPUIDList f n i).mpr h)
  · next h =>
    exact List.count_eq_zero_of_not_mem (fun hm => h ((mem_createGPUIDList f n i).mp hm))

/-! ## `validateProfile` -/

theorem ValidateList_iff (c : String) (l : List String) : ValidateList c l = true ↔ c ∈ l := by
  induction l with
  | nil => simp [ValidateList]
  | cons a rest ih =>
    simp only [ValidateList, List.mem_cons]
    by_cases h : a = c
    · simp [h]
    · simp only [h, if_false, ih]
      constructor
      · intro hm; exact Or.inr hm
      · rintro (rfl | hm)
        · exact absurd rfl h
        · exact hm

theorem checkInvalidPartitionType_none_iff (p : ProfileConfig) :
    checkInvalidPartitionType p.ComputePartition p.MemoryPartition = none ↔ validTypes p := by
  unfold checkInvalidPartitionType validTypes
  rw [← ValidateList_iff, ← ValidateList_iff]
  cases ValidateList p.ComputePartition ValidComputePartitions <;>
    cases ValidateList p.MemoryPartition ValidMemoryPartitions <;> simp

theorem checkInvalidPartitionType_some (p : ProfileConfig) (h : ¬ validTypes p) :
    checkInvalidPartitionType p.ComputePartition p.MemoryPartition =
      some (if p.ComputePartition ∈ ValidComputePartitions then errInvalidMemoryType
            else errInvalidComputeType) := by
  unfold validTypes at h
  unfold checkInvalidPartitionType
  rw [← ValidateList_iff, ← ValidateList_iff] at h
  by_cases hc : p.ComputePartition ∈ ValidComputePartitions
  · have h1 := (ValidateList_iff _ _).mpr hc
    have h2 : ValidateList p.MemoryPartition ValidMemoryPartitions = false := by
      cases hh : ValidateList p.MemoryPartition ValidMemoryPartitions
      · rfl
      · exact absurd ⟨h1, hh⟩ h
    simp [h1, h2, hc]
  · have h1 : ValidateList p.ComputePartition ValidComputePartitions = false := by
      cases hh : ValidateList p.ComputePartition ValidComputePartitions
      · rfl
      · exact absurd ((ValidateList_iff _ _).mp hh) hc
    simp [h1, hc]

theorem hasInvalidGPUID_iff (n : Nat) (f : List Nat) :
    hasInvalidGPUID n f = true ↔ ∃ id ∈ f, n ≤ id := by
  induction f with
  | nil => simp [hasInvalidGPUID]
  | cons a rest ih =>
    simp only [hasInvalidGPUID, List.mem_cons, exists_eq_or_imp]
    by_cases h : a + 1 > n
    · simp only [h, if_true, true_iff]; exact Or.inl (by omega)
    · simp only [h, if_false, ih]
      constructor
      · intro hm; exact Or.inr hm
      · rintro (h' | hm)
        · omega
        · exact hm

theorem hasInvalidGPUID_false_iff (n : Nat) (f : List Nat) :
    hasInvalidGPUID n f = false ↔ ∀ id ∈ f, id < n := by
  rw [← Bool.not_eq_true, hasInvalidGPUID_iff]
  push_neg
  rfl

theorem sumAssigned_eq (acc : Nat) (ps : List ProfileConfig) :
    sumAssigned acc ps = acc + (ps.map (·.NumGPUsAssigned)).sum := by
  induction ps generalizing acc with
  | nil => simp [sumAssigned]
  | cons p rest ih => simp [sumAssigned, ih, Nat.add_assoc]

theorem checkPartitionTypes_nil_iff (m : String) (ps : List ProfileConfig) :
    checkPartitionTypes m ps = Verdict.nil ↔ ∀ p ∈ ps, validTypes p ∧ p.MemoryPartition = m := by
  induction ps with
  | nil => simp [checkPartitionTypes]
  | cons p rest ih =>
    simp only [checkPartitionTypes, List.mem_cons, forall_eq_or_imp]
    by_cases hv : validTypes p
    · rw [(checkInvalidPartitionType_none_iff p).mpr hv]
      by_cases hm : m = p.MemoryPartition
      · subst hm
        simp only [ne_eq, not_true_eq_false, if_false, hv, and_self, true_and]
        exact ih
      · simp only [ne_eq, hm, not_false_eq_true, if_true]
        constructor
        · intro h; cases h
        · rintro ⟨⟨_, h⟩, _⟩; exact absurd h.symm hm
    · rw [checkInvalidPartitionType_some p hv]
      constructor
      · intro h; cases h
      · rintro ⟨⟨h, _⟩, _⟩; exact absurd h hv

theorem checkPartitionTypes_append (m : String) (pre rest : List ProfileConfig)
    (hpre : ∀ q ∈ pre, validTypes q ∧ q.MemoryPartition = m) :
    checkPartitionTypes m (pre ++ rest) = checkPartitionTypes m rest := by
  induction pre with
  | nil => rfl
  | cons q pre ih =>
    have hq := hpre q (List.mem_cons_self _ _)
    simp only [List.cons_append, checkPartitionTypes]
    rw [(checkInvalidPartitionType_none_iff q).mpr hq.1]
    simp only [ne_eq, hq.2, not_true_eq_false, if_false]
    exact ih (fun q' hq' => hpre q' (List.mem_cons_of_mem _ hq'))

theorem validateProfile_of_rules123 (profile : GPUConfigProfile) (n : Nat)
    (h : rules123 profile n) :
    validateProfile profile n =
      match profile.Profiles with
      | [] => Verdict.panic
      | p0 :: _ => checkPartitionTypes p0.MemoryPartition profile.Profiles := by
  obtain ⟨h1, h2, h3⟩ := h
  unfold validateProfile
  simp only [gt_iff_lt, Nat.not_lt.mpr h1, if_false, (hasInvalidGPUID_false_iff n _).mpr h2,
    sumAssigned_eq, Nat.zero_add, ne_eq, h3, not_true_eq_false, Bool.false_eq_true]

theorem validateProfile_nil_rules123 (profile : GPUConfigProfile) (n : Nat)
    (h : validateProfile profile n = Verdict.nil) : rules123 profile n := by
  unfold validateProfile at h
  simp only [gt_iff_lt, sumAssigned_eq, Nat.zero_add, ne_eq] at h
  split at h
  · cases h
  · next h1 =>
    split at h
    · cases h
    · next h2 =>
      split at h
      · cases h
      · next h3 =>
        refine ⟨Nat.not_lt.mp h1, (hasInvalidGPUID_false_iff n _).mp (by simpa using h2), ?_⟩
        exact not_not.mp h3

/-- Acceptance by `validateProfile` for a profile with at least one assignment. -/
theorem validateProfile_accepts_iff (profile : GPUConfigProfile) (n : Nat)
    (hne : profile.Profiles ≠ []) :
    validateProfile profile n = Verdict.nil ↔
      ((profile.Profiles.map (·.NumGPUsAssigned)).sum + profile.Filters.length = n ∧
       (∀ id ∈ profile.Filters, id < n) ∧
       (∀ p ∈ profile.Profiles, validTypes p) ∧
       (∀ p ∈ profile.Profiles, ∀ q ∈ profile.Profiles,
          p.MemoryPartition = q.MemoryPartition)) := by
  constructor
  · intro h
    have hr := validateProfile_nil_rules123 profile n h
    rw [validateProfile_of_rules123 profile n hr] at h
    cases hp : profile.Profiles with
    | nil => exact absurd hp hne
    | cons p0 rest =>
      rw [hp] at h
      simp only at h
      rw [checkPartitionTypes_nil_iff] at h
      refine ⟨hp ▸ hr.2.2, hr.2.1, fun p hp' => (h p hp').1, fun p hp' q hq' => ?_⟩
      rw [(h p hp').2, (h q hq').2]
  · rintro ⟨h3, h2, h4, h5⟩
    have hr : rules123 profile n := ⟨by omega, h2, h3⟩
    rw [validateProfile_of_rules123 profile n hr]
    cases hp : profile.Profiles with
    | nil => exact absurd hp hne
    | cons p0 rest =>
      simp only
      rw [checkPartitionTypes_nil_iff]
      intro p hp'
      rw [hp] at h4 h5
      exact ⟨h4 p hp', h5 p hp' p0 (List.mem_cons_self _ _)⟩

/-- C1 at the failing input: a profile without assignments whose exclusions account for all
eight devices (and the empty profile on zero devices) satisfies every condition of the
acceptance criterion, yet `validateProfile` does not return: reading `profiles[0]` at line
316 panics. -/
theorem validateProfile_all_excluded_panics :
    validateProfile ⟨[0, 1, 2, 3, 4, 5, 6, 7], []⟩ 8 = Verdict.panic ∧
    validateProfile ⟨[], []⟩ 0 = Verdict.panic ∧
    (let profile : GPUConfigProfile := ⟨[0, 1, 2, 3, 4, 5, 6, 7], []⟩
     (profile.Profiles.map (·.NumGPUsAssigned)).sum + profile.Filters.length = 8 ∧
     (∀ id ∈ profile.Filters, id < 8) ∧
     (∀ p ∈ profile.Profiles, validTypes p) ∧
     (∀ p ∈ profile.Profiles, ∀ q ∈ profile.Profiles,
        p.MemoryPartition = q.MemoryPartition)) := by
  refine ⟨by decide, by decide, by decide, by decide, ?_, ?_⟩
  · intro p hp; cases hp
  · intro p hp; cases hp

/-- C10: `validateProfile` short-circuits rules 1-3 in order, whatever the assignments'
partition types: more exclusions than devices give the exclusion-list-length error; otherwise
an excluded index `≥ n` gives the invalid-GPU-id error; otherwise a count sum plus exclusion
count different from `n` gives the count-mismatch error; these three errors and the errors
of rules 4 and 5 are pairwise distinct. -/
theorem validateProfile_rules_in_order (profile : GPUConfigProfile) (n : Nat) :
    (profile.Filters.length > n → validateProfile profile n = Verdict.err errFilterLength) ∧
    (profile.Filters.length ≤ n → (∃ id ∈ profile.Filters, n ≤ id) →
      validateProfile profile n = Verdict.err errInvalidGPUID) ∧
    (profile.Filters.length ≤ n → (∀ id ∈ profile.Filters, id < n) →
      (profile.Profiles.map (·.NumGPUsAssigned)).sum + profile.Filters.length ≠ n →
      validateProfile profile n = Verdict.err errCountMismatch) ∧
    [errFilterLength, errInvalidGPUID, errCountMismatch, errInvalidComputeType,
      errInvalidMemoryType, errMixedMemory].Nodup := by
  refine ⟨fun h => ?_, fun h1 h2 => ?_, fun h1 h2 h3 => ?_, by decide⟩
  · unfold validateProfile
    simp only [h, if_true]
  · unfold validateProfile
    simp only [gt_iff_lt, Nat.not_lt.mpr h1, if_false, (hasInvalidGPUID_iff n _).mpr h2, if_true]
  · unfold validateProfile
    simp only [gt_iff_lt, Nat.not_lt.mpr h1, if_false, (hasInvalidGPUID_false_iff n _).mpr h2,
      sumAssigned_eq, Nat.zero_add, ne_eq, h3, not_false_eq_true, if_true, Bool.false_eq_true]

/-- C10 on three profiles with an unrecognized compute type, one per rule. -/
theorem validateProfile_rules_in_order_witness :
    validateProfile ⟨[0, 1, 9], [⟨"BAD", "NPS1", 5⟩]⟩ 2 = Verdict.err errFilterLength ∧
    validateProfile ⟨[0, 9], [⟨"BAD", "NPS1", 5⟩]⟩ 8 = Verdict.err errInvalidGPUID ∧
    validateProfile ⟨[0, 1], [⟨"BAD", "NPS1", 5⟩]⟩ 8 = Verdict.err errCountMismatch :=
  ⟨(validateProfile_rules_in_order ⟨[0, 1, 9], [⟨"BAD", "NPS1", 5⟩]⟩ 2).1 (by decide),
   (validateProfile_rules_in_order ⟨[0, 9], [⟨"BAD", "NPS1", 5⟩]⟩ 8).2.1 (by decide)
     ⟨9, by decide, by decide⟩,
   (validateProfile_rules_in_order ⟨[0, 1], [⟨"BAD", "NPS1", 5⟩]⟩ 8).2.2.1 (by decide)
     (by decide) (by decide)⟩

/-- C9, as stated, fails: with `n = 8` and assignments `{SPX,NPS1,4}`, `{SPX,NPS4,2}`,
`{BAD,NPS4,2}` rules 1-3 hold and an assignment has an unrecognized type, yet the error
returned is the mixed-memoryType error and not an invalid-partition-type error. -/
theorem validateProfile_rule5_before_rule4 :
    ¬ (∀ (profile : GPUConfigProfile) (n : Nat), rules123 profile n →
        (∃ p ∈ profile.Profiles, ¬ validTypes p) →
        validateProfile profile n = Verdict.err errInvalidComputeType ∨
        validateProfile profile n = Verdict.err errInvalidMemoryType) := by
  intro h
  have h' := h ⟨[], [⟨"SPX", "NPS1", 4⟩, ⟨"SPX", "NPS4", 2⟩, ⟨"BAD", "NPS4", 2⟩]⟩ 8
    ⟨by decide, by decide, by decide⟩
    ⟨⟨"BAD", "NPS4", 2⟩, by decide, by unfold validTypes; decide⟩
  revert h'
  decide

/-- C9, amended: `validateProfile` visits the assignments in order and applies rule 4 before
rule 5 to each of them.  For every profile and device count satisfying rules 1-3 and every
assignment `p` all of whose predecessors have recognized types and the memoryType of the
first assignment: if `p` has an unrecognized type the error is the invalid-partition-type
error (invalid compute type, or invalid memory type when the compute type is recognized),
also when the memoryType of `p` differs from the first one; if `p` has recognized types and
its memoryType differs from the first one, the error is the mixed-memoryType error, also
when a later assignment has an unrecognized type. -/
theorem validateProfile_first_violation (profile : GPUConfigProfile) (n : Nat)
    (pre post : List ProfileConfig) (p : ProfileConfig)
    (hrules : rules123 profile n)
    (hsplit : profile.Profiles = pre ++ p :: post)
    (hpre : ∀ q ∈ pre, validTypes q ∧
      ∀ p0 ∈ profile.Profiles.head?, q.MemoryPartition = p0.MemoryPartition) :
    (¬ validTypes p →
      validateProfile profile n =
        Verdict.err (if p.ComputePartition ∈ ValidComputePartitions then errInvalidMemoryType
                     else errInvalidComputeType)) ∧
    (validTypes p → (∃ p0 ∈ profile.Profiles.head?, p.MemoryPartition ≠ p0.MemoryPartition) →
      validateProfile profile n = Verdict.err errMixedMemory) := by
  rw [validateProfile_of_rules123 profile n hrules]
  cases hp : profile.Profiles with
  | nil => rw [hp] at hsplit; cases pre <;> cases hsplit
  | cons p0 rest =>
    simp only
    rw [hp] at hpre
    rw [← hp, hsplit, checkPartitionTypes_append _ _ _
      (fun q hq => ⟨(hpre q hq).1, (hpre q hq).2 p0 (by simp)⟩)]
    constructor
    · intro hbad
      simp only [checkPartitionTypes, checkInvalidPartitionType_some p hbad]
    · rintro hv ⟨p0', hp0', hne⟩
      rw [← hsplit, hp] at hp0'
      simp only [List.head?_cons, Option.mem_def, Option.some.injEq] at hp0'
      subst hp0'
      simp only [checkPartitionTypes, (checkInvalidPartitionType_none_iff p).mpr hv]
      rw [if_pos (fun h => hne h.symm)]

/-- C9, amended, on `{SPX,NPS1,4}`, `{BAD,NPS4,2}`, `{SPX,NPS4,2}` (invalid type first) and on
`{SPX,NPS1,4}`, `{SPX,NPS4,2}`, `{BAD,NPS4,2}` (mixed memoryType first), `n = 8`. -/
theorem validateProfile_first_violation_witness :
    validateProfile ⟨[], [⟨"SPX", "NPS1", 4⟩, ⟨"BAD", "NPS4", 2⟩, ⟨"SPX", "NPS4", 2⟩]⟩ 8 =
      Verdict.err errInvalidComputeType ∧
    validateProfile ⟨[], [⟨"SPX", "NPS1", 4⟩, ⟨"SPX", "NPS4", 2⟩, ⟨"BAD", "NPS4", 2⟩]⟩ 8 =
      Verdict.err errMixedMemory :=
  ⟨(validateProfile_first_violation
      ⟨[], [⟨"SPX", "NPS1", 4⟩, ⟨"BAD", "NPS4", 2⟩, ⟨"SPX", "NPS4", 2⟩]⟩ 8
      [⟨"SPX", "NPS1", 4⟩] [⟨"SPX", "NPS4", 2⟩] ⟨"BAD", "NPS4", 2⟩
      ⟨by decide, by decide, by decide⟩ rfl
      (by unfold validTypes; decide)).1 (by unfold validTypes; decide),
   (validateProfile_first_violation
      ⟨[], [⟨"SPX", "NPS1", 4⟩, ⟨"SPX", "NPS4", 2⟩, ⟨"BAD", "NPS4", 2⟩]⟩ 8
      [⟨"SPX", "NPS1", 4⟩] [⟨"BAD", "NPS4", 2⟩] ⟨"SPX", "NPS4", 2⟩
      ⟨by decide, by decide, by decide⟩ rfl
      (by unfold validTypes; decide)).2 (by unfold validTypes; decide)
      ⟨⟨"SPX", "NPS1", 4⟩, by decide, by decide⟩⟩

/-! ## The loop body `processGPU` -/

section body
variable {σ : Type} (d : Driver σ)

theorem recordGPU_eq (gpu_id : Nat) (pt status message : String) (st : LoopState σ)
    (h : st.idx < st.w.partStatus.GPUStatus.length) :
    recordGPU gpu_id pt status message st =
      some { st with
        w := { st.w with partStatus := { st.w.partStatus with
                GPUStatus := st.w.partStatus.GPUStatus.set st.idx ⟨gpu_id, pt, status, message⟩ } }
        idx := st.idx + 1 } := by
  simp [recordGPU, populateGPUEventStatus, h]

/-- The loop body on an accelerator whose partition state equals the target. -/
theorem processGPU_no_change (sockets ids : List Nat) (p : ProfileConfig)
    (st : LoopState σ) (gpu_id h : Nat)
    (hid : ids[st.idx]? = some gpu_id)
    (hprobe : probeGPU d st.w.hw sockets gpu_id = Probe.gpu h)
    (hc : getCurrentGPUComputePartition d st.w.hw h = p.ComputePartition)
    (hm : getCurrentGPUMemoryPartition d st.w.hw h = p.MemoryPartition)
    (hidx : st.idx < st.w.partStatus.GPUStatus.length) :
    processGPU d sockets ids p st = Step.next
      { st with
        w := { st.w with
          trace := st.w.trace ++ [TraceEntry.gpu gpu_id p.ComputePartition p.MemoryPartition] ++
            [TraceEntry.read h p.ComputePartition p.MemoryPartition]
          partStatus := { st.w.partStatus with
            GPUStatus := st.w.partStatus.GPUStatus.set st.idx
              ⟨gpu_id, targetLabel p, "Success", "Partition not required"⟩ } }
        idx := st.idx + 1 } := by
  unfold processGPU
  simp only [hid, logTrace, hprobe, hc, hm, and_self, if_true]
  rw [recordGPU_eq _ _ _ _ _ (by simpa using hidx)]
  rfl

end body

section steps
variable {σ : Type} (d : Driver σ)

theorem memoryStep_same (cm em : String) (h : Nat) (st : LoopState σ) (heq : cm = em) :
    memoryStep d cm em h st = st := by
  simp [memoryStep, heq]

theorem memoryStep_diff (cm em : String) (h : Nat) (st : LoopState σ) (hne : cm ≠ em) :
    memoryStep d cm em h st =
      let st1 : LoopState σ := logTrace (memoryEntry d cm em h st.w.hw)
        { st with w := { st.w with
            hw := (d.amdsmi_set_gpu_memory_partition st.w.hw h (convertMemoryPartitionType cm)).2 } }
      if failedChange (memoryEntry d cm em h st.w.hw) = true then
        markFailed (d.amdsmi_set_gpu_memory_partition st.w.hw h (convertMemoryPartitionType cm)).1 st1
      else st1 := by
  simp only [memoryStep, hne, ne_eq, not_false_eq_true, if_true, memoryEntry, failedChange,
    Bool.or_eq_true, decide_eq_true_eq]

theorem computeStep_same (cc : String) (h : Nat) (st : LoopState σ)
    (heq : cc = getCurrentGPUComputePartition d st.w.hw h) :
    computeStep d cc h st = st := by
  simp [computeStep, ← heq]

theorem computeStep_diff (cc : String) (h : Nat) (st : LoopState σ)
    (hne : cc ≠ getCurrentGPUComputePartition d st.w.hw h) :
    computeStep d cc h st =
      let st1 : LoopState σ := logTrace (computeEntry d cc h st.w.hw)
        { st with w := { st.w with
            hw := (d.amdsmi_set_gpu_compute_partition st.w.hw h (convertComputePartitonType cc)).2 } }
      if failedChange (computeEntry d cc h st.w.hw) = true then
        markFailed (d.amdsmi_set_gpu_compute_partition st.w.hw h (convertComputePartitonType cc)).1 st1
      else st1 := by
  simp only [computeStep, hne, ne_eq, not_false_eq_true, if_true, computeEntry, failedChange,
    decide_eq_true_eq]

/-- What the two change steps do to the loop state, whatever the driver answers. -/
theorem changeSteps_spec (cc cm em : String) (h : Nat) (st : LoopState σ) :
    ∃ tail : List TraceEntry,
      let st2 := computeStep d cc h (memoryStep d cm em h st)
      st2.w.trace = st.w.trace ++ tail ∧
      (∀ e ∈ tail, isMutation e = true) ∧
      st2.w.partition_failed = (st.w.partition_failed || tail.any failedChange) ∧
      st2.idx = st.idx ∧ st2.w.partStatus = st.w.partStatus ∧ st2.w.events = st.w.events ∧
      st2.partition_needed = st.partition_needed := by
  by_cases hm : cm = em
  · rw [memoryStep_same d cm em h st hm]
    by_cases hc : cc = getCurrentGPUComputePartition d st.w.hw h
    · rw [computeStep_same d cc h st hc]
      exact ⟨[], by simp⟩
    · rw [computeStep_diff d cc h st hc]
      refine ⟨[computeEntry d cc h st.w.hw], ?_⟩
      simp only
      split <;> simp_all [logTrace, markFailed, addStateLabel, computeEntry, isMutation]
  · rw [memoryStep_diff d cm em h st hm]
    simp only
    generalize hst1 : (if failedChange (memoryEntry d cm em h st.w.hw) = true then _ else _) = st1
    have h1 : st1.w.trace = st.w.trace ++ [memoryEntry d cm em h st.w.hw] ∧
        st1.w.partition_failed =
          (st.w.partition_failed || failedChange (memoryEntry d cm em h st.w.hw)) ∧
        st1.idx = st.idx ∧ st1.w.partStatus = st.w.partStatus ∧ st1.w.events = st.w.events ∧
        st1.partition_needed = st.partition_needed := by
      subst hst1
      split <;> simp_all [logTrace, markFailed, addStateLabel]
    obtain ⟨ht, hf, hi, hp, he, hn⟩ := h1
    by_cases hc : cc = getCurrentGPUComputePartition d st1.w.hw h
    · rw [computeStep_same d cc h st1 hc]
      exact ⟨[memoryEntry d cm em h st.w.hw], by simp [ht, hf, hi, hp, he, hn, memoryEntry, isMutation]⟩
    · rw [computeStep_diff d cc h st1 hc]
      refine ⟨[memoryEntry d cm em h st.w.hw, computeEntry d cc h st1.w.hw], ?_⟩
      simp only
      split <;> simp_all [logTrace, markFailed, addStateLabel, computeEntry, memoryEntry, isMutation]

end steps

section body2
variable {σ : Type} (d : Driver σ)

theorem recordStep_eq (gpu_id : Nat) (pt : String) (st : LoopState σ)
    (h : st.idx < st.w.partStatus.GPUStatus.length) :
    recordStep gpu_id pt st = Step.next
      { st with
        w := { st.w with partStatus :=
          { st.w.partStatus with
            GPUStatus := st.w.partStatus.GPUStatus.set st.idx
              (recordedStatus gpu_id pt st.w.partition_failed st.partition_err_reason)
            Reason := if st.w.partition_failed then
                "Partition failed with reason: " ++ st.partition_err_reason
              else st.w.partStatus.Reason } }
        idx := st.idx + 1 } := by
  unfold recordStep
  cases hf : st.w.partition_failed
  · simp [recordGPU_eq _ _ _ _ _ h, recordedStatus]
  · simp [recordGPU_eq _ _ _ _ _ h, recordedStatus, setReason]

theorem recordStep_panic (gpu_id : Nat) (pt : String) (st : LoopState σ)
    (h : ¬ st.idx < st.w.partStatus.GPUStatus.length) :
    recordStep gpu_id pt st = Step.panic := by
  unfold recordStep recordGPU populateGPUEventStatus
  simp [h]

theorem processGPU_change_eq (sockets ids : List Nat) (p : ProfileConfig)
    (st : LoopState σ) (gpu_id h : Nat)
    (hid : ids[st.idx]? = some gpu_id)
    (hprobe : probeGPU d st.w.hw sockets gpu_id = Probe.gpu h)
    (hne : ¬ (p.ComputePartition = getCurrentGPUComputePartition d st.w.hw h ∧
      p.MemoryPartition = getCurrentGPUMemoryPartition d st.w.hw h)) :
    processGPU d sockets ids p st =
      recordStep gpu_id (targetLabel p)
        (computeStep d p.ComputePartition h
          (memoryStep d p.MemoryPartition (getCurrentGPUMemoryPartition d st.w.hw h) h
            (readState d p gpu_id h st))) := by
  unfold processGPU
  simp only [hid, logTrace, hprobe, hne, if_false]
  rfl

/-- What one iteration does for a device that is an accelerator. -/
theorem processGPU_gpu_spec (sockets ids : List Nat) (p : ProfileConfig)
    (st : LoopState σ) (gpu_id h : Nat)
    (hid : ids[st.idx]? = some gpu_id)
    (hprobe : probeGPU d st.w.hw sockets gpu_id = Probe.gpu h)
    (hidx : st.idx < st.w.partStatus.GPUStatus.length) :
    ∃ (st1 : LoopState σ) (tail : List TraceEntry) (status message : String),
      processGPU d sockets ids p st = Step.next st1 ∧
      st1.idx = st.idx + 1 ∧
      st1.w.partStatus.GPUStatus =
        st.w.partStatus.GPUStatus.set st.idx ⟨gpu_id, targetLabel p, status, message⟩ ∧
      st1.w.trace = st.w.trace ++ TraceEntry.gpu gpu_id p.ComputePartition p.MemoryPartition ::
        TraceEntry.read h (getCurrentGPUComputePartition d st.w.hw h)
          (getCurrentGPUMemoryPartition d st.w.hw h) :: tail ∧
      (∀ e ∈ tail, isMutation e = true) ∧
      st1.w.partition_failed = (st.w.partition_failed || tail.any failedChange) ∧
      (st1.partition_needed = true ∨ (st1.partition_needed = st.partition_needed ∧ tail = [])) ∧
      st1.w.events = st.w.events ∧
      st1.w.partStatus.FinalStatus = st.w.partStatus.FinalStatus ∧
      st1.w.partStatus.SelectedProfile = st.w.partStatus.SelectedProfile := by
  by_cases heq : p.ComputePartition = getCurrentGPUComputePartition d st.w.hw h ∧
      p.MemoryPartition = getCurrentGPUMemoryPartition d st.w.hw h
  · refine ⟨_, [], "Success", "Partition not required",
      processGPU_no_change d sockets ids p st gpu_id h hid hprobe heq.1.symm heq.2.symm hidx, ?_⟩
    simp [← heq.1, ← heq.2]
  · rw [processGPU_change_eq d sockets ids p st gpu_id h hid hprobe heq]
    obtain ⟨tail, ht, hmut, hf, hi, hp, he, hn⟩ :=
      changeSteps_spec d p.ComputePartition p.MemoryPartition
        (getCurrentGPUMemoryPartition d st.w.hw h) h (readState d p gpu_id h st)
    generalize computeStep d p.ComputePartition h
      (memoryStep d p.MemoryPartition (getCurrentGPUMemoryPartition d st.w.hw h) h
        (readState d p gpu_id h st)) = st2 at ht hmut hf hi hp he hn
    simp only [readState, logTrace] at ht hf hi hp he hn
    have hidx2 : st2.idx < st2.w.partStatus.GPUStatus.length := by rw [hi, hp]; exact hidx
    rw [recordStep_eq _ _ _ hidx2]
    have hrec : ∀ (f : Bool) (r : String), recordedStatus gpu_id (targetLabel p) f r =
        ⟨gpu_id, targetLabel p, (recordedStatus gpu_id (targetLabel p) f r).Status,
          (recordedStatus gpu_id (targetLabel p) f r).Message⟩ := by
      intro f r; unfold recordedStatus; split <;> rfl
    refine ⟨_, tail,
      (recordedStatus gpu_id (targetLabel p) st2.w.partition_failed st2.partition_err_reason).Status,
      (recordedStatus gpu_id (targetLabel p) st2.w.partition_failed
        st2.partition_err_reason).Message, rfl, ?_⟩
    rw [← hrec]
    simp only [hi, hp, ht, hf, he, hn, List.append_assoc, List.singleton_append, true_and,
      true_or, and_true, List.cons_append, List.nil_append, and_self]
    exact hmut

end body2

/-! ## The nested loops as one loop over the bound devices -/

section loops
variable {σ : Type} (d : Driver σ)

theorem deviceLoop_append (sockets ids : List Nat) (a b : List ProfileConfig)
    (st : LoopState σ) :
    deviceLoop d sockets ids (a ++ b) st =
      match deviceLoop d sockets ids a st with
      | Step.next st1 => deviceLoop d sockets ids b st1
      | Step.ret st1 => Step.ret st1
      | Step.panic => Step.panic := by
  induction a generalizing st with
  | nil => rfl
  | cons p a ih =>
    simp only [List.cons_append, deviceLoop]
    cases processGPU d sockets ids p st with
    | next st1 => exact ih st1
    | ret st1 => rfl
    | panic => rfl

theorem innerLoop_eq_deviceLoop (sockets ids : List Nat) (p : ProfileConfig) (j : Nat)
    (st : LoopState σ) :
    innerLoop d sockets ids p j st = deviceLoop d sockets ids (List.replicate j p) st := by
  induction j generalizing st with
  | zero => rfl
  | succ j ih =>
    simp only [innerLoop, List.replicate_succ, deviceLoop]
    cases processGPU d sockets ids p st with
    | next st1 => exact ih st1
    | ret st1 => rfl
    | panic => rfl

/-- The nested loops of `amdSMIHelper` visit the bound devices one after the other. -/
theorem outerLoop_eq_deviceLoop (sockets ids : List Nat) (ps : List ProfileConfig)
    (st : LoopState σ) :
    outerLoop d sockets ids ps st = deviceLoop d sockets ids (boundTargets ps) st := by
  induction ps generalizing st with
  | nil => rfl
  | cons p ps ih =>
    simp only [outerLoop, boundTargets, deviceLoop_append, innerLoop_eq_deviceLoop]
    cases deviceLoop d sockets ids (List.replicate p.NumGPUsAssigned p) st with
    | next st1 => exact ih st1
    | ret st1 => rfl
    | panic => rfl

/-- Loop invariant rule: `P k` holds before the `k`-th bound device is processed. -/
theorem deviceLoop_invariant (sockets ids : List Nat) (ts : List ProfileConfig)
    (P : Nat → LoopState σ → Prop) (st : LoopState σ) (h0 : P 0 st)
    (hstep : ∀ k p st1, ts[k]? = some p → P k st1 →
      ∃ st2, processGPU d sockets ids p st1 = Step.next st2 ∧ P (k + 1) st2) :
    ∃ st', deviceLoop d sockets ids ts st = Step.next st' ∧ P ts.length st' := by
  induction ts generalizing st P with
  | nil => exact ⟨st, rfl, h0⟩
  | cons p ts ih =>
    obtain ⟨st2, h2, hP⟩ := hstep 0 p st (by simp) h0
    obtain ⟨st', h', hP'⟩ := ih (fun k s => P (k + 1) s) st2 hP
      (fun k q s hq hs => hstep (k + 1) q s (by simpa using hq) hs)
    exact ⟨st', by simp only [deviceLoop, h2, h'], hP'⟩

theorem boundTargets_length (ps : List ProfileConfig) :
    (boundTargets ps).length = (ps.map (·.NumGPUsAssigned)).sum := by
  induction ps with
  | nil => rfl
  | cons p ps ih => simp [boundTargets, ih]

theorem countsBefore_zero (ps : List ProfileConfig) : countsBefore ps 0 = 0 := by
  simp [countsBefore]

theorem countsBefore_cons_succ (p : ProfileConfig) (ps : List ProfileConfig) (i : Nat) :
    countsBefore (p :: ps) (i + 1) = p.NumGPUsAssigned + countsBefore ps i := by
  simp [countsBefore]

/-- The `k`-th bound device belongs to the assignment `i` with
`count_0 + ... + count_(i-1) ≤ k < count_0 + ... + count_i`. -/
theorem boundTargets_getElem (ps : List ProfileConfig) (i k : Nat) (p : ProfileConfig)
    (hp : ps[i]? = some p) (h1 : countsBefore ps i ≤ k) (h2 : k < countsBefore ps (i + 1)) :
    (boundTargets ps)[k]? = some p := by
  induction ps generalizing i k with
  | nil => simp at hp
  | cons q ps ih =>
    cases i with
    | zero =>
      simp only [List.getElem?_cons_zero, Option.some.injEq] at hp
      subst hp
      rw [countsBefore_cons_succ, countsBefore_zero] at h2
      simp only [boundTargets]
      rw [List.getElem?_append_left (by simpa using h2)]
      rw [List.getElem?_replicate]
      simp [show k < q.NumGPUsAssigned by omega]
    | succ i =>
      rw [countsBefore_cons_succ] at h1
      rw [countsBefore_cons_succ] at h2
      simp only [List.getElem?_cons_succ] at hp
      simp only [boundTargets]
      rw [List.getElem?_append_right (by simpa using by omega)]
      simp only [List.length_replicate]
      exact ih i (k - q.NumGPUsAssigned) hp (by omega) (by omega)

end loops

/-! ## The batch on an accepted profile -/

section run
variable {σ : Type} (d : Driver σ)

theorem gpuMarkers_append (a b : List TraceEntry) :
    gpuMarkers (a ++ b) = gpuMarkers a ++ gpuMarkers b := by
  induction a with
  | nil => rfl
  | cons e a ih => cases e <;> simp [gpuMarkers, ih]

theorem gpuMarkers_mutations (t : List TraceEntry) (h : ∀ e ∈ t, isMutation e = true) :
    gpuMarkers t = [] := by
  induction t with
  | nil => rfl
  | cons e t ih =>
    have he := h e (List.mem_cons_self _ _)
    have ht := ih (fun e' he' => h e' (List.mem_cons_of_mem _ he'))
    cases e <;> simp_all [gpuMarkers, isMutation]

theorem boundDevices_getElem (ids : List Nat) (ts : List ProfileConfig) (k gpu_id : Nat)
    (p : ProfileConfig) (hid : ids[k]? = some gpu_id) (hp : ts[k]? = some p) :
    (boundDevices ids ts)[k]? = some (gpu_id, p.ComputePartition, p.MemoryPartition) := by
  unfold boundDevices
  rw [List.getElem?_zipWith_eq_some]
  exact ⟨gpu_id, p, hid, hp, rfl⟩

theorem boundDevices_length (ids : List Nat) (ts : List ProfileConfig)
    (h : ts.length ≤ ids.length) : (boundDevices ids ts).length = ts.length := by
  unfold boundDevices
  rw [List.length_zipWith]
  omega

theorem any_failedChange_turn (gpu_id h : Nat) (c m c1 m1 : String) (tail : List TraceEntry) :
    (TraceEntry.gpu gpu_id c1 m1 :: TraceEntry.read h c m :: tail).any failedChange =
      tail.any failedChange := by
  simp [failedChange]

theorem deviceLoop_accelerators (sockets ids : List Nat) (ts : List ProfileConfig)
    (st : LoopState σ)
    (hacc : ∀ hw gpu_id, gpu_id ∈ ids → ∃ h, probeGPU d hw sockets gpu_id = Probe.gpu h)
    (hlen : ts.length ≤ ids.length) (hidx : st.idx = 0)
    (hgs : st.w.partStatus.GPUStatus.length = ids.length) :
    ∃ st', deviceLoop d sockets ids ts st = Step.next st' ∧ loopInv ids ts st ts.length st' := by
  apply deviceLoop_invariant d sockets ids ts (loopInv ids ts st) st
  · exact ⟨hidx, hgs, ⟨[], by simp, by simp [gpuMarkers], by simp⟩,
      fun j hj => absurd hj (Nat.not_lt_zero j), rfl, rfl, rfl⟩
  · rintro k p s hp ⟨hi, hl, ⟨tail, ht, hg, hf⟩, hrec, he, hfs, hsp⟩
    have hk : k < ts.length := by
      by_contra hcon
      rw [List.getElem?_eq_none (by omega)] at hp
      cases hp
    have hk' : k < ids.length := by omega
    have hid : ids[s.idx]? = some ids[k] := by rw [hi]; exact List.getElem?_eq_getElem hk'
    obtain ⟨h, hprobe⟩ := hacc s.w.hw ids[k] (List.getElem_mem _)
    obtain ⟨s1, tail1, status, message, hrun, hi1, hg1, ht1, hm1, hf1, -, he1, hfs1, hsp1⟩ :=
      processGPU_gpu_spec d sockets ids p s ids[k] h hid hprobe (by rw [hi, hl]; exact hk')
    refine ⟨s1, hrun, by rw [hi1, hi], by rw [hg1, List.length_set, hl], ?_, ?_,
      by rw [he1, he], by rw [hfs1, hfs], by rw [hsp1, hsp]⟩
    · refine ⟨tail ++ TraceEntry.gpu ids[k] p.ComputePartition p.MemoryPartition ::
        TraceEntry.read h
        (getCurrentGPUComputePartition d s.w.hw h) (getCurrentGPUMemoryPartition d s.w.hw h) ::
        tail1, ?_, ?_, ?_⟩
      · rw [ht1, ht, List.append_assoc]
      · rw [gpuMarkers_append, hg]
        simp only [gpuMarkers, gpuMarkers_mutations tail1 hm1]
        rw [List.take_succ, boundDevices_getElem ids ts k ids[k] p
          (List.getElem?_eq_getElem hk') hp]
        rfl
      · rw [hf1, hf, List.any_append, any_failedChange_turn, Bool.or_assoc]
    · intro j hj
      rw [hg1, hi]
      by_cases hjk : j = k
      · subst hjk
        refine ⟨ids[j], p, status, message, List.getElem?_eq_getElem hk', hp, ?_⟩
        exact List.getElem?_set_self (by rw [hl]; exact hk')
      · obtain ⟨g, q, s', m', h1, h2, h3⟩ := hrec j (by omega)
        refine ⟨g, q, s', m', h1, h2, ?_⟩
        rw [List.getElem?_set_ne (fun h => hjk h.symm)]
        exact h3

end run

section helper
variable {σ : Type} (d : Driver σ)

theorem createGPUIDList_length_ge (f : List Nat) (n : Nat) :
    n ≤ (createGPUIDList f n).length + f.length := by
  rw [createGPUIDList_eq_filter]
  have h1 := @List.length_eq_length_filter_add _ (List.range n) (fun i => filterHit i f)
  have h2 : ((List.range n).filter (fun i => filterHit i f)).length ≤ f.length := by
    apply List.Subperm.length_le
    apply List.subperm_of_subset (List.Nodup.filter _ (List.nodup_range n))
    intro i hi
    exact (filterHit_iff i f).mp (List.mem_filter.mp hi).2
  rw [List.length_range] at h1
  omega

theorem countsBefore_length (ps : List ProfileConfig) :
    countsBefore ps ps.length = (ps.map (·.NumGPUsAssigned)).sum := by
  simp [countsBefore]

theorem accepted_bound_le (profile : GPUConfigProfile) (n : Nat)
    (hv : validateProfile profile n = Verdict.nil) :
    (boundTargets profile.Profiles).length ≤ (createGPUIDList profile.Filters n).length := by
  have h := (validateProfile_nil_rules123 profile n hv).2.2
  have h2 := createGPUIDList_length_ge profile.Filters n
  rw [boundTargets_length]
  omega

theorem reportNoSockets_trace (n : Nat) (w : World σ) :
    (reportNoSockets n w).trace = w.trace := by
  unfold reportNoSockets; split <;> rfl

theorem finishBatch_trace (st : LoopState σ) : (finishBatch st).trace = st.w.trace := by
  unfold finishBatch; split
  · rfl
  · split <;> rfl

theorem finishBatch_GPUStatus (st : LoopState σ) :
    (finishBatch st).partStatus.GPUStatus = st.w.partStatus.GPUStatus := by
  unfold finishBatch; split
  · rfl
  · split <;> rfl

/-- The engine on an accepted profile when every device is an accelerator: the loop runs
to its end, and `amdSMIHelper` returns the world left by lines 532-551. -/
theorem amdSMIHelper_accepted (profile : GPUConfigProfile) (w : World σ)
    (sockets : List Nat) (n : Nat)
    (hs : amdsmiGetSocketHandles d w.hw = some (sockets, n))
    (hv : validateProfile profile n = Verdict.nil)
    (hacc : ∀ hw gpu_id, gpu_id < n → ∃ h, probeGPU d hw sockets gpu_id = Probe.gpu h) :
    ∃ st', amdSMIHelper d profile w = some (finishBatch st') ∧
      loopInv (createGPUIDList profile.Filters n) (boundTargets profile.Profiles)
        (startBatch (createGPUIDList profile.Filters n) (reportNoSockets n w))
        (boundTargets profile.Profiles).length st' := by
  obtain ⟨st', hrun, hinv⟩ := deviceLoop_accelerators d sockets
    (createGPUIDList profile.Filters n) (boundTargets profile.Profiles)
    (startBatch (createGPUIDList profile.Filters n) (reportNoSockets n w))
    (fun hw gpu_id hmem => hacc hw gpu_id ((mem_createGPUIDList _ _ _).mp hmem).1)
    (accepted_bound_le profile n hv) rfl (by simp [startBatch])
  refine ⟨st', ?_, hinv⟩
  unfold amdSMIHelper
  simp only [hs, hv, outerLoop_eq_deviceLoop, hrun]

end helper

/-! ## Entries already recorded are not rewritten -/

section frame
variable {σ : Type} (d : Driver σ)

theorem recordGPU_frame (gpu_id : Nat) (pt status message : String) (st st1 : LoopState σ)
    (h : recordGPU gpu_id pt status message st = some st1) :
    st.idx ≤ st1.idx ∧ ∀ k, k < st.idx →
      st1.w.partStatus.GPUStatus[k]? = st.w.partStatus.GPUStatus[k]? := by
  by_cases hidx : st.idx < st.w.partStatus.GPUStatus.length
  · rw [recordGPU_eq _ _ _ _ _ hidx] at h
    cases h
    refine ⟨Nat.le_succ _, fun k hk => ?_⟩
    simp only
    rw [List.getElem?_set_ne (by omega)]
  · simp [recordGPU, populateGPUEventStatus, hidx] at h

theorem changeSteps_frame (cc cm em : String) (h : Nat) (st : LoopState σ) :
    (computeStep d cc h (memoryStep d cm em h st)).idx = st.idx ∧
    (computeStep d cc h (memoryStep d cm em h st)).w.partStatus = st.w.partStatus := by
  obtain ⟨tail, -, -, -, hi, hp, -, -⟩ := changeSteps_spec d cc cm em h st
  exact ⟨hi, hp⟩

/-- An iteration never lowers `idx` and never rewrites an entry below it. -/
theorem processGPU_frame (sockets ids : List Nat) (p : ProfileConfig) (st st1 : LoopState σ)
    (h : (processGPU d sockets ids p st).state? = some st1) :
    st.idx ≤ st1.idx ∧ ∀ k, k < st.idx →
      st1.w.partStatus.GPUStatus[k]? = st.w.partStatus.GPUStatus[k]? := by
  unfold processGPU at h
  cases hid : ids[st.idx]? with
  | none => simp [hid, Step.state?] at h
  | some gpu_id =>
    simp only [hid] at h
    cases hprobe : probeGPU d (logTrace (TraceEntry.gpu gpu_id p.ComputePartition p.MemoryPartition) st).w.hw sockets gpu_id with
    | panic => simp [hprobe, Step.state?] at h
    | apiError =>
      simp only [hprobe, Step.state?, Option.some.injEq] at h
      subst h
      exact ⟨Nat.le_refl _, fun k _ => rfl⟩
    | notGPU =>
      simp only [hprobe, Step.state?, Option.some.injEq] at h
      subst h
      exact ⟨Nat.le_refl _, fun k _ => rfl⟩
    | gpu ph =>
      simp only [hprobe] at h
      split at h
      · cases hr : recordGPU gpu_id (p.ComputePartition ++ "-" ++ p.MemoryPartition) "Success"
            "Partition not required"
            (logTrace (TraceEntry.read ph
              (getCurrentGPUComputePartition d (logTrace (TraceEntry.gpu gpu_id p.ComputePartition p.MemoryPartition) st).w.hw ph)
              (getCurrentGPUMemoryPartition d (logTrace (TraceEntry.gpu gpu_id p.ComputePartition p.MemoryPartition) st).w.hw ph))
              (logTrace (TraceEntry.gpu gpu_id p.ComputePartition p.MemoryPartition) st)) with
        | none => simp [hr, Step.state?] at h
        | some st2 =>
          simp only [hr, Step.state?, Option.some.injEq] at h
          subst h
          have hfr := recordGPU_frame _ _ _ _ _ _ hr
          exact hfr
      · generalize hst0 : ({ logTrace (TraceEntry.read ph
              (getCurrentGPUComputePartition d (logTrace (TraceEntry.gpu gpu_id p.ComputePartition p.MemoryPartition) st).w.hw ph)
              (getCurrentGPUMemoryPartition d (logTrace (TraceEntry.gpu gpu_id p.ComputePartition p.MemoryPartition) st).w.hw ph))
              (logTrace (TraceEntry.gpu gpu_id p.ComputePartition p.MemoryPartition) st) with partition_needed := true } :
              LoopState σ) = st0 at h
        have h0 : st0.idx = st.idx ∧ st0.w.partStatus = st.w.partStatus := by
          subst hst0; exact ⟨rfl, rfl⟩
        obtain ⟨hi, hp⟩ := changeSteps_frame d p.ComputePartition p.MemoryPartition
          (getCurrentGPUMemoryPartition d (logTrace (TraceEntry.gpu gpu_id p.ComputePartition p.MemoryPartition) st).w.hw ph) ph st0
        generalize computeStep d p.ComputePartition ph (memoryStep d p.MemoryPartition
          (getCurrentGPUMemoryPartition d (logTrace (TraceEntry.gpu gpu_id p.ComputePartition p.MemoryPartition) st).w.hw ph) ph st0)
          = st2 at h hi hp
        by_cases hidx : st2.idx < st2.w.partStatus.GPUStatus.length
        · rw [recordStep_eq _ _ _ hidx] at h
          simp only [Step.state?, Option.some.injEq] at h
          subst h
          refine ⟨by simp only; omega, fun k hk => ?_⟩
          simp only
          rw [List.getElem?_set_ne (by omega), hp, h0.2]
        · rw [recordStep_panic _ _ _ hidx] at h
          simp [Step.state?] at h

theorem deviceLoop_frame (sockets ids : List Nat) (ts : List ProfileConfig)
    (st stF : LoopState σ) (h : (deviceLoop d sockets ids ts st).state? = some stF) :
    st.idx ≤ stF.idx ∧ ∀ k, k < st.idx →
      stF.w.partStatus.GPUStatus[k]? = st.w.partStatus.GPUStatus[k]? := by
  induction ts generalizing st with
  | nil =>
    simp only [deviceLoop, Step.state?, Option.some.injEq] at h
    subst h
    exact ⟨Nat.le_refl _, fun k _ => rfl⟩
  | cons p ts ih =>
    simp only [deviceLoop] at h
    cases hp : processGPU d sockets ids p st with
    | panic => simp [hp, Step.state?] at h
    | ret st1 =>
      rw [hp] at h
      exact processGPU_frame d sockets ids p st stF (by rw [hp]; exact h)
    | next st1 =>
      rw [hp] at h
      obtain ⟨h1, h2⟩ := processGPU_frame d sockets ids p st st1 (by rw [hp]; rfl)
      obtain ⟨h3, h4⟩ := ih st1 h
      exact ⟨by omega, fun k hk => by rw [h4 k (by omega), h2 k hk]⟩

theorem loopFrom_eq_deviceLoop (sockets ids : List Nat) (p : ProfileConfig) (j : Nat)
    (rest : List ProfileConfig) (st : LoopState σ) :
    loopFrom d sockets ids p j rest st =
      deviceLoop d sockets ids (List.replicate j p ++ boundTargets rest) st := by
  unfold loopFrom
  rw [deviceLoop_append, innerLoop_eq_deviceLoop]
  cases deviceLoop d sockets ids (List.replicate j p) st with
  | next st1 => exact outerLoop_eq_deviceLoop d sockets ids rest st1
  | ret st1 => rfl
  | panic => rfl

theorem outerLoop_eq_loopFrom (sockets ids : List Nat) (p : ProfileConfig)
    (rest : List ProfileConfig) (st : LoopState σ) :
    outerLoop d sockets ids (p :: rest) st =
      loopFrom d sockets ids p p.NumGPUsAssigned rest st := rfl

end frame

/-! ## Runs on an ideal driver -/

section ideal
variable {σ : Type} {d : Driver σ} {sockets : List Nat} {n : Nat} {handle : Nat → Nat}

theorem convertMemory_name (m : String) (h : m ∈ ValidMemoryPartitions) :
    (convertMemoryPartitionType m).name = m := by
  simp only [ValidMemoryPartitions, List.mem_cons, List.mem_singleton, List.not_mem_nil,
    or_false] at h
  rcases h with rfl | rfl | rfl <;> decide

theorem convertCompute_name (c : String) (h : c ∈ ValidComputePartitions) :
    (convertComputePartitonType c).name = c := by
  simp only [ValidComputePartitions, List.mem_cons, List.mem_singleton, List.not_mem_nil,
    or_false] at h
  rcases h with rfl | rfl | rfl | rfl <;> decide

theorem memoryStep_ideal (hI : IdealDriver d sockets n handle) (cm : String)
    (hcm : cm ∈ ValidMemoryPartitions) (i : Nat) (hi : i < n) (st : LoopState σ) :
    let sm := memoryStep d cm (getCurrentGPUMemoryPartition d st.w.hw (handle i)) (handle i) st
    sm.idx = st.idx ∧ sm.w.partStatus = st.w.partStatus ∧
    sm.w.partition_failed = st.w.partition_failed ∧
    sm.partition_needed = st.partition_needed ∧
    getCurrentGPUMemoryPartition d sm.w.hw (handle i) = cm ∧
    ∀ j, j < n → j ≠ i →
      getCurrentGPUComputePartition d sm.w.hw (handle j) =
        getCurrentGPUComputePartition d st.w.hw (handle j) ∧
      (getCurrentGPUMemoryPartition d sm.w.hw (handle j) =
        getCurrentGPUMemoryPartition d st.w.hw (handle j) ∨
       getCurrentGPUMemoryPartition d sm.w.hw (handle j) = cm) := by
  by_cases hm : cm = getCurrentGPUMemoryPartition d st.w.hw (handle i)
  · rw [memoryStep_same d _ _ _ _ hm]
    exact ⟨rfl, rfl, rfl, rfl, hm.symm, fun j _ _ => ⟨rfl, Or.inl rfl⟩⟩
  · rw [memoryStep_diff d _ _ _ _ hm]
    have heff := hI.memory_effect st.w.hw i (convertMemoryPartitionType cm) hi
    rw [convertMemory_name cm hcm] at heff
    have hnf : failedChange (memoryEntry d cm
        (getCurrentGPUMemoryPartition d st.w.hw (handle i)) (handle i) st.w.hw) = false := by
      simp only [failedChange, memoryEntry, hI.memory_ok st.w.hw i _ hi, heff, ne_eq,
        not_true_eq_false, decide_False, Bool.false_or, decide_eq_false_iff_not]
      exact hm
    simp only [hnf, Bool.false_eq_true, if_false, logTrace, true_and]
    refine ⟨heff, fun j hj hji => ?_⟩
    have hfr := hI.memory_frame st.w.hw i (convertMemoryPartitionType cm) j hi hj hji
    rw [convertMemory_name cm hcm] at hfr
    exact hfr

theorem computeStep_ideal (hI : IdealDriver d sockets n handle) (cc : String)
    (hcc : cc ∈ ValidComputePartitions) (i : Nat) (hi : i < n) (st : LoopState σ) :
    let sc := computeStep d cc (handle i) st
    sc.idx = st.idx ∧ sc.w.partStatus = st.w.partStatus ∧
    sc.w.partition_failed = st.w.partition_failed ∧
    sc.partition_needed = st.partition_needed ∧
    getCurrentGPUComputePartition d sc.w.hw (handle i) = cc ∧
    getCurrentGPUMemoryPartition d sc.w.hw (handle i) =
      getCurrentGPUMemoryPartition d st.w.hw (handle i) ∧
    ∀ j, j < n → j ≠ i →
      getCurrentGPUComputePartition d sc.w.hw (handle j) =
        getCurrentGPUComputePartition d st.w.hw (handle j) ∧
      getCurrentGPUMemoryPartition d sc.w.hw (handle j) =
        getCurrentGPUMemoryPartition d st.w.hw (handle j) := by
  by_cases hc : cc = getCurrentGPUComputePartition d st.w.hw (handle i)
  · rw [computeStep_same d _ _ _ hc]
    exact ⟨rfl, rfl, rfl, rfl, hc.symm, rfl, fun j _ _ => ⟨rfl, rfl⟩⟩
  · rw [computeStep_diff d _ _ _ hc]
    have heff := hI.compute_effect st.w.hw i (convertComputePartitonType cc) hi
    rw [convertCompute_name cc hcc] at heff
    have hnf : failedChange (computeEntry d cc (handle i) st.w.hw) = false := by
      simp only [failedChange, computeEntry, hI.compute_ok st.w.hw i _ hi, ne_eq,
        not_true_eq_false, decide_False]
    simp only [hnf, Bool.false_eq_true, if_false, logTrace, true_and]
    exact ⟨heff.1, heff.2, fun j hj hji =>
      hI.compute_frame st.w.hw i (convertComputePartitonType cc) j hi hj hji⟩

/-- One iteration on an ideal driver: the device ends at its target, nothing fails, and the
other devices keep their compute type and keep their memory type or get the target's. -/
theorem processGPU_ideal (hI : IdealDriver d sockets n handle) (ids : List Nat)
    (p : ProfileConfig) (hp : validTypes p) (st : LoopState σ) (gpu_id : Nat)
    (hlt : gpu_id < n) (hid : ids[st.idx]? = some gpu_id)
    (hidx : st.idx < st.w.partStatus.GPUStatus.length) :
    ∃ st1, processGPU d sockets ids p st = Step.next st1 ∧
      st1.idx = st.idx + 1 ∧
      st1.w.partStatus.GPUStatus.length = st.w.partStatus.GPUStatus.length ∧
      st1.w.partition_failed = st.w.partition_failed ∧
      atTarget d st1.w.hw (handle gpu_id) p ∧
      ∀ j, j < n → j ≠ gpu_id →
        getCurrentGPUComputePartition d st1.w.hw (handle j) =
          getCurrentGPUComputePartition d st.w.hw (handle j) ∧
        (getCurrentGPUMemoryPartition d st1.w.hw (handle j) =
          getCurrentGPUMemoryPartition d st.w.hw (handle j) ∨
         getCurrentGPUMemoryPartition d st1.w.hw (handle j) = p.MemoryPartition) := by
  have hprobe := hI.probe_ok st.w.hw gpu_id hlt
  by_cases heq : p.ComputePartition = getCurrentGPUComputePartition d st.w.hw (handle gpu_id) ∧
      p.MemoryPartition = getCurrentGPUMemoryPartition d st.w.hw (handle gpu_id)
  · refine ⟨_, processGPU_no_change d sockets ids p st gpu_id _ hid hprobe heq.1.symm
      heq.2.symm hidx, rfl, by simp, rfl, ⟨heq.1.symm, heq.2.symm⟩,
      fun j _ _ => ⟨rfl, Or.inl rfl⟩⟩
  · rw [processGPU_change_eq d sockets ids p st gpu_id _ hid hprobe heq]
    obtain ⟨hmi, hmp, hmf, -, hmm, hmo⟩ := memoryStep_ideal hI p.MemoryPartition hp.2 gpu_id hlt
      (readState d p gpu_id (handle gpu_id) st)
    have hrs : (readState d p gpu_id (handle gpu_id) st).w.hw = st.w.hw := rfl
    rw [hrs] at hmi hmp hmf hmm hmo
    generalize memoryStep d p.MemoryPartition
      (getCurrentGPUMemoryPartition d st.w.hw (handle gpu_id)) (handle gpu_id)
      (readState d p gpu_id (handle gpu_id) st) = sm at hmi hmp hmf hmm hmo
    obtain ⟨hci, hcp, hcf, -, hcc, hcm, hco⟩ :=
      computeStep_ideal hI p.ComputePartition hp.1 gpu_id hlt sm
    generalize computeStep d p.ComputePartition (handle gpu_id) sm = sc
      at hci hcp hcf hcc hcm hco
    have hidx2 : sc.idx < sc.w.partStatus.GPUStatus.length := by
      rw [hci, hcp, hmi, hmp]; exact hidx
    rw [recordStep_eq _ _ _ hidx2]
    refine ⟨_, rfl, by simp only; rw [hci, hmi]; rfl, ?_, by simp only; rw [hcf, hmf]; rfl,
      ⟨hcc, by rw [hcm, hmm]⟩, fun j hj hji => ?_⟩
    · simp only [List.length_set]
      rw [hcp, hmp]; rfl
    · obtain ⟨h1, h2⟩ := hco j hj hji
      obtain ⟨h3, h4⟩ := hmo j hj hji
      exact ⟨by rw [h1, h3], by rw [h2]; exact h4⟩

end ideal

section runs
variable {σ : Type} {d : Driver σ} {sockets : List Nat} {n : Nat} {handle : Nat → Nat}

theorem mem_boundTargets (ps : List ProfileConfig) (p : ProfileConfig)
    (h : p ∈ boundTargets ps) : p ∈ ps := by
  induction ps with
  | nil => simp [boundTargets] at h
  | cons q ps ih =>
    simp only [boundTargets, List.mem_append] at h
    rcases h with h | h
    · rw [(List.mem_replicate.mp h).2]; exact List.mem_cons_self _ _
    · exact List.mem_cons_of_mem _ (ih h)

theorem validateProfile_nil_nonempty (profile : GPUConfigProfile) (n : Nat)
    (hv : validateProfile profile n = Verdict.nil) : profile.Profiles ≠ [] := by
  intro hnil
  have hr := validateProfile_nil_rules123 profile n hv
  rw [validateProfile_of_rules123 profile n hr, hnil] at hv
  cases hv

theorem accepted_targets (profile : GPUConfigProfile) (n : Nat)
    (hv : validateProfile profile n = Verdict.nil) :
    (∀ p ∈ boundTargets profile.Profiles, validTypes p) ∧
    (∀ p ∈ boundTargets profile.Profiles, ∀ q ∈ boundTargets profile.Profiles,
      p.MemoryPartition = q.MemoryPartition) := by
  obtain ⟨-, -, h3, h4⟩ := (validateProfile_accepts_iff profile n
    (validateProfile_nil_nonempty profile n hv)).mp hv
  exact ⟨fun p hp => h3 p (mem_boundTargets _ _ hp),
    fun p hp q hq => h4 p (mem_boundTargets _ _ hp) q (mem_boundTargets _ _ hq)⟩

theorem deviceLoop_ideal (hI : IdealDriver d sockets n handle) (ids : List Nat)
    (hids : ids.Nodup) (hlt : ∀ g ∈ ids, g < n) (ts : List ProfileConfig)
    (hvalid : ∀ p ∈ ts, validTypes p)
    (hmem : ∀ p ∈ ts, ∀ q ∈ ts, p.MemoryPartition = q.MemoryPartition)
    (st : LoopState σ) (hlen : ts.length ≤ ids.length) (hidx : st.idx = 0)
    (hgs : st.w.partStatus.GPUStatus.length = ids.length) :
    ∃ st', deviceLoop d sockets ids ts st = Step.next st' ∧
      firstRunInv d handle ids ts st ts.length st' := by
  apply deviceLoop_invariant d sockets ids ts (firstRunInv d handle ids ts st) st
  · exact ⟨hidx, hgs, rfl, fun j g q hj => (Nat.not_lt_zero j hj).elim⟩
  · rintro k p s hp ⟨hi, hl, hf, hat⟩
    have hk : k < ts.length := by
      by_contra hcon
      rw [List.getElem?_eq_none (by omega)] at hp
      cases hp
    have hk' : k < ids.length := by omega
    have hpm : p ∈ ts := List.getElem?_mem hp
    have hid : ids[s.idx]? = some ids[k] := by rw [hi]; exact List.getElem?_eq_getElem hk'
    obtain ⟨s1, hrun, hi1, hl1, hf1, hat1, hoth⟩ :=
      processGPU_ideal hI ids p (hvalid p hpm) s ids[k] (hlt _ (List.getElem_mem _)) hid
        (by rw [hi, hl]; exact hk')
    refine ⟨s1, hrun, by rw [hi1, hi], by rw [hl1, hl], by rw [hf1, hf], ?_⟩
    intro j g q hj hg hq
    by_cases hjk : j = k
    · subst hjk
      rw [List.getElem?_eq_getElem hk'] at hg
      rw [hp] at hq
      cases hg; cases hq
      exact hat1
    · have hjl : j < ids.length := by omega
      have hgne : g ≠ ids[k] := by
        intro hcon
        rw [List.getElem?_eq_getElem hjl] at hg
        cases hg
        exact hjk ((List.Nodup.getElem_inj_iff hids).mp hcon)
      have hgm : g ∈ ids := List.getElem?_mem hg
      obtain ⟨h1, h2⟩ := hoth g (hlt g hgm) hgne
      obtain ⟨h3, h4⟩ := hat j g q (by omega) hg hq
      refine ⟨by rw [h1]; exact h3, ?_⟩
      rcases h2 with h2 | h2
      · rw [h2]; exact h4
      · rw [h2]; exact hmem p hpm q (List.getElem?_mem hq)

theorem deviceLoop_at_target (d : Driver σ) (sockets : List Nat) (handle : Nat → Nat)
    (ids : List Nat) (ts : List ProfileConfig) (st : LoopState σ)
    (hprobe : ∀ g ∈ ids, probeGPU d st.w.hw sockets g = Probe.gpu (handle g))
    (hat : ∀ (j g : Nat) (q : ProfileConfig), ids[j]? = some g → ts[j]? = some q →
      atTarget d st.w.hw (handle g) q)
    (hlen : ts.length ≤ ids.length) (hidx : st.idx = 0)
    (hgs : st.w.partStatus.GPUStatus.length = ids.length) :
    ∃ st', deviceLoop d sockets ids ts st = Step.next st' ∧
      secondRunInv st ids ts.length st' := by
  apply deviceLoop_invariant d sockets ids ts (secondRunInv st ids) st
  · exact ⟨hidx, hgs, rfl, rfl, rfl, ⟨[], by simp, by simp⟩, rfl, rfl, rfl⟩
  · rintro k p s hp ⟨hi, hl, hhw, hf, hn, ⟨tail, ht, hmut⟩, he, hlb, hfs⟩
    have hk : k < ts.length := by
      by_contra hcon
      rw [List.getElem?_eq_none (by omega)] at hp
      cases hp
    have hk' : k < ids.length := by omega
    have hid : ids[s.idx]? = some ids[k] := by rw [hi]; exact List.getElem?_eq_getElem hk'
    obtain ⟨hc, hm⟩ := hat k ids[k] p (List.getElem?_eq_getElem hk') hp
    have hrun := processGPU_no_change d sockets ids p s ids[k] (handle ids[k]) hid
      (by rw [hhw]; exact hprobe _ (List.getElem_mem _)) (by rw [hhw]; exact hc)
      (by rw [hhw]; exact hm) (by rw [hi, hl]; exact hk')
    refine ⟨_, hrun, by simp only; rw [hi], by simp only [List.length_set]; exact hl, hhw, hf,
      hn, ?_, he, hlb, hfs⟩
    refine ⟨tail ++ [TraceEntry.gpu ids[k] p.ComputePartition p.MemoryPartition,
      TraceEntry.read (handle ids[k]) p.ComputePartition p.MemoryPartition], ?_, ?_⟩
    · simp only [ht, List.append_assoc, List.singleton_append]
    · intro e he'
      rcases List.mem_append.mp he' with h | h
      · exact hmut e h
      · simp only [List.mem_cons, List.mem_singleton, List.not_mem_nil, or_false] at h
        rcases h with rfl | rfl <;> rfl

end runs

/-! ## The claims about the engine -/

/-- Every device of the simulated node is an accelerator when the type query succeeds. -/
theorem simDriver_accelerators (c : SimConfig) (n : Nat) (hc : c.typeRet = 0)
    (sockets : List Nat) (hw : SimState) (gpu_id : Nat) (h : sockets[gpu_id]? = some gpu_id) :
    probeGPU (simDriver c n) hw sockets gpu_id = Probe.gpu gpu_id := by
  simp [probeGPU, h, amdsmiGetProcessorHandles, simDriver, AMDSMI_STATUS_SUCCESS, fillSlice,
    amdsmiGetProcessorType, hc]

/-- C3: for every profile accepted by `validateProfile`, all devices being accelerators, the
engine of `amdSMIHelper` runs to its end and gives a turn to as many devices as the counts
sum to; for every assignment `i` and every `k` with
`count_0 + ... + count_(i-1) ≤ k < count_0 + ... + count_i`, the `k`-th turn is the one of
device `usable[k]` with requested types `(computeType, memoryType)` of assignment `i`, and
the `k`-th entry of the per-device result is device `usable[k]` with target label
`computeType-memoryType` of assignment `i`. -/
theorem amdSMIHelper_binds_in_order {σ : Type} (d : Driver σ) (profile : GPUConfigProfile)
    (w : World σ) (sockets : List Nat) (n : Nat)
    (hs : amdsmiGetSocketHandles d w.hw = some (sockets, n))
    (hv : validateProfile profile n = Verdict.nil)
    (hacc : ∀ hw gpu_id, gpu_id < n → ∃ h, probeGPU d hw sockets gpu_id = Probe.gpu h) :
    ∃ w' tail, amdSMIHelper d profile w = some w' ∧
      w'.trace = w.trace ++ tail ∧
      (gpuMarkers tail).length = countsBefore profile.Profiles profile.Profiles.length ∧
      ∀ i k p, profile.Profiles[i]? = some p →
        countsBefore profile.Profiles i ≤ k → k < countsBefore profile.Profiles (i + 1) →
        ∃ gpu_id status message,
          (createGPUIDList profile.Filters n)[k]? = some gpu_id ∧
          (gpuMarkers tail)[k]? = some (gpu_id, p.ComputePartition, p.MemoryPartition) ∧
          w'.partStatus.GPUStatus[k]? =
            some ⟨gpu_id, p.ComputePartition ++ "-" ++ p.MemoryPartition, status, message⟩ := by
  obtain ⟨st', hrun, -, -, ⟨tail, ht, hg, -⟩, hrec, -, -, -⟩ :=
    amdSMIHelper_accepted d profile w sockets n hs hv hacc
  have hlen := accepted_bound_le profile n hv
  rw [List.take_of_length_le (by rw [boundDevices_length _ _ hlen])] at hg
  refine ⟨finishBatch st', tail, hrun, ?_, ?_, ?_⟩
  · rw [finishBatch_trace, ht]
    simp [startBatch, reportNoSockets_trace]
  · rw [hg, boundDevices_length _ _ hlen, boundTargets_length, countsBefore_length]
  · intro i k p hp h1 h2
    have hbt := boundTargets_getElem profile.Profiles i k p hp h1 h2
    have hk : k < (boundTargets profile.Profiles).length := by
      by_contra hcon
      rw [List.getElem?_eq_none (by omega)] at hbt
      cases hbt
    obtain ⟨gpu_id, q, status, message, hid, hq, hst⟩ := hrec k hk
    rw [hbt] at hq
    cases hq
    exact ⟨gpu_id, status, message, hid,
      by rw [hg]; exact boundDevices_getElem _ _ k gpu_id p hid hbt,
      by rw [finishBatch_GPUStatus]; exact hst⟩

/-- C3 on Examples A and B: Example B binds devices `0, 1, 4, 5, 6, 7` to
`CPX, DPX, DPX, DPX, DPX, SPX` (memory `NPS1`), Example A binds devices `0..7` to
`SPX`/`NPS1`. -/
theorem amdSMIHelper_binds_in_order_witness :
    (amdSMIHelper (simDriver idealConfig 8) exampleB (world0 hwSPX)).map
        (fun w => (gpuMarkers w.trace,
          w.partStatus.GPUStatus.map (fun g => (g.GpuID, g.PartitionType)))) =
      some ([(0, "CPX", "NPS1"), (1, "DPX", "NPS1"), (4, "DPX", "NPS1"), (5, "DPX", "NPS1"),
         (6, "DPX", "NPS1"), (7, "SPX", "NPS1")],
        [(0, "CPX-NPS1"), (1, "DPX-NPS1"), (4, "DPX-NPS1"), (5, "DPX-NPS1"),
         (6, "DPX-NPS1"), (7, "SPX-NPS1")]) ∧
    (amdSMIHelper (simDriver idealConfig 8) exampleA (world0 hwSPX)).map
        (fun w => (gpuMarkers w.trace,
          w.partStatus.GPUStatus.map (fun g => (g.GpuID, g.PartitionType)))) =
      some ([(0, "SPX", "NPS1"), (1, "SPX", "NPS1"), (2, "SPX", "NPS1"), (3, "SPX", "NPS1"),
         (4, "SPX", "NPS1"), (5, "SPX", "NPS1"), (6, "SPX", "NPS1"), (7, "SPX", "NPS1")],
        [(0, "SPX-NPS1"), (1, "SPX-NPS1"), (2, "SPX-NPS1"), (3, "SPX-NPS1"),
         (4, "SPX-NPS1"), (5, "SPX-NPS1"), (6, "SPX-NPS1"), (7, "SPX-NPS1")]) ∧
    ∃ w' tail, amdSMIHelper (simDriver idealConfig 8) exampleB (world0 hwSPX) = some w' ∧
      w'.trace = (world0 hwSPX).trace ++ tail ∧
      (gpuMarkers tail).length = countsBefore exampleB.Profiles exampleB.Profiles.length ∧
      ∀ i k p, exampleB.Profiles[i]? = some p →
        countsBefore exampleB.Profiles i ≤ k → k < countsBefore exampleB.Profiles (i + 1) →
        ∃ gpu_id status message,
          (createGPUIDList exampleB.Filters 8)[k]? = some gpu_id ∧
          (gpuMarkers tail)[k]? = some (gpu_id, p.ComputePartition, p.MemoryPartition) ∧
          w'.partStatus.GPUStatus[k]? =
            some ⟨gpu_id, p.ComputePartition ++ "-" ++ p.MemoryPartition, status, message⟩ :=
  ⟨by decide, by decide,
   amdSMIHelper_binds_in_order (simDriver idealConfig 8) exampleB (world0 hwSPX)
     [0, 1, 2, 3, 4, 5, 6, 7] 8 (by decide) (by decide)
     (fun hw gpu_id hlt => ⟨gpu_id, simDriver_accelerators idealConfig 8 rfl _ hw gpu_id
       (by interval_cases gpu_id <;> rfl)⟩)⟩

/-- C4: a bound device whose compute and memory type read from the driver equal its target:
the iteration issues no set call (the hardware is untouched, the trace gains the device
marker and the read only), leaves `partition_failed` as it was, records status `Success`
with message `Partition not required`, and no later iteration of the batch rewrites that
record, whatever the state left by the earlier devices and whatever happens afterwards. -/
theorem processGPU_at_target_untouched {σ : Type} (d : Driver σ) (sockets ids : List Nat)
    (p : ProfileConfig) (st : LoopState σ) (gpu_id h : Nat)
    (hid : ids[st.idx]? = some gpu_id)
    (hprobe : probeGPU d st.w.hw sockets gpu_id = Probe.gpu h)
    (hc : getCurrentGPUComputePartition d st.w.hw h = p.ComputePartition)
    (hm : getCurrentGPUMemoryPartition d st.w.hw h = p.MemoryPartition)
    (hidx : st.idx < st.w.partStatus.GPUStatus.length) :
    ∃ st1, processGPU d sockets ids p st = Step.next st1 ∧
      st1.w.hw = st.w.hw ∧
      st1.w.trace = st.w.trace ++
        [TraceEntry.gpu gpu_id p.ComputePartition p.MemoryPartition,
         TraceEntry.read h p.ComputePartition p.MemoryPartition] ∧
      st1.w.partition_failed = st.w.partition_failed ∧
      st1.w.partStatus.GPUStatus[st.idx]? =
        some ⟨gpu_id, p.ComputePartition ++ "-" ++ p.MemoryPartition, "Success",
          "Partition not required"⟩ ∧
      ∀ (j : Nat) (rest : List ProfileConfig) (stF : LoopState σ),
        (loopFrom d sockets ids p j rest st1).state? = some stF →
        (finishBatch stF).partStatus.GPUStatus[st.idx]? =
          some ⟨gpu_id, p.ComputePartition ++ "-" ++ p.MemoryPartition, "Success",
            "Partition not required"⟩ := by
  refine ⟨_, processGPU_no_change d sockets ids p st gpu_id h hid hprobe hc hm hidx, rfl,
    by simp, rfl, ?_, ?_⟩
  · exact List.getElem?_set_self hidx
  · intro j rest stF hF
    rw [loopFrom_eq_deviceLoop] at hF
    obtain ⟨-, hfr⟩ := deviceLoop_frame d sockets ids _ _ stF hF
    rw [finishBatch_GPUStatus, hfr st.idx (Nat.lt_succ_self _)]
    exact List.getElem?_set_self hidx

/-- C4 on the second of two devices, after the first one failed, with a driver whose set
calls report busy. -/
theorem processGPU_at_target_untouched_witness :
    ∃ st1, processGPU (simDriver ⟨0, 30, false, 30, false⟩ 2) [0, 1] [0, 1]
        ⟨"SPX", "NPS1", 1⟩ midBatch = Step.next st1 ∧
      st1.w.hw = midBatch.w.hw ∧
      st1.w.trace = midBatch.w.trace ++
        [TraceEntry.gpu 1 "SPX" "NPS1", TraceEntry.read 1 "SPX" "NPS1"] ∧
      st1.w.partition_failed = midBatch.w.partition_failed ∧
      st1.w.partStatus.GPUStatus[midBatch.idx]? =
        some ⟨1, "SPX" ++ "-" ++ "NPS1", "Success", "Partition not required"⟩ ∧
      ∀ (j : Nat) (rest : List ProfileConfig) (stF : LoopState SimState),
        (loopFrom (simDriver ⟨0, 30, false, 30, false⟩ 2) [0, 1] [0, 1] ⟨"SPX", "NPS1", 1⟩ j
          rest st1).state? = some stF →
        (finishBatch stF).partStatus.GPUStatus[midBatch.idx]? =
          some ⟨1, "SPX" ++ "-" ++ "NPS1", "Success", "Partition not required"⟩ :=
  processGPU_at_target_untouched (simDriver ⟨0, 30, false, 30, false⟩ 2) [0, 1] [0, 1]
    ⟨"SPX", "NPS1", 1⟩ midBatch 1 1 (by decide) (by decide) (by decide) (by decide) (by decide)

section assemble
variable {σ : Type} {d : Driver σ}

theorem amdSMIHelper_of_loop (profile : GPUConfigProfile) (w : World σ)
    (sockets : List Nat) (n : Nat) (st' : LoopState σ)
    (hs : amdsmiGetSocketHandles d w.hw = some (sockets, n))
    (hv : validateProfile profile n = Verdict.nil)
    (hloop : deviceLoop d sockets (createGPUIDList profile.Filters n)
      (boundTargets profile.Profiles)
      (startBatch (createGPUIDList profile.Filters n) (reportNoSockets n w)) = Step.next st') :
    amdSMIHelper d profile w = some (finishBatch st') := by
  unfold amdSMIHelper
  simp only [hs, hv, outerLoop_eq_deviceLoop, hloop]

theorem PartitionGPU_eq (d : Driver σ) (ProfilesList : List (String × GPUConfigProfile))
    (selectedProfile : String) (profile : GPUConfigProfile) (w : World σ)
    (hcfg : lookupProfile selectedProfile ProfilesList = some profile)
    (hinit : d.amdsmi_init w.hw = AMDSMI_STATUS_SUCCESS) :
    PartitionGPU d (ConfigFile.parsed ProfilesList) selectedProfile w =
      match amdSMIHelper d profile (resetStatus selectedProfile w) with
      | none => none
      | some w1 => some (w1, if w1.partition_failed then some "partition failed" else none) := by
  unfold PartitionGPU
  simp only [hcfg]
  rw [if_neg (by simpa [resetStatus] using hinit)]

theorem reportNoSockets_hw (n : Nat) (w : World σ) : (reportNoSockets n w).hw = w.hw := by
  unfold reportNoSockets; split <;> rfl

theorem reportNoSockets_events (n : Nat) (w : World σ) :
    ∃ evs, (reportNoSockets n w).events = w.events ++ evs ∧
      ∀ x ∈ evs, x.reason = K8EventAMDSMIAPIFailure := by
  unfold reportNoSockets
  split
  · exact ⟨[_], rfl, fun x hx => by rw [List.mem_singleton.mp hx]⟩
  · exact ⟨[], by simp, fun x hx => by cases hx⟩

theorem finishBatch_not_failed (st : LoopState σ) (hf : st.w.partition_failed = false) :
    (finishBatch st).partStatus.FinalStatus = "Success" ∧
    (finishBatch st).partition_failed = false ∧
    (finishBatch st).hw = st.w.hw ∧
    ∃ e, (finishBatch st).events = st.w.events ++ [e] ∧
      e.reason = (if st.partition_needed then K8EventSuccessfullyPartitioned
        else K8EventPartitionNotNeeded) ∧
      e.status.FinalStatus = "Success" := by
  unfold finishBatch
  simp only [hf, Bool.false_eq_true, if_false]
  cases st.partition_needed
  · simp [addStateLabel, generateK8sEvent, setReason]
  · simp [addStateLabel, generateK8sEvent, setReason]

theorem finishBatch_failed (st : LoopState σ) (hf : st.w.partition_failed = true) :
    finishBatch st = st.w := by
  unfold finishBatch
  simp only [hf, if_true]

end assemble

/-- C5: idempotence of the engine.  For every accepted profile and every driver whose
partition changes succeed and take effect, `PartitionGPU` called twice in a row, the second
call starting in the world the first one left, returns no error both times with overall
status `Success`; the second run leaves the hardware as it found it and adds no set-memory
or set-compute call to the trace, and the event that ends it is
`RequestedPartitionConfigAlreadyExists`, no `SuccessfullyPartitioned` event being created
by it. -/
theorem PartitionGPU_idempotent {σ : Type} (d : Driver σ)
    (ProfilesList : List (String × GPUConfigProfile)) (selectedProfile : String)
    (profile : GPUConfigProfile) (w : World σ) (sockets : List Nat) (n : Nat)
    (handle : Nat → Nat)
    (hcfg : lookupProfile selectedProfile ProfilesList = some profile)
    (hI : IdealDriver d sockets n handle)
    (hv : validateProfile profile n = Verdict.nil) :
    ∃ w1 w2 tail evs e,
      PartitionGPU d (ConfigFile.parsed ProfilesList) selectedProfile w = some (w1, none) ∧
      PartitionGPU d (ConfigFile.parsed ProfilesList) selectedProfile w1 = some (w2, none) ∧
      w1.partStatus.FinalStatus = "Success" ∧ w2.partStatus.FinalStatus = "Success" ∧
      w2.hw = w1.hw ∧
      w2.trace = w1.trace ++ tail ∧ (∀ t ∈ tail, isMutation t = false) ∧
      w2.events = w1.events ++ evs ++ [e] ∧
      e.reason = K8EventPartitionNotNeeded ∧
      (∀ x ∈ evs, x.reason ≠ K8EventSuccessfullyPartitioned) := by
  have hids := createGPUIDList_nodup profile.Filters n
  have hlt : ∀ g ∈ createGPUIDList profile.Filters n, g < n :=
    fun g hg => ((mem_createGPUIDList _ _ _).mp hg).1
  obtain ⟨hvalid, hmem⟩ := accepted_targets profile n hv
  have hlen := accepted_bound_le profile n hv
  -- first run
  obtain ⟨st1, hrun1, -, -, hf1, hat1⟩ := deviceLoop_ideal hI
    (createGPUIDList profile.Filters n) hids hlt (boundTargets profile.Profiles) hvalid hmem
    (startBatch (createGPUIDList profile.Filters n)
      (reportNoSockets n (resetStatus selectedProfile w)))
    hlen rfl (by simp [startBatch])
  have hh1 := amdSMIHelper_of_loop profile (resetStatus selectedProfile w) sockets n st1
    (hI.sockets_ok _) hv hrun1
  obtain ⟨hs1, hnf1, hhw1, -⟩ := finishBatch_not_failed st1 hf1
  have hP1 := PartitionGPU_eq d ProfilesList selectedProfile profile w hcfg (hI.init_ok _)
  rw [hh1] at hP1
  simp only [hnf1, Bool.false_eq_true, if_false] at hP1
  -- second run
  obtain ⟨st2, hrun2, -, -, hhw2, hf2, hn2, ⟨tail, ht2, hmut2⟩, he2, -, -⟩ :=
    deviceLoop_at_target d sockets handle
    (createGPUIDList profile.Filters n) (boundTargets profile.Profiles)
    (startBatch (createGPUIDList profile.Filters n)
      (reportNoSockets n (resetStatus selectedProfile (finishBatch st1))))
    (fun g hg => hI.probe_ok _ g (hlt g hg))
    (fun j g q hg hq => by
      have hj : j < (boundTargets profile.Profiles).length := by
        by_contra hcon
        rw [List.getElem?_eq_none (by omega)] at hq
        cases hq
      have := hat1 j g q hj hg hq
      simpa [startBatch, reportNoSockets_hw, resetStatus, hhw1] using this)
    hlen rfl (by simp [startBatch])
  have hh2 := amdSMIHelper_of_loop profile (resetStatus selectedProfile (finishBatch st1))
    sockets n st2 (hI.sockets_ok _) hv hrun2
  obtain ⟨hs2, hnf2, hhw2', e, hev2, her, -⟩ := finishBatch_not_failed st2 hf2
  have hP2 := PartitionGPU_eq d ProfilesList selectedProfile profile (finishBatch st1)
    hcfg (hI.init_ok _)
  rw [hh2] at hP2
  simp only [hnf2, Bool.false_eq_true, if_false] at hP2
  obtain ⟨evs, hevs, hevr⟩ := reportNoSockets_events n
    (resetStatus selectedProfile (finishBatch st1))
  refine ⟨finishBatch st1, finishBatch st2, tail, evs, e, hP1, hP2, hs1, hs2, ?_, ?_, hmut2,
    ?_, ?_, ?_⟩
  · rw [hhw2', hhw2]
    simp [startBatch, reportNoSockets_hw, resetStatus]
  · rw [finishBatch_trace, ht2]
    simp [startBatch, reportNoSockets_trace, resetStatus]
  · rw [hev2, he2]
    simp only [startBatch, hevs]
    rfl
  · rw [her, hn2]
    rfl
  · intro x hx
    rw [hevr x hx]
    decide

/-- The simulated driver with the ideal configuration is an ideal driver on eight devices. -/
theorem simDriver_ideal :
    IdealDriver (simDriver idealConfig 8) [0, 1, 2, 3, 4, 5, 6, 7] 8 id where
  init_ok := fun _ => rfl
  sockets_ok := fun _ => rfl
  probe_ok := fun hw gpu_id hlt =>
    simDriver_accelerators idealConfig 8 rfl _ hw gpu_id (by interval_cases gpu_id <;> rfl)
  memory_ok := fun _ _ _ _ => rfl
  memory_effect := fun hw i ty _ => by
    simp [getCurrentGPUMemoryPartition, simDriver, idealConfig, AMDSMI_STATUS_SUCCESS]
  memory_frame := fun hw i ty j _ _ hji => by
    simp [getCurrentGPUMemoryPartition, getCurrentGPUComputePartition, simDriver, idealConfig,
      AMDSMI_STATUS_SUCCESS, Function.update_noteq hji]
  compute_ok := fun _ _ _ _ => rfl
  compute_effect := fun hw i ty _ => by
    simp [getCurrentGPUMemoryPartition, getCurrentGPUComputePartition, simDriver, idealConfig,
      AMDSMI_STATUS_SUCCESS]
  compute_frame := fun hw i ty j _ _ hji => by
    simp [getCurrentGPUMemoryPartition, getCurrentGPUComputePartition, simDriver, idealConfig,
      AMDSMI_STATUS_SUCCESS, Function.update_noteq hji]

/-- C5 on Example B with eight devices in `SPX`/`NPS1`: the first run makes five compute
changes, the second none. -/
theorem PartitionGPU_idempotent_witness :
    ((PartitionGPU (simDriver idealConfig 8) (ConfigFile.parsed exampleConfig) "e2e_profile1"
        (world0 hwSPX)).bind
      (fun r => PartitionGPU (simDriver idealConfig 8) (ConfigFile.parsed exampleConfig)
        "e2e_profile1" r.1)).map
      (fun r => (r.1.trace.filter isMutation, r.1.events.map (fun e => e.reason), r.2)) =
      some ([TraceEntry.setCompute 0 ComputePartitionType.CPX 0 "SPX" "CPX",
             TraceEntry.setCompute 1 ComputePartitionType.DPX 0 "SPX" "DPX",
             TraceEntry.setCompute 4 ComputePartitionType.DPX 0 "SPX" "DPX",
             TraceEntry.setCompute 5 ComputePartitionType.DPX 0 "SPX" "DPX",
             TraceEntry.setCompute 6 ComputePartitionType.DPX 0 "SPX" "DPX"],
            ["SuccessfullyPartitioned", "RequestedPartitionConfigAlreadyExists"], none) ∧
    ∃ w1 w2 tail evs e,
      PartitionGPU (simDriver idealConfig 8) (ConfigFile.parsed exampleConfig) "e2e_profile1"
        (world0 hwSPX) = some (w1, none) ∧
      PartitionGPU (simDriver idealConfig 8) (ConfigFile.parsed exampleConfig) "e2e_profile1"
        w1 = some (w2, none) ∧
      w1.partStatus.FinalStatus = "Success" ∧ w2.partStatus.FinalStatus = "Success" ∧
      w2.hw = w1.hw ∧
      w2.trace = w1.trace ++ tail ∧ (∀ t ∈ tail, isMutation t = false) ∧
      w2.events = w1.events ++ evs ++ [e] ∧
      e.reason = K8EventPartitionNotNeeded ∧
      (∀ x ∈ evs, x.reason ≠ K8EventSuccessfullyPartitioned) :=
  ⟨by decide,
   PartitionGPU_idempotent (simDriver idealConfig 8) exampleConfig "e2e_profile1" exampleB
     (world0 hwSPX) [0, 1, 2, 3, 4, 5, 6, 7] 8 id (by decide) simDriver_ideal (by decide)⟩

theorem confirmed_not_failed (e : TraceEntry) (h : confirmedChange e = true) :
    failedChange e = false := by
  cases e <;> simp_all [confirmedChange, failedChange]

theorem reportNoSockets_FinalStatus {σ : Type} (n : Nat) (w : World σ) :
    (reportNoSockets n w).partStatus.FinalStatus = w.partStatus.FinalStatus := by
  unfold reportNoSockets; split <;> rfl

/-- C6, as stated, fails: on an accepted profile, when the processor type query of the first
device fails, no partition change is issued, yet the overall status is `Failure` and
`PartitionGPU` returns no error. -/
theorem PartitionGPU_type_query_failure :
    validateProfile exampleA 8 = Verdict.nil ∧
    (PartitionGPU (simDriver noTypeConfig 8) (ConfigFile.parsed exampleConfig) "default"
        (world0 hwSPX)).map
      (fun r => (r.1.partStatus.FinalStatus, r.2, r.1.trace, r.1.events.map (fun e => e.reason)))
      = some ("Failure", none, [TraceEntry.gpu 0 "SPX" "NPS1"], ["AMDSMIAPIFailure"]) := by
  decide

/-- C6, amended: partial-failure semantics.  For every accepted profile, all devices being
accelerators and the driver being initialized, a failed change does not stop the batch:
`PartitionGPU` returns, every bound device has its turn in order (the turns are the usable
devices paired with the targets of the assignments) and its entry in the per-device result;
if some change call did not return success, or a memory change read back
the value read before the call, the overall status is `Failure` and `PartitionGPU` returns
an error; if every change issued returned success and read back a changed value, the
overall status is `Success` and no error is returned. -/
theorem PartitionGPU_batch_outcome {σ : Type} (d : Driver σ)
    (ProfilesList : List (String × GPUConfigProfile)) (selectedProfile : String)
    (profile : GPUConfigProfile) (w : World σ) (sockets : List Nat) (n : Nat)
    (hcfg : lookupProfile selectedProfile ProfilesList = some profile)
    (hinit : d.amdsmi_init w.hw = AMDSMI_STATUS_SUCCESS)
    (hs : amdsmiGetSocketHandles d w.hw = some (sockets, n))
    (hv : validateProfile profile n = Verdict.nil)
    (hacc : ∀ hw gpu_id, gpu_id < n → ∃ h, probeGPU d hw sockets gpu_id = Probe.gpu h) :
    ∃ w' err tail,
      PartitionGPU d (ConfigFile.parsed ProfilesList) selectedProfile w = some (w', err) ∧
      w'.trace = w.trace ++ tail ∧
      gpuMarkers tail =
        boundDevices (createGPUIDList profile.Filters n) (boundTargets profile.Profiles) ∧
      (gpuMarkers tail).length = countsBefore profile.Profiles profile.Profiles.length ∧
      (∀ k, k < countsBefore profile.Profiles profile.Profiles.length →
        ∃ gpu_id label status message,
          (createGPUIDList profile.Filters n)[k]? = some gpu_id ∧
          w'.partStatus.GPUStatus[k]? = some ⟨gpu_id, label, status, message⟩) ∧
      ((∃ e ∈ tail, failedChange e = true) →
        w'.partStatus.FinalStatus = "Failure" ∧ err = some "partition failed") ∧
      ((∀ e ∈ tail, confirmedChange e = true) →
        w'.partStatus.FinalStatus = "Success" ∧ err = none) := by
  obtain ⟨st', hrun, -, -, ⟨tail, ht, hg, hf⟩, hrec, -, hfs, -⟩ :=
    amdSMIHelper_accepted d profile (resetStatus selectedProfile w) sockets n hs hv hacc
  have hP := PartitionGPU_eq d ProfilesList selectedProfile profile w hcfg hinit
  rw [hrun] at hP
  simp only at hP
  have hf' : st'.w.partition_failed = tail.any failedChange := by
    rw [hf]; simp [startBatch]
  have hfs' : st'.w.partStatus.FinalStatus = "Failure" := by
    rw [hfs]; simp [startBatch, reportNoSockets_FinalStatus, resetStatus]
  have hlen := accepted_bound_le profile n hv
  rw [List.take_of_length_le (by rw [boundDevices_length _ _ hlen])] at hg
  refine ⟨_, _, tail, hP, ?_, hg, ?_, ?_, ?_, ?_⟩
  · rw [finishBatch_trace, ht]
    simp [startBatch, reportNoSockets_trace, resetStatus]
  · rw [hg, boundDevices_length _ _ hlen, boundTargets_length, countsBefore_length]
  · intro k hk
    rw [countsBefore_length, ← boundTargets_length] at hk
    obtain ⟨gpu_id, q, status, message, hid, -, hst⟩ := hrec k hk
    exact ⟨gpu_id, _, status, message, hid, by rw [finishBatch_GPUStatus]; exact hst⟩
  · rintro ⟨e, he, hfe⟩
    have hfail : st'.w.partition_failed = true := by
      rw [hf']; exact List.any_eq_true.mpr ⟨e, he, hfe⟩
    rw [finishBatch_failed st' hfail]
    exact ⟨hfs', by simp [hfail]⟩
  · intro hall
    have hok : st'.w.partition_failed = false := by
      rw [hf', List.any_eq_false]
      intro e he
      rw [confirmed_not_failed e (hall e he)]
      simp
    obtain ⟨h1, h2, -, -⟩ := finishBatch_not_failed st' hok
    exact ⟨h1, by simp [h2]⟩

/-- C6, amended, on Example B with a driver whose compute change reports busy: the five
devices needing a change fail, every device still has its turn, the overall status is
`Failure` and an error is returned. -/
theorem PartitionGPU_batch_outcome_witness :
    (PartitionGPU (simDriver busyComputeConfig 8) (ConfigFile.parsed exampleConfig)
        "e2e_profile1" (world0 hwSPX)).map
      (fun r => (r.1.partStatus.FinalStatus, r.2, (gpuMarkers r.1.trace).map (fun x => x.1),
        r.1.partStatus.GPUStatus.map (fun g => (g.GpuID, g.Status)))) =
      some ("Failure", some "partition failed", [0, 1, 4, 5, 6, 7],
        [(0, "Failure"), (1, "Failure"), (4, "Failure"), (5, "Failure"), (6, "Failure"),
         (7, "Success")]) ∧
    ∃ w' err tail,
      PartitionGPU (simDriver busyComputeConfig 8) (ConfigFile.parsed exampleConfig)
        "e2e_profile1" (world0 hwSPX) = some (w', err) ∧
      w'.trace = (world0 hwSPX).trace ++ tail ∧
      gpuMarkers tail =
        boundDevices (createGPUIDList exampleB.Filters 8) (boundTargets exampleB.Profiles) ∧
      (gpuMarkers tail).length = countsBefore exampleB.Profiles exampleB.Profiles.length ∧
      (∀ k, k < countsBefore exampleB.Profiles exampleB.Profiles.length →
        ∃ gpu_id label status message,
          (createGPUIDList exampleB.Filters 8)[k]? = some gpu_id ∧
          w'.partStatus.GPUStatus[k]? = some ⟨gpu_id, label, status, message⟩) ∧
      ((∃ e ∈ tail, failedChange e = true) →
        w'.partStatus.FinalStatus = "Failure" ∧ err = some "partition failed") ∧
      ((∀ e ∈ tail, confirmedChange e = true) →
        w'.partStatus.FinalStatus = "Success" ∧ err = none) :=
  ⟨by decide,
   PartitionGPU_batch_outcome (simDriver busyComputeConfig 8) exampleConfig "e2e_profile1"
     exampleB (world0 hwSPX) [0, 1, 2, 3, 4, 5, 6, 7] 8 (by decide) (by decide) (by decide)
     (by decide)
     (fun hw gpu_id hlt => ⟨gpu_id, simDriver_accelerators busyComputeConfig 8 rfl _ hw gpu_id
       (by interval_cases gpu_id <;> rfl)⟩)⟩

/-- C7: a bound device whose memory type differs from the target: the engine issues the
memory-partition change right after the read, before any compute-partition change on the
device, and re-reads the memory type from the state the call left; when the call's status is
not success or the re-read value equals the value read before the call, `partition_failed`
is set and the device is recorded as `Failure` with message
`Partition failed with reason: ` followed by the driver's status string, which is the string
of the memory call's status unless a compute change on the same device fails too, in which
case it is the string of that call's status. -/
theorem processGPU_memory_change_first {σ : Type} (d : Driver σ) (sockets ids : List Nat)
    (p : ProfileConfig) (st : LoopState σ) (gpu_id h : Nat)
    (hid : ids[st.idx]? = some gpu_id)
    (hprobe : probeGPU d st.w.hw sockets gpu_id = Probe.gpu h)
    (hidx : st.idx < st.w.partStatus.GPUStatus.length)
    (hne : p.MemoryPartition ≠ getCurrentGPUMemoryPartition d st.w.hw h) :
    ∃ st1 tail, processGPU d sockets ids p st = Step.next st1 ∧
      st1.w.trace = st.w.trace ++
        [TraceEntry.gpu gpu_id p.ComputePartition p.MemoryPartition,
         TraceEntry.read h (getCurrentGPUComputePartition d st.w.hw h)
           (getCurrentGPUMemoryPartition d st.w.hw h),
         TraceEntry.setMemory h (convertMemoryPartitionType p.MemoryPartition)
           (d.amdsmi_set_gpu_memory_partition st.w.hw h
             (convertMemoryPartitionType p.MemoryPartition)).1
           (getCurrentGPUMemoryPartition d st.w.hw h)
           (getCurrentGPUMemoryPartition d
             (d.amdsmi_set_gpu_memory_partition st.w.hw h
               (convertMemoryPartitionType p.MemoryPartition)).2 h)] ++ tail ∧
      (tail = [] ∨ ∃ ret existing updated,
        tail = [TraceEntry.setCompute h (convertComputePartitonType p.ComputePartition) ret
          existing updated]) ∧
      (((d.amdsmi_set_gpu_memory_partition st.w.hw h
            (convertMemoryPartitionType p.MemoryPartition)).1 ≠ AMDSMI_STATUS_SUCCESS ∨
          getCurrentGPUMemoryPartition d
            (d.amdsmi_set_gpu_memory_partition st.w.hw h
              (convertMemoryPartitionType p.MemoryPartition)).2 h =
            getCurrentGPUMemoryPartition d st.w.hw h) →
        st1.w.partition_failed = true ∧
        ∃ code, st1.w.partStatus.GPUStatus[st.idx]? =
            some ⟨gpu_id, p.ComputePartition ++ "-" ++ p.MemoryPartition, "Failure",
              "Partition failed with reason: " ++ getAMDSMIStatusString code⟩ ∧
          (code = (d.amdsmi_set_gpu_memory_partition st.w.hw h
              (convertMemoryPartitionType p.MemoryPartition)).1 ∨
           ∃ existing updated,
             TraceEntry.setCompute h (convertComputePartitonType p.ComputePartition) code
               existing updated ∈ tail ∧ code ≠ AMDSMI_STATUS_SUCCESS)) := by
  rw [processGPU_change_eq d sockets ids p st gpu_id h hid hprobe (fun hh => hne hh.2),
    memoryStep_diff d _ _ h _ hne]
  simp only
  generalize hsm : (if failedChange (memoryEntry d p.MemoryPartition
      (getCurrentGPUMemoryPartition d st.w.hw h) h (readState d p gpu_id h st).w.hw) = true
    then _ else _) = sm
  have hfc : failedChange (memoryEntry d p.MemoryPartition
      (getCurrentGPUMemoryPartition d st.w.hw h) h (readState d p gpu_id h st).w.hw) = true ↔
      ((d.amdsmi_set_gpu_memory_partition st.w.hw h
            (convertMemoryPartitionType p.MemoryPartition)).1 ≠ AMDSMI_STATUS_SUCCESS ∨
          getCurrentGPUMemoryPartition d
            (d.amdsmi_set_gpu_memory_partition st.w.hw h
              (convertMemoryPartitionType p.MemoryPartition)).2 h =
            getCurrentGPUMemoryPartition d st.w.hw h) := by
    simp [failedChange, memoryEntry, readState, logTrace]
  have hm : sm.idx = st.idx ∧ sm.w.partStatus = st.w.partStatus ∧
      sm.w.trace = st.w.trace ++ [TraceEntry.gpu gpu_id p.ComputePartition p.MemoryPartition,
         TraceEntry.read h (getCurrentGPUComputePartition d st.w.hw h)
           (getCurrentGPUMemoryPartition d st.w.hw h),
         memoryEntry d p.MemoryPartition (getCurrentGPUMemoryPartition d st.w.hw h) h st.w.hw] ∧
      (failedChange (memoryEntry d p.MemoryPartition
        (getCurrentGPUMemoryPartition d st.w.hw h) h (readState d p gpu_id h st).w.hw) = true →
        sm.w.partition_failed = true ∧ sm.partition_err_reason = getAMDSMIStatusString
          (d.amdsmi_set_gpu_memory_partition st.w.hw h
            (convertMemoryPartitionType p.MemoryPartition)).1) := by
    subst hsm
    split <;> simp_all [logTrace, markFailed, addStateLabel, readState]
  obtain ⟨hmi, hmp, hmt, hmf⟩ := hm
  rw [hfc] at hmf
  by_cases hc : p.ComputePartition = getCurrentGPUComputePartition d sm.w.hw h
  · rw [computeStep_same d _ h sm hc, recordStep_eq _ _ _ (by rw [hmi, hmp]; exact hidx)]
    refine ⟨_, [], rfl, by simp [hmt, memoryEntry], Or.inl rfl, fun hfail => ?_⟩
    obtain ⟨hf1, hf2⟩ := hmf hfail
    refine ⟨hf1, _, ?_, Or.inl rfl⟩
    simp only [hmi, hmp, hf1, hf2, recordedStatus, if_true, targetLabel]
    exact List.getElem?_set_self hidx
  · rw [computeStep_diff d _ h sm hc]
    simp only
    generalize hsc : (if failedChange (computeEntry d p.ComputePartition h sm.w.hw) = true
      then _ else _) = sc
    have hcs : sc.idx = st.idx ∧ sc.w.partStatus = st.w.partStatus ∧
        sc.w.trace = sm.w.trace ++ [computeEntry d p.ComputePartition h sm.w.hw] ∧
        (failedChange (computeEntry d p.ComputePartition h sm.w.hw) = true →
          sc.w.partition_failed = true ∧ sc.partition_err_reason = getAMDSMIStatusString
            (d.amdsmi_set_gpu_compute_partition sm.w.hw h
              (convertComputePartitonType p.ComputePartition)).1) ∧
        (failedChange (computeEntry d p.ComputePartition h sm.w.hw) = false →
          sc.w.partition_failed = sm.w.partition_failed ∧
          sc.partition_err_reason = sm.partition_err_reason) := by
      subst hsc
      split <;> simp_all [logTrace, markFailed, addStateLabel]
    obtain ⟨hci, hcp, hct, hcf, hcn⟩ := hcs
    rw [recordStep_eq _ _ _ (by rw [hci, hcp]; exact hidx)]
    refine ⟨_, [computeEntry d p.ComputePartition h sm.w.hw], rfl,
      by simp [hct, hmt, memoryEntry], Or.inr ⟨_, _, _, rfl⟩, fun hfail => ?_⟩
    obtain ⟨hf1, hf2⟩ := hmf hfail
    cases hcfail : failedChange (computeEntry d p.ComputePartition h sm.w.hw)
    · obtain ⟨h1, h2⟩ := hcn hcfail
      refine ⟨by simp only; rw [h1, hf1], _, ?_, Or.inl rfl⟩
      simp only [hci, hcp, h1, h2, hf1, hf2, recordedStatus, if_true, targetLabel]
      exact List.getElem?_set_self hidx
    · obtain ⟨h1, h2⟩ := hcf hcfail
      refine ⟨by simp only; rw [h1], _, ?_, Or.inr ⟨_, _, List.mem_singleton.mpr rfl, ?_⟩⟩
      · simp only [hci, hcp, h1, h2, recordedStatus, if_true, targetLabel]
        exact List.getElem?_set_self hidx
      · simpa [failedChange, computeEntry] using hcfail

/-- C7 on one device in `SPX`/`NPS1` with target `CPX`/`NPS4` and a driver whose memory
change reports busy: the memory change precedes the compute change and the device is
recorded `Failure` with reason `Device busy.`. -/
theorem processGPU_memory_change_first_witness :
    (processGPU (simDriver busyMemoryConfig 1) [0] [0] ⟨"CPX", "NPS4", 1⟩ oneDeviceStart).state?.map
        (fun s => (s.w.trace, s.w.partStatus.GPUStatus, s.w.partition_failed)) =
      some ([TraceEntry.gpu 0 "CPX" "NPS4", TraceEntry.read 0 "SPX" "NPS1",
          TraceEntry.setMemory 0 MemoryPartitionType.NPS4 30 "NPS1" "NPS1",
          TraceEntry.setCompute 0 ComputePartitionType.CPX 0 "SPX" "CPX"],
        [⟨0, "CPX-NPS4", "Failure", "Partition failed with reason: Device busy."⟩], true) ∧
    ∃ st1 tail, processGPU (simDriver busyMemoryConfig 1) [0] [0] ⟨"CPX", "NPS4", 1⟩
        oneDeviceStart = Step.next st1 ∧
      st1.w.trace = oneDeviceStart.w.trace ++
        [TraceEntry.gpu 0 "CPX" "NPS4", TraceEntry.read 0 "SPX" "NPS1",
         TraceEntry.setMemory 0 MemoryPartitionType.NPS4 30 "NPS1" "NPS1"] ++ tail ∧
      (tail = [] ∨ ∃ ret existing updated,
        tail = [TraceEntry.setCompute 0 ComputePartitionType.CPX ret existing updated]) ∧
      ((30 ≠ AMDSMI_STATUS_SUCCESS ∨ "NPS1" = "NPS1") →
        st1.w.partition_failed = true ∧
        ∃ code, st1.w.partStatus.GPUStatus[0]? =
            some ⟨0, "CPX" ++ "-" ++ "NPS4", "Failure",
              "Partition failed with reason: " ++ getAMDSMIStatusString code⟩ ∧
          (code = 30 ∨
           ∃ existing updated,
             TraceEntry.setCompute 0 ComputePartitionType.CPX code existing updated ∈ tail ∧
               code ≠ AMDSMI_STATUS_SUCCESS)) :=
  ⟨by decide,
   processGPU_memory_change_first (simDriver busyMemoryConfig 1) [0] [0] ⟨"CPX", "NPS4", 1⟩
     oneDeviceStart 0 0 (by decide) (by decide) (by decide) (by decide)⟩

/-- C8 at the failing input: one device in `SPX`/`NPS1`, target `CPX`/`NPS1`, and a driver
whose set calls return success and change nothing.  The compute change is issued and the
compute type re-read (`SPX`, unchanged), yet the device is recorded `Success`, the overall
status is `Success` and no error is returned; with target `SPX`/`NPS4` the memory change
under the same driver is recorded `Failure`. -/
theorem compute_readback_not_checked :
    (PartitionGPU (simDriver inertConfig 1) (ConfigFile.parsed oneDeviceConfig) "cpx"
        (world0 hwSPX)).map
      (fun r => (r.1.trace, r.1.partStatus.GPUStatus, r.1.partStatus.FinalStatus, r.2)) =
      some ([TraceEntry.gpu 0 "CPX" "NPS1", TraceEntry.read 0 "SPX" "NPS1",
             TraceEntry.setCompute 0 ComputePartitionType.CPX 0 "SPX" "SPX"],
            [⟨0, "CPX-NPS1", "Success", "Successfully partitioned"⟩], "Success", none) ∧
    (PartitionGPU (simDriver inertConfig 1) (ConfigFile.parsed oneDeviceConfig) "nps4"
        (world0 hwSPX)).map
      (fun r => (r.1.trace, r.1.partStatus.GPUStatus, r.1.partStatus.FinalStatus, r.2)) =
      some ([TraceEntry.gpu 0 "SPX" "NPS4", TraceEntry.read 0 "SPX" "NPS1",
             TraceEntry.setMemory 0 MemoryPartitionType.NPS4 0 "NPS1" "NPS1"],
            [⟨0, "SPX-NPS4", "Failure", "Partition failed with reason: Call succeeded."⟩],
            "Failure", some "partition failed") := by
  decide

/-! ## Rejected profiles -/


theorem checkPartitionTypes_ne_panic (m : String) (ps : List ProfileConfig) :
    checkPartitionTypes m ps ≠ Verdict.panic := by
  induction ps with
  | nil => simp [checkPartitionTypes]
  | cons p ps ih =>
    simp only [checkPartitionTypes]
    split
    · simp
    · split
      · simp
      · exact ih

theorem validateProfile_ne_panic (profile : GPUConfigProfile) (n : Nat)
    (hne : profile.Profiles ≠ []) : validateProfile profile n ≠ Verdict.panic := by
  unfold validateProfile
  simp only
  split
  · simp
  · split
    · simp
    · split
      · simp
      · split
        · next heq => exact absurd heq hne
        · exact checkPartitionTypes_ne_panic _ _

/-- A profile with an assignment is either accepted or rejected with an error. -/
theorem validateProfile_rejects_of_not_nil (profile : GPUConfigProfile) (n : Nat)
    (hne : profile.Profiles ≠ []) (hnil : validateProfile profile n ≠ Verdict.nil) :
    ∃ e, validateProfile profile n = Verdict.err e := by
  have hp := validateProfile_ne_panic profile n hne
  cases h : validateProfile profile n with
  | nil => exact absurd h hnil
  | err e => exact ⟨e, rfl⟩
  | panic => exact absurd h hp

theorem checkPartitionTypes_valid (m : String) (ps : List ProfileConfig)
    (hvalid : ∀ a ∈ ps, validTypes a) (q : ProfileConfig) (hq : q ∈ ps)
    (hne : q.MemoryPartition ≠ m) :
    checkPartitionTypes m ps = Verdict.err errMixedMemory := by
  induction ps with
  | nil => cases hq
  | cons p ps ih =>
    simp only [checkPartitionTypes]
    rw [(checkInvalidPartitionType_none_iff p).mpr (hvalid p (List.mem_cons_self _ _))]
    simp only
    by_cases hm : m = p.MemoryPartition
    · rw [if_neg (by simpa using hm)]
      rcases List.mem_cons.mp hq with rfl | hq'
      · exact absurd hm.symm hne
      · exact ih (fun a ha => hvalid a (List.mem_cons_of_mem _ ha)) hq'
    · rw [if_pos hm]

theorem checkPartitionTypes_cases (m : String) (ps : List ProfileConfig) :
    checkPartitionTypes m ps = Verdict.nil ∨
    checkPartitionTypes m ps = Verdict.err errInvalidComputeType ∨
    checkPartitionTypes m ps = Verdict.err errInvalidMemoryType ∨
    checkPartitionTypes m ps = Verdict.err errMixedMemory := by
  induction ps with
  | nil => exact Or.inl rfl
  | cons p ps ih =>
    simp only [checkPartitionTypes]
    by_cases hv : validTypes p
    · rw [(checkInvalidPartitionType_none_iff p).mpr hv]
      simp only
      split
      · exact Or.inr (Or.inr (Or.inr rfl))
      · exact ih
    · rw [checkInvalidPartitionType_some p hv]
      simp only
      split
      · exact Or.inr (Or.inr (Or.inl rfl))
      · exact Or.inr (Or.inl rfl)

/-- An engine invocation on a profile that `validateProfile` rejects: no driver call is made,
the invalid-profile event is created and the node status label `failure` is requested. -/
theorem PartitionGPU_rejected {σ : Type} (d : Driver σ)
    (ProfilesList : List (String × GPUConfigProfile)) (selectedProfile : String)
    (profile : GPUConfigProfile) (w : World σ) (sockets : List Nat) (n : Nat) (e : String)
    (hcfg : lookupProfile selectedProfile ProfilesList = some profile)
    (hinit : d.amdsmi_init w.hw = AMDSMI_STATUS_SUCCESS)
    (hs : amdsmiGetSocketHandles d w.hw = some (sockets, n))
    (hv : validateProfile profile n = Verdict.err e) :
    PartitionGPU d (ConfigFile.parsed ProfilesList) selectedProfile w =
      some (addStateLabel "failure"
        (generateK8sEvent (some e) K8EventInvalidProfile
          (setReason ("Partition failed with reason: " ++ e)
            (reportNoSockets n (resetStatus selectedProfile w)))),
        if w.partition_failed then some "partition failed" else none) := by
  rw [PartitionGPU_eq d ProfilesList selectedProfile profile w hcfg hinit]
  have hs' : amdsmiGetSocketHandles d (resetStatus selectedProfile w).hw = some (sockets, n) := hs
  unfold amdSMIHelper
  simp only [hs', hv]
  have : (reportNoSockets n (resetStatus selectedProfile w)).partition_failed =
      w.partition_failed := by
    unfold reportNoSockets; split <;> rfl
  simp [addStateLabel, generateK8sEvent, setReason, this]

/-- The observable outcome of a rejected profile. -/
theorem PartitionGPU_rejected_outcome {σ : Type} (d : Driver σ)
    (ProfilesList : List (String × GPUConfigProfile)) (selectedProfile : String)
    (profile : GPUConfigProfile) (w : World σ) (sockets : List Nat) (n : Nat) (e : String)
    (hcfg : lookupProfile selectedProfile ProfilesList = some profile)
    (hinit : d.amdsmi_init w.hw = AMDSMI_STATUS_SUCCESS)
    (hs : amdsmiGetSocketHandles d w.hw = some (sockets, n))
    (hv : validateProfile profile n = Verdict.err e) :
    ∃ w' r, PartitionGPU d (ConfigFile.parsed ProfilesList) selectedProfile w = some (w', r) ∧
      w'.labels.getLast? = some "failure" ∧
      w'.events.getLast? = some ⟨K8EventInvalidProfile, true, w'.partStatus⟩ ∧
      w'.partStatus.FinalStatus = "Failure" ∧
      w'.trace = w.trace ∧ w'.hw = w.hw := by
  refine ⟨_, _, PartitionGPU_rejected d ProfilesList selectedProfile profile w sockets n e
    hcfg hinit hs hv, ?_, ?_, ?_, ?_, ?_⟩
  · simp [addStateLabel]
  · simp [addStateLabel, generateK8sEvent]
  · simp [addStateLabel, generateK8sEvent, setReason, reportNoSockets_FinalStatus, resetStatus]
  · simp [addStateLabel, generateK8sEvent, setReason, reportNoSockets_trace, resetStatus]
  · simp [addStateLabel, generateK8sEvent, setReason, reportNoSockets_hw, resetStatus]

/-- C11: for every device count `n` and every profile that contains two assignments with
different memoryType values, `validateProfile` rejects the profile with an error; when rules
1-3 hold (the count sum is correct) and every type is recognized, the error is the
mixed-memoryType error; and an engine invocation on such a profile makes no driver call and
ends by requesting the node status label `failure`. -/
theorem validateProfile_mixed_memory_rejected (profile : GPUConfigProfile) (n : Nat)
    (p q : ProfileConfig) (hp : p ∈ profile.Profiles) (hq : q ∈ profile.Profiles)
    (hne : p.MemoryPartition ≠ q.MemoryPartition) :
    (∃ e, validateProfile profile n = Verdict.err e) ∧
    (rules123 profile n → (∀ a ∈ profile.Profiles, validTypes a) →
      validateProfile profile n = Verdict.err errMixedMemory) ∧
    (∀ (σ : Type) (d : Driver σ) (ProfilesList : List (String × GPUConfigProfile))
      (selectedProfile : String) (w : World σ) (sockets : List Nat),
      lookupProfile selectedProfile ProfilesList = some profile →
      d.amdsmi_init w.hw = AMDSMI_STATUS_SUCCESS →
      amdsmiGetSocketHandles d w.hw = some (sockets, n) →
      ∃ w' r, PartitionGPU d (ConfigFile.parsed ProfilesList) selectedProfile w = some (w', r) ∧
        w'.labels.getLast? = some "failure" ∧
        w'.events.getLast? = some ⟨K8EventInvalidProfile, true, w'.partStatus⟩ ∧
        w'.partStatus.FinalStatus = "Failure" ∧ w'.trace = w.trace ∧ w'.hw = w.hw) := by
  have hnonempty : profile.Profiles ≠ [] := List.ne_nil_of_mem hp
  have hnil : validateProfile profile n ≠ Verdict.nil := by
    intro h
    exact hne (((validateProfile_accepts_iff profile n hnonempty).mp h).2.2.2 p hp q hq)
  obtain ⟨e, he⟩ := validateProfile_rejects_of_not_nil profile n hnonempty hnil
  refine ⟨⟨e, he⟩, fun hr hvalid => ?_, fun σ d ProfilesList selectedProfile w sockets hcfg hinit hs =>
    PartitionGPU_rejected_outcome d ProfilesList selectedProfile profile w sockets n e hcfg hinit
      hs he⟩
  rw [validateProfile_of_rules123 profile n hr]
  cases hps : profile.Profiles with
  | nil => exact absurd hps hnonempty
  | cons p0 rest =>
    simp only
    rw [hps] at hp hq hvalid
    by_cases hpm : p.MemoryPartition = p0.MemoryPartition
    · exact checkPartitionTypes_valid _ _ hvalid q hq (fun h => hne (hpm.trans h.symm))
    · exact checkPartitionTypes_valid _ _ hvalid p hp hpm

/-- C11 on Example C (`{CPX,NPS1,4}`, `{SPX,NPS4,4}`, `n = 8`) and on `inval_prof4` of the
end-to-end tests (`{DPX,NPS4,7}`, `{SPX,NPS1,1}` on eight devices), whose engine run requests
the label `failure` and nothing else. -/
theorem validateProfile_mixed_memory_rejected_witness :
    validateProfile exampleC 8 = Verdict.err errMixedMemory ∧
    validateProfile ⟨[], [⟨"DPX", "NPS4", 7⟩, ⟨"SPX", "NPS1", 1⟩]⟩ 8 =
      Verdict.err errMixedMemory ∧
    e2eRun "inval_prof4" = some (none, ["failure"], ["InvalidProfileInfo"], []) :=
  ⟨(validateProfile_mixed_memory_rejected exampleC 8 ⟨"CPX", "NPS1", 4⟩ ⟨"SPX", "NPS4", 4⟩
      (by decide) (by decide) (by decide)).2.1 ⟨by decide, by decide, by decide⟩
      (by unfold validTypes; decide),
   (validateProfile_mixed_memory_rejected ⟨[], [⟨"DPX", "NPS4", 7⟩, ⟨"SPX", "NPS1", 1⟩]⟩ 8
      ⟨"DPX", "NPS4", 7⟩ ⟨"SPX", "NPS1", 1⟩
      (by decide) (by decide) (by decide)).2.1 ⟨by decide, by decide, by decide⟩
      (by unfold validTypes; decide),
   by decide⟩

/-- C12: for every profile and device count, if some assignment's computeType is not
exactly one of `SPX`, `CPX`, `DPX`, `QPX` or its memoryType not exactly one of `NPS1`,
`NPS2`, `NPS4`, `validateProfile` rejects the profile with an error; when rules 1-3 hold,
the error is one of the two invalid-partition-type errors or the mixed-memoryType error; and
an engine invocation on such a profile makes no driver call and ends by requesting the node
status label `failure`. -/
theorem validateProfile_unrecognized_rejected (profile : GPUConfigProfile) (n : Nat)
    (p : ProfileConfig) (hp : p ∈ profile.Profiles)
    (hbad : ¬ (p.ComputePartition ∈ ["SPX", "CPX", "DPX", "QPX"] ∧
      p.MemoryPartition ∈ ["NPS1", "NPS2", "NPS4"])) :
    (∃ e, validateProfile profile n = Verdict.err e) ∧
    (rules123 profile n →
      validateProfile profile n = Verdict.err errInvalidComputeType ∨
      validateProfile profile n = Verdict.err errInvalidMemoryType ∨
      validateProfile profile n = Verdict.err errMixedMemory) ∧
    (∀ (σ : Type) (d : Driver σ) (ProfilesList : List (String × GPUConfigProfile))
      (selectedProfile : String) (w : World σ) (sockets : List Nat),
      lookupProfile selectedProfile ProfilesList = some profile →
      d.amdsmi_init w.hw = AMDSMI_STATUS_SUCCESS →
      amdsmiGetSocketHandles d w.hw = some (sockets, n) →
      ∃ w' r, PartitionGPU d (ConfigFile.parsed ProfilesList) selectedProfile w = some (w', r) ∧
        w'.labels.getLast? = some "failure" ∧
        w'.events.getLast? = some ⟨K8EventInvalidProfile, true, w'.partStatus⟩ ∧
        w'.partStatus.FinalStatus = "Failure" ∧ w'.trace = w.trace ∧ w'.hw = w.hw) := by
  have hnonempty : profile.Profiles ≠ [] := List.ne_nil_of_mem hp
  have hnil : validateProfile profile n ≠ Verdict.nil := by
    intro h
    exact hbad (((validateProfile_accepts_iff profile n hnonempty).mp h).2.2.1 p hp)
  obtain ⟨e, he⟩ := validateProfile_rejects_of_not_nil profile n hnonempty hnil
  refine ⟨⟨e, he⟩, fun hr => ?_, fun σ d ProfilesList selectedProfile w sockets hcfg hinit hs =>
    PartitionGPU_rejected_outcome d ProfilesList selectedProfile profile w sockets n e hcfg hinit
      hs he⟩
  have hcases : ∀ m ps, validateProfile profile n = checkPartitionTypes m ps →
      validateProfile profile n = Verdict.err errInvalidComputeType ∨
      validateProfile profile n = Verdict.err errInvalidMemoryType ∨
      validateProfile profile n = Verdict.err errMixedMemory := by
    intro m ps h
    rcases checkPartitionTypes_cases m ps with h1 | h1 | h1 | h1
    · exact absurd (h.trans h1) hnil
    · exact Or.inl (h.trans h1)
    · exact Or.inr (Or.inl (h.trans h1))
    · exact Or.inr (Or.inr (h.trans h1))
  have hv := validateProfile_of_rules123 profile n hr
  cases hps : profile.Profiles with
  | nil => exact absurd hps hnonempty
  | cons p0 rest =>
    rw [hps] at hv
    exact hcases _ _ hv

/-- C12 on `inval_prof1` (computeType `InvalidName`) and `inval_prof2` (memoryType
`InvalidName`) of the end-to-end tests on eight devices, whose engine runs request the label
`failure` and nothing else, and on a lower-case `spx`. -/
theorem validateProfile_unrecognized_rejected_witness :
    (∃ e, validateProfile ⟨[], [⟨"spx", "NPS1", 8⟩]⟩ 8 = Verdict.err e) ∧
    validateProfile ⟨[], [⟨"spx", "NPS1", 8⟩]⟩ 8 = Verdict.err errInvalidComputeType ∧
    validateProfile ⟨[], [⟨"InvalidName", "NPS1", 8⟩]⟩ 8 = Verdict.err errInvalidComputeType ∧
    validateProfile ⟨[], [⟨"SPX", "InvalidName", 8⟩]⟩ 8 = Verdict.err errInvalidMemoryType ∧
    e2eRun "inval_prof1" = some (none, ["failure"], ["InvalidProfileInfo"], []) ∧
    e2eRun "inval_prof2" = some (none, ["failure"], ["InvalidProfileInfo"], []) :=
  ⟨(validateProfile_unrecognized_rejected ⟨[], [⟨"spx", "NPS1", 8⟩]⟩ 8 ⟨"spx", "NPS1", 8⟩
      (by decide) (by decide)).1,
   by decide, by decide, by decide, by decide, by decide⟩

/-- C13: for every profile and device count `n`, if the sum of the assignments' counts plus
the number of exclusions differs from `n`, `validateProfile` rejects the profile with one of
the errors of rules 1-3, the count-mismatch error when rules 1 and 2 hold; and an engine
invocation on such a profile makes no driver call and ends by requesting the node status
label `failure`. -/
theorem validateProfile_count_mismatch_rejected (profile : GPUConfigProfile) (n : Nat)
    (hsum : (profile.Profiles.map (·.NumGPUsAssigned)).sum + profile.Filters.length ≠ n) :
    (∃ e, validateProfile profile n = Verdict.err e ∧
      (e = errFilterLength ∨ e = errInvalidGPUID ∨ e = errCountMismatch)) ∧
    (profile.Filters.length ≤ n → (∀ id ∈ profile.Filters, id < n) →
      validateProfile profile n = Verdict.err errCountMismatch) ∧
    (∀ (σ : Type) (d : Driver σ) (ProfilesList : List (String × GPUConfigProfile))
      (selectedProfile : String) (w : World σ) (sockets : List Nat),
      lookupProfile selectedProfile ProfilesList = some profile →
      d.amdsmi_init w.hw = AMDSMI_STATUS_SUCCESS →
      amdsmiGetSocketHandles d w.hw = some (sockets, n) →
      ∃ w' r, PartitionGPU d (ConfigFile.parsed ProfilesList) selectedProfile w = some (w', r) ∧
        w'.labels.getLast? = some "failure" ∧
        w'.events.getLast? = some ⟨K8EventInvalidProfile, true, w'.partStatus⟩ ∧
        w'.partStatus.FinalStatus = "Failure" ∧ w'.trace = w.trace ∧ w'.hw = w.hw) := by
  have hmis : profile.Filters.length ≤ n → (∀ id ∈ profile.Filters, id < n) →
      validateProfile profile n = Verdict.err errCountMismatch := by
    intro h1 h2
    unfold validateProfile
    simp only [gt_iff_lt, Nat.not_lt.mpr h1, if_false, (hasInvalidGPUID_false_iff n _).mpr h2,
      sumAssigned_eq, Nat.zero_add, ne_eq, hsum, not_false_eq_true, if_true, Bool.false_eq_true]
  have hex : ∃ e, validateProfile profile n = Verdict.err e ∧
      (e = errFilterLength ∨ e = errInvalidGPUID ∨ e = errCountMismatch) := by
    by_cases h1 : profile.Filters.length ≤ n
    · by_cases h2 : ∀ id ∈ profile.Filters, id < n
      · exact ⟨_, hmis h1 h2, Or.inr (Or.inr rfl)⟩
      · refine ⟨errInvalidGPUID, ?_, Or.inr (Or.inl rfl)⟩
        unfold validateProfile
        have h2' : hasInvalidGPUID n profile.Filters = true := by
          rw [hasInvalidGPUID_iff]
          push_neg at h2
          exact h2
        simp only [gt_iff_lt, Nat.not_lt.mpr h1, if_false, h2', if_true]
    · refine ⟨errFilterLength, ?_, Or.inl rfl⟩
      unfold validateProfile
      simp only [gt_iff_lt, Nat.lt_of_not_le h1, if_true]
  obtain ⟨e, he, hcase⟩ := hex
  exact ⟨⟨e, he, hcase⟩, hmis, fun σ d ProfilesList selectedProfile w sockets hcfg hinit hs =>
    PartitionGPU_rejected_outcome d ProfilesList selectedProfile profile w sockets n e hcfg hinit
      hs he⟩

/-- C13 on `inval_prof3` (count 100) and `e2e_profile2` (count left out, zero) of the
end-to-end tests on eight devices, whose engine runs request the label `failure` and nothing
else. -/
theorem validateProfile_count_mismatch_rejected_witness :
    validateProfile ⟨[], [⟨"SPX", "NPS1", 100⟩]⟩ 8 = Verdict.err errCountMismatch ∧
    validateProfile ⟨[], [⟨"CPX", "NPS4", 0⟩]⟩ 8 = Verdict.err errCountMismatch ∧
    e2eRun "inval_prof3" = some (none, ["failure"], ["InvalidProfileInfo"], []) ∧
    e2eRun "e2e_profile2" = some (none, ["failure"], ["InvalidProfileInfo"], []) :=
  ⟨(validateProfile_count_mismatch_rejected ⟨[], [⟨"SPX", "NPS1", 100⟩]⟩ 8 (by decide)).2.1
      (by decide) (by decide),
   (validateProfile_count_mismatch_rejected ⟨[], [⟨"CPX", "NPS4", 0⟩]⟩ 8 (by decide)).2.1
      (by decide) (by decide),
   by decide, by decide⟩

/-! ## The events of an engine invocation -/

section events
variable {σ : Type} (d : Driver σ)

/-- An iteration leaves the overall status alone and creates at most the event of a failed
processor-type query. -/
theorem processGPU_events (sockets ids : List Nat) (p : ProfileConfig) (st st1 : LoopState σ)
    (h : (processGPU d sockets ids p st).state? = some st1) :
    st1.w.partStatus.FinalStatus = st.w.partStatus.FinalStatus ∧
    ∃ added, st1.w.events = st.w.events ++ added ∧
      ∀ e ∈ added, e.reason = K8EventAMDSMIAPIFailure ∧
        e.status.FinalStatus = st.w.partStatus.FinalStatus := by
  unfold processGPU at h
  cases hid : ids[st.idx]? with
  | none => simp [hid, Step.state?] at h
  | some gpu_id =>
    simp only [hid] at h
    cases hprobe : probeGPU d (logTrace (TraceEntry.gpu gpu_id p.ComputePartition p.MemoryPartition) st).w.hw sockets gpu_id with
    | panic => simp [hprobe, Step.state?] at h
    | apiError =>
      simp only [hprobe, Step.state?, Option.some.injEq] at h
      subst h
      refine ⟨rfl, [_], rfl, fun e he => ?_⟩
      rw [List.mem_singleton.mp he]
      exact ⟨rfl, rfl⟩
    | notGPU =>
      simp only [hprobe, Step.state?, Option.some.injEq] at h
      subst h
      exact ⟨rfl, [], by simp [logTrace], fun e he => by cases he⟩
    | gpu ph =>
      simp only [hprobe] at h
      split at h
      · generalize hst0 : (logTrace (TraceEntry.read ph
              (getCurrentGPUComputePartition d (logTrace (TraceEntry.gpu gpu_id p.ComputePartition p.MemoryPartition) st).w.hw ph)
              (getCurrentGPUMemoryPartition d (logTrace (TraceEntry.gpu gpu_id p.ComputePartition p.MemoryPartition) st).w.hw ph))
              (logTrace (TraceEntry.gpu gpu_id p.ComputePartition p.MemoryPartition) st)) = st0 at h
        have h0 : st0.w.partStatus = st.w.partStatus ∧ st0.w.events = st.w.events := by
          subst hst0; exact ⟨rfl, rfl⟩
        by_cases hidx : st0.idx < st0.w.partStatus.GPUStatus.length
        · rw [recordGPU_eq _ _ _ _ _ hidx] at h
          simp only [Step.state?, Option.some.injEq] at h
          subst h
          refine ⟨by simp only; rw [h0.1], [], by simp only [List.append_nil]; exact h0.2,
            fun e he => by cases he⟩
        · simp [recordGPU, populateGPUEventStatus, hidx, Step.state?] at h
      · generalize hst0 : ({ logTrace (TraceEntry.read ph
              (getCurrentGPUComputePartition d (logTrace (TraceEntry.gpu gpu_id p.ComputePartition p.MemoryPartition) st).w.hw ph)
              (getCurrentGPUMemoryPartition d (logTrace (TraceEntry.gpu gpu_id p.ComputePartition p.MemoryPartition) st).w.hw ph))
              (logTrace (TraceEntry.gpu gpu_id p.ComputePartition p.MemoryPartition) st) with partition_needed := true } :
              LoopState σ) = st0 at h
        have h0 : st0.w.partStatus = st.w.partStatus ∧ st0.w.events = st.w.events := by
          subst hst0; exact ⟨rfl, rfl⟩
        obtain ⟨tail, -, -, -, -, hp, he, -⟩ := changeSteps_spec d p.ComputePartition
          p.MemoryPartition
          (getCurrentGPUMemoryPartition d (logTrace (TraceEntry.gpu gpu_id p.ComputePartition p.MemoryPartition) st).w.hw ph) ph st0
        generalize computeStep d p.ComputePartition ph (memoryStep d p.MemoryPartition
          (getCurrentGPUMemoryPartition d (logTrace (TraceEntry.gpu gpu_id p.ComputePartition p.MemoryPartition) st).w.hw ph) ph st0)
          = st2 at h hp he
        by_cases hidx : st2.idx < st2.w.partStatus.GPUStatus.length
        · rw [recordStep_eq _ _ _ hidx] at h
          simp only [Step.state?, Option.some.injEq] at h
          subst h
          refine ⟨by simp only; rw [hp, h0.1], [], ?_, fun e he => by cases he⟩
          simp only [List.append_nil]
          rw [he, h0.2]
        · rw [recordStep_panic _ _ _ hidx] at h
          simp [Step.state?] at h

theorem deviceLoop_events (sockets ids : List Nat) (ts : List ProfileConfig)
    (st stF : LoopState σ) (h : (deviceLoop d sockets ids ts st).state? = some stF) :
    stF.w.partStatus.FinalStatus = st.w.partStatus.FinalStatus ∧
    ∃ added, stF.w.events = st.w.events ++ added ∧
      ∀ e ∈ added, e.reason = K8EventAMDSMIAPIFailure ∧
        e.status.FinalStatus = st.w.partStatus.FinalStatus := by
  induction ts generalizing st with
  | nil =>
    simp only [deviceLoop, Step.state?, Option.some.injEq] at h
    subst h
    exact ⟨rfl, [], by simp, fun e he => by cases he⟩
  | cons p ts ih =>
    simp only [deviceLoop] at h
    cases hp : processGPU d sockets ids p st with
    | panic => simp [hp, Step.state?] at h
    | ret st1 =>
      rw [hp] at h
      exact processGPU_events d sockets ids p st stF (by rw [hp]; exact h)
    | next st1 =>
      rw [hp] at h
      obtain ⟨h1, a1, h2, h3⟩ := processGPU_events d sockets ids p st st1 (by rw [hp]; rfl)
      obtain ⟨h4, a2, h5, h6⟩ := ih st1 h
      refine ⟨h4.trans h1, a1 ++ a2, by rw [h5, h2, List.append_assoc], fun e he => ?_⟩
      rcases List.mem_append.mp he with he | he
      · exact h3 e he
      · exact ⟨(h6 e he).1, (h6 e he).2.trans h1⟩

end events

section events2
variable {σ : Type} (d : Driver σ)

theorem engineEvent_of_failure (e : K8sEvent) (h1 : e.reason ∈ engineEvents)
    (h2 : e.status.FinalStatus = "Failure") : engineEvent e :=
  ⟨h1, Or.inr h2⟩

theorem engineEvent_mk (reason : String) (warning : Bool) (status : PartitionStatus)
    (h1 : reason ∈ engineEvents)
    (h2 : status.FinalStatus = "Success" ∨ status.FinalStatus = "Failure") :
    engineEvent ⟨reason, warning, status⟩ :=
  ⟨h1, h2⟩

theorem reportNoSockets_engineEvents (n : Nat) (w : World σ)
    (hF : w.partStatus.FinalStatus = "Failure") :
    (reportNoSockets n w).partStatus.FinalStatus = "Failure" ∧
    ∃ added, (reportNoSockets n w).events = w.events ++ added ∧ ∀ e ∈ added, engineEvent e := by
  unfold reportNoSockets
  split
  · refine ⟨hF, [_], rfl, fun e he => ?_⟩
    rw [List.mem_singleton.mp he]
    exact engineEvent_mk _ _ _ (by decide) (Or.inr hF)
  · exact ⟨hF, [], by simp, fun e he => by cases he⟩

theorem finishBatch_engineEvents (st : LoopState σ)
    (hF : st.w.partStatus.FinalStatus = "Failure") :
    ((finishBatch st).partition_failed = true →
      (finishBatch st).partStatus.FinalStatus = "Failure") ∧
    ((finishBatch st).partStatus.FinalStatus = "Success" ∨
      (finishBatch st).partStatus.FinalStatus = "Failure") ∧
    ∃ added, (finishBatch st).events = st.w.events ++ added ∧ ∀ e ∈ added, engineEvent e := by
  unfold finishBatch
  cases hf : st.w.partition_failed
  · simp only [Bool.false_eq_true, if_false]
    cases hn : st.partition_needed
    · simp only [Bool.false_eq_true, if_false]
      refine ⟨fun h => ?_, Or.inl rfl, [_], rfl, fun e he => ?_⟩
      · simp [addStateLabel, generateK8sEvent, setReason, hf] at h
      · rw [List.mem_singleton.mp he]
        exact engineEvent_mk _ _ _ (by decide) (Or.inl rfl)
    · simp only [if_true]
      refine ⟨fun h => ?_, Or.inl rfl, [_], rfl, fun e he => ?_⟩
      · simp [addStateLabel, generateK8sEvent, setReason, hf] at h
      · rw [List.mem_singleton.mp he]
        exact engineEvent_mk _ _ _ (by decide) (Or.inl rfl)
  · simp only [if_true]
    exact ⟨fun _ => hF, Or.inr hF, [], by simp, fun e he => by cases he⟩

/-- The events of `amdSMIHelper` entered with overall status `Failure`. -/
theorem amdSMIHelper_engineEvents (profile : GPUConfigProfile) (w w1 : World σ)
    (hF : w.partStatus.FinalStatus = "Failure") (h : amdSMIHelper d profile w = some w1) :
    (w1.partition_failed = true → w1.partStatus.FinalStatus = "Failure") ∧
    (w1.partStatus.FinalStatus = "Success" ∨ w1.partStatus.FinalStatus = "Failure") ∧
    ∃ added, w1.events = w.events ++ added ∧ ∀ e ∈ added, engineEvent e := by
  unfold amdSMIHelper at h
  cases hs : amdsmiGetSocketHandles d w.hw with
  | none => simp [hs] at h
  | some r =>
    obtain ⟨sockets, n⟩ := r
    simp only [hs] at h
    obtain ⟨hF1, a1, he1, hp1⟩ := reportNoSockets_engineEvents n w hF
    cases hv : validateProfile profile n with
    | panic => simp [hv] at h
    | err msg =>
      simp only [hv, Option.some.injEq] at h
      subst h
      refine ⟨fun _ => hF1, Or.inr hF1,
        a1 ++ [⟨K8EventInvalidProfile, true,
          (setReason ("Partition failed with reason: " ++ msg) (reportNoSockets n w)).partStatus⟩],
        ?_, fun e he => ?_⟩
      · show (reportNoSockets n w).events ++ [_] = _
        rw [he1, List.append_assoc]
        rfl
      · rcases List.mem_append.mp he with he | he
        · exact hp1 e he
        · rw [List.mem_singleton.mp he]
          exact engineEvent_mk _ _ _ (by decide) (Or.inr hF1)
    | nil =>
      simp only [hv, outerLoop_eq_deviceLoop] at h
      generalize hst : startBatch (createGPUIDList profile.Filters n) (reportNoSockets n w) = st0
        at h
      have h0 : st0.w.partStatus.FinalStatus = "Failure" ∧
          st0.w.events = (reportNoSockets n w).events := by
        subst hst; exact ⟨hF1, rfl⟩
      cases hl : deviceLoop d sockets (createGPUIDList profile.Filters n)
          (boundTargets profile.Profiles) st0 with
      | panic => simp [hl] at h
      | ret st1 =>
        simp only [hl, Option.some.injEq] at h
        subst h
        obtain ⟨h1, a2, h2, h3⟩ := deviceLoop_events d sockets _ _ st0 st1 (by rw [hl]; rfl)
        refine ⟨fun _ => h1.trans h0.1, Or.inr (h1.trans h0.1), a1 ++ a2, ?_, fun e he => ?_⟩
        · rw [h2, h0.2, he1, List.append_assoc]
        · rcases List.mem_append.mp he with he | he
          · exact hp1 e he
          · exact engineEvent_of_failure _ (by rw [(h3 e he).1]; decide)
              ((h3 e he).2.trans h0.1)
      | next st1 =>
        simp only [hl, Option.some.injEq] at h
        subst h
        obtain ⟨h1, a2, h2, h3⟩ := deviceLoop_events d sockets _ _ st0 st1 (by rw [hl]; rfl)
        obtain ⟨h4, h5, a3, h6, h7⟩ := finishBatch_engineEvents st1 (h1.trans h0.1)
        refine ⟨h4, h5, a1 ++ (a2 ++ a3), ?_, fun e he => ?_⟩
        · rw [h6, h2, h0.2, he1]; simp only [List.append_assoc]
        · rcases List.mem_append.mp he with he | he
          · exact hp1 e he
          · rcases List.mem_append.mp he with he | he
            · exact engineEvent_of_failure _ (by rw [(h3 e he).1]; decide)
                ((h3 e he).2.trans h0.1)
            · exact h7 e he

/-- Every event created by an engine invocation has one of the engine's names and carries
overall status `Success` or `Failure`; an invocation that returns an error leaves overall
status `Failure`. -/
theorem PartitionGPU_engineEvents (cfg : ConfigFile) (selectedProfile : String)
    (w w1 : World σ) (r : Option String)
    (h : PartitionGPU d cfg selectedProfile w = some (w1, r)) :
    (r ≠ none → w1.partStatus.FinalStatus = "Failure") ∧
    (w1.partStatus.FinalStatus = "Success" ∨ w1.partStatus.FinalStatus = "Failure") ∧
    ∃ added, w1.events = w.events ++ added ∧ ∀ e ∈ added, engineEvent e := by
  have hone : ∀ (reason msg : String) (err : Option String), reason ∈ engineEvents →
      some (addStateLabel "failure" (generateK8sEvent err reason
        (setReason msg (resetStatus selectedProfile w))), (none : Option String)) =
        some (w1, r) →
      (r ≠ none → w1.partStatus.FinalStatus = "Failure") ∧
      (w1.partStatus.FinalStatus = "Success" ∨ w1.partStatus.FinalStatus = "Failure") ∧
      ∃ added, w1.events = w.events ++ added ∧ ∀ e ∈ added, engineEvent e := by
    intro reason msg err hr heq
    simp only [Option.some.injEq, Prod.mk.injEq] at heq
    obtain ⟨hw, hr2⟩ := heq
    subst hw
    refine ⟨fun _ => rfl, Or.inr rfl, [_], rfl, fun e he => ?_⟩
    rw [List.mem_singleton.mp he]
    exact engineEvent_mk _ _ _ hr (Or.inr rfl)
  unfold PartitionGPU at h
  cases cfg with
  | missing => exact hone _ _ _ (by decide) h
  | unparsable => exact hone _ _ _ (by decide) h
  | parsed ProfilesList =>
    simp only at h
    cases hl : lookupProfile selectedProfile ProfilesList with
    | none =>
      simp only [hl] at h
      exact hone _ _ _ (by decide) h
    | some profile =>
      simp only [hl] at h
      split at h
      · exact hone _ _ _ (by decide) h
      · cases ha : amdSMIHelper d profile (resetStatus selectedProfile w) with
        | none => simp [ha] at h
        | some w2 =>
          simp only [ha, Option.some.injEq, Prod.mk.injEq] at h
          obtain ⟨hw, hr⟩ := h
          subst hw
          obtain ⟨h1, h2, h3⟩ := amdSMIHelper_engineEvents d profile _ w2 rfl ha
          refine ⟨fun hne => h1 ?_, h2, h3⟩
          cases hpf : w2.partition_failed with
          | true => rfl
          | false => rw [hpf] at hr; exact absurd hr.symm hne

end events2

/-! ## The retry loop -/

section retry
variable {σ : Type} (env : RetryEnv σ) (selectedProfile : String) (expiration : Nat)

theorem notifyRetry_now (s : RetryState σ) : (notifyRetry selectedProfile s).now = s.now := by
  unfold notifyRetry; split <;> rfl

theorem notifyRetry_calls (s : RetryState σ) :
    (notifyRetry selectedProfile s).calls = s.calls := by
  unfold notifyRetry; split <;> rfl

/-- The ways in which an iteration ends. -/
theorem retryIteration_cases (s : RetryState σ) :
    (ctxDone env s.now = true ∧
      retryIteration env selectedProfile expiration s = (s, some Ending.aborted)) ∨
    (ctxDone env s.now = false ∧ expiration < s.now ∧
      retryIteration env selectedProfile expiration s =
        ({ s with w := generateK8sEvent (some "partition failed") K8EventPartitionFailed s.w },
          some Ending.expired)) ∨
    (ctxDone env s.now = false ∧ s.now ≤ expiration ∧
      PartitionGPU (env.driver s.calls.length) (env.config s.now) selectedProfile s.w = none ∧
      retryIteration env selectedProfile expiration s = (s, some Ending.panic)) ∨
    (∃ w1, ctxDone env s.now = false ∧ s.now ≤ expiration ∧
      PartitionGPU (env.driver s.calls.length) (env.config s.now) selectedProfile s.w =
        some (w1, none) ∧
      retryIteration env selectedProfile expiration s =
        (recordCall env s w1 none, some Ending.done)) ∨
    (∃ w1 err, ctxDone env s.now = false ∧ s.now ≤ expiration ∧
      PartitionGPU (env.driver s.calls.length) (env.config s.now) selectedProfile s.w =
        some (w1, some err) ∧
      waitCancelled env (s.now + env.duration s.calls.length) = true ∧
      retryIteration env selectedProfile expiration s =
        (notifyRetry selectedProfile (recordCall env s w1 (some err)),
          some Ending.abortedInWait)) ∨
    (∃ w1 err, ctxDone env s.now = false ∧ s.now ≤ expiration ∧
      PartitionGPU (env.driver s.calls.length) (env.config s.now) selectedProfile s.w =
        some (w1, some err) ∧
      waitCancelled env (s.now + env.duration s.calls.length) = false ∧
      retryIteration env selectedProfile expiration s =
        ({ notifyRetry selectedProfile (recordCall env s w1 (some err)) with
            now := s.now + env.duration s.calls.length + Minute }, none)) := by
  by_cases hc : ctxDone env s.now = true
  · exact Or.inl ⟨hc, by unfold retryIteration; rw [if_pos hc]⟩
  · have hc0 : ctxDone env s.now = false := by simpa using hc
    by_cases hx : expiration < s.now
    · exact Or.inr (Or.inl ⟨hc0, hx, by unfold retryIteration; rw [if_neg hc, if_pos hx]⟩)
    · have hle : s.now ≤ expiration := Nat.le_of_not_lt hx
      cases hp : PartitionGPU (env.driver s.calls.length) (env.config s.now) selectedProfile
          s.w with
      | none =>
        exact Or.inr (Or.inr (Or.inl ⟨hc0, hle, rfl,
          by unfold retryIteration; rw [if_neg hc, if_neg hx, hp]⟩))
      | some r =>
        obtain ⟨w1, err⟩ := r
        cases err with
        | none =>
          exact Or.inr (Or.inr (Or.inr (Or.inl ⟨w1, hc0, hle, rfl,
            by unfold retryIteration; rw [if_neg hc, if_neg hx, hp]⟩)))
        | some err =>
          have hnow : (notifyRetry selectedProfile (recordCall env s w1 (some err))).now =
              s.now + env.duration s.calls.length := by
            rw [notifyRetry_now]; rfl
          by_cases hw : waitCancelled env (s.now + env.duration s.calls.length) = true
          · refine Or.inr (Or.inr (Or.inr (Or.inr (Or.inl ⟨w1, err, hc0, hle, rfl, hw, ?_⟩))))
            unfold retryIteration
            rw [if_neg hc, if_neg hx, hp]
            simp only
            rw [hnow, if_pos hw]
          · refine Or.inr (Or.inr (Or.inr (Or.inr (Or.inr
              ⟨w1, err, hc0, hle, rfl, by simpa using hw, ?_⟩))))
            unfold retryIteration
            rw [if_neg hc, if_neg hx, hp]
            simp only
            rw [hnow, if_neg hw]

/-- Proof rule for the retry loop: a property of the state at the start of every iteration
gives a property of the way the loop ends. -/
theorem retryLoop_rule (Inv : RetryState σ → Prop) (Post : Ending → RetryState σ → Prop)
    (hfuel : ∀ s, Inv s → Post Ending.outOfFuel s)
    (hret : ∀ s s1 e, Inv s →
      retryIteration env selectedProfile expiration s = (s1, some e) → Post e s1)
    (hnext : ∀ s s1, Inv s →
      retryIteration env selectedProfile expiration s = (s1, none) → Inv s1)
    (fuel : Nat) (s : RetryState σ) (h : Inv s) :
    Post (retryLoop env selectedProfile expiration fuel s).1
      (retryLoop env selectedProfile expiration fuel s).2 := by
  induction fuel generalizing s with
  | zero => exact hfuel s h
  | succ fuel ih =>
    unfold retryLoop
    cases hi : retryIteration env selectedProfile expiration s with
    | mk s1 r =>
      cases r with
      | some e => exact hret s s1 e h hi
      | none => exact ih s1 (hnext s s1 h hi)

/-- An iteration that does not return moves the clock on by at least one minute. -/
theorem retryIteration_next_now (s s1 : RetryState σ)
    (h : retryIteration env selectedProfile expiration s = (s1, none)) :
    s.now ≤ expiration ∧ s1.now = s.now + env.duration s.calls.length + Minute ∧
    s1.calls.length = s.calls.length + 1 := by
  rcases retryIteration_cases env selectedProfile expiration s with
    ⟨-, h1⟩ | ⟨-, -, h1⟩ | ⟨-, -, -, h1⟩ | ⟨w1, -, -, -, h1⟩ | ⟨w1, err, -, -, -, -, h1⟩ |
    ⟨w1, err, -, hle, -, -, h1⟩
  all_goals rw [h1] at h
  all_goals simp only [Prod.mk.injEq, reduceCtorEq, and_false] at h
  obtain ⟨hs, -⟩ := h
  subst hs
  refine ⟨hle, rfl, ?_⟩
  simp [notifyRetry_calls, recordCall]

/-- The loop returns when it may run one iteration more than there are minutes left to the
deadline. -/
theorem retryLoop_fuel (fuel : Nat) (s : RetryState σ)
    (h : expiration < s.now + fuel * Minute) :
    (retryLoop env selectedProfile expiration (fuel + 1) s).1 ≠ Ending.outOfFuel := by
  induction fuel generalizing s with
  | zero =>
    unfold retryLoop
    cases hi : retryIteration env selectedProfile expiration s with
    | mk s1 r =>
      cases r with
      | some e =>
        simp only
        rcases retryIteration_cases env selectedProfile expiration s with
          ⟨-, h1⟩ | ⟨-, -, h1⟩ | ⟨-, -, -, h1⟩ | ⟨w1, -, -, -, h1⟩ | ⟨w1, err, -, -, -, -, h1⟩ |
          ⟨w1, err, -, hle, -, -, h1⟩
        all_goals rw [h1] at hi
        all_goals simp only [Prod.mk.injEq, Option.some.injEq, reduceCtorEq, and_false] at hi
        all_goals rw [← hi.2]
        all_goals simp
      | none =>
        have := (retryIteration_next_now env selectedProfile expiration s s1 hi).1
        omega
  | succ fuel ih =>
    unfold retryLoop
    cases hi : retryIteration env selectedProfile expiration s with
    | mk s1 r =>
      cases r with
      | some e =>
        simp only
        rcases retryIteration_cases env selectedProfile expiration s with
          ⟨-, h1⟩ | ⟨-, -, h1⟩ | ⟨-, -, -, h1⟩ | ⟨w1, -, -, -, h1⟩ | ⟨w1, err, -, -, -, -, h1⟩ |
          ⟨w1, err, -, hle, -, -, h1⟩
        all_goals rw [h1] at hi
        all_goals simp only [Prod.mk.injEq, Option.some.injEq, reduceCtorEq, and_false] at hi
        all_goals rw [← hi.2]
        all_goals simp
      | none =>
        simp only
        obtain ⟨-, h2, -⟩ := retryIteration_next_now env selectedProfile expiration s s1 hi
        apply ih
        rw [h2]
        have : (fuel + 1) * Minute = fuel * Minute + Minute := Nat.succ_mul _ _
        omega

/-- More iterations than the loop needs change nothing. -/
theorem retryLoop_succ (fuel : Nat) (s : RetryState σ)
    (h : (retryLoop env selectedProfile expiration fuel s).1 ≠ Ending.outOfFuel) :
    retryLoop env selectedProfile expiration (fuel + 1) s =
      retryLoop env selectedProfile expiration fuel s := by
  induction fuel generalizing s with
  | zero => exact absurd rfl h
  | succ fuel ih =>
    rw [retryLoop.eq_def _ _ _ (fuel + 1 + 1)]
    rw [retryLoop.eq_def _ _ _ (fuel + 1)] at h ⊢
    simp only at h ⊢
    cases hi : retryIteration env selectedProfile expiration s with
    | mk s1 r =>
      cases r with
      | some e => rfl
      | none =>
        rw [hi] at h
        exact ih s1 h

theorem retryLoop_add (fuel extra : Nat) (s : RetryState σ)
    (h : (retryLoop env selectedProfile expiration fuel s).1 ≠ Ending.outOfFuel) :
    retryLoop env selectedProfile expiration (fuel + extra) s =
      retryLoop env selectedProfile expiration fuel s := by
  induction extra with
  | zero => rfl
  | succ extra ih =>
    rw [← Nat.add_assoc, retryLoop_succ env selectedProfile expiration (fuel + extra) s
      (by rw [ih]; exact h), ih]

end retry

/-- The 32 iterations given to `RetryPartition` are enough. -/
theorem RetryPartition_ne_outOfFuel {σ : Type} (env : RetryEnv σ) (selectedProfile : String)
    (start : Nat) (w : World σ) :
    (RetryPartition env selectedProfile start w).1 ≠ Ending.outOfFuel := by
  unfold RetryPartition
  apply retryLoop_fuel
  show start + 30 * Minute < start + 31 * Minute
  unfold Minute
  omega

/-! ## What holds throughout a session -/

theorem getElem?_concat {α : Type} (l : List α) (x : α) (i : Nat) :
    (l ++ [x])[i]? = if i < l.length then l[i]? else if i = l.length then some x else none := by
  by_cases h : i < l.length
  · rw [if_pos h, List.getElem?_append_left h]
  · rw [if_neg h, List.getElem?_append_right (Nat.le_of_not_lt h)]
    by_cases h2 : i = l.length
    · rw [if_pos h2, h2]; simp
    · rw [if_neg h2]
      have : 0 < i - l.length := by omega
      rw [List.getElem?_eq_none]
      simp only [List.length_singleton]
      omega

theorem waitsBetween_nil : waitsBetween [] := by
  intro i c c' h
  simp at h

theorem waitsBetween_concat (calls : List Invocation) (x : Invocation)
    (h : waitsBetween calls)
    (hlast : ∀ c, calls.getLast? = some c → c.err ≠ none ∧ x.start = c.finish + Minute) :
    waitsBetween (calls ++ [x]) := by
  intro i c c' h1 h2
  rw [getElem?_concat] at h1 h2
  by_cases hi : i + 1 < calls.length
  · rw [if_pos hi] at h2
    rw [if_pos (by omega)] at h1
    exact h i c c' h1 h2
  · rw [if_neg hi] at h2
    by_cases hi2 : i + 1 = calls.length
    · rw [if_pos hi2] at h2
      rw [if_pos (by omega)] at h1
      cases h2
      apply hlast
      rw [List.getLast?_eq_getElem?, ← h1]
      congr 1
      omega
    · rw [if_neg hi2] at h2
      cases h2

theorem countReason_append (r : String) (a b : List K8sEvent) :
    countReason r (a ++ b) = countReason r a + countReason r b := by
  unfold countReason
  exact List.countP_append _ _ _

theorem countReason_nil (r : String) : countReason r [] = 0 := rfl

theorem countReason_singleton (r : String) (ev : K8sEvent) :
    countReason r [ev] = if ev.reason = r then 1 else 0 := by
  unfold countReason
  by_cases h : ev.reason = r <;> simp [List.countP_cons, h]

theorem countReason_engine (r : String) (l : List K8sEvent) (h : ∀ ev ∈ l, engineEvent ev)
    (hr : r ∉ engineEvents) : countReason r l = 0 := by
  unfold countReason
  rw [List.countP_eq_zero]
  intro ev hev
  have := (h ev hev).1
  simp only [decide_eq_true_eq]
  intro heq
  exact hr (heq ▸ this)

theorem markRetrying_events {σ : Type} (selectedProfile : String) (w : World σ) :
    (markRetrying selectedProfile w).events =
      w.events ++ [retryingEvent selectedProfile w.partStatus] := rfl

theorem notifyRetry_first {σ : Type} (selectedProfile : String) (s : RetryState σ)
    (h : s.count = 1) :
    notifyRetry selectedProfile s =
      { s with count := s.count + 1, w := markRetrying selectedProfile s.w } := by
  unfold notifyRetry; rw [if_pos h]

theorem notifyRetry_later {σ : Type} (selectedProfile : String) (s : RetryState σ)
    (h : s.count ≠ 1) : notifyRetry selectedProfile s = s := by
  unfold notifyRetry; rw [if_neg h]

section session
variable {σ : Type} (env : RetryEnv σ) (selectedProfile : String) (start : Nat) (w : World σ)

theorem SessionInv_start : SessionInv env selectedProfile start w ⟨w, start, 1, []⟩ where
  waits := waitsBetween_nil
  starts := fun c hc => by cases hc
  took := fun k c h => by simp at h
  spaced := fun k c h => by simp at h
  failed := fun c hc => by cases hc
  clock := fun _ => rfl
  fresh := fun _ => rfl
  clockLast := fun c h => by simp at h
  elapsed := by simp
  count := by simp
  events := ⟨[], by simp, fun ev h => (by cases h), by simp [countReason_nil], countReason_nil _⟩
  statusOne := fun h => by simp at h
  statusMore := fun h => by simp at h
  first := fun c h => by simp at h

/-- The invariant is kept by an iteration whose engine invocation fails. -/
theorem SessionInv_call (s : RetryState σ) (w1 : World σ) (err : String)
    (hinv : SessionInv env selectedProfile start w s)
    (hc : ctxDone env s.now = false) (hle : s.now ≤ start + 30 * Minute)
    (hp : PartitionGPU (env.driver s.calls.length) (env.config s.now) selectedProfile s.w =
      some (w1, some err)) :
    SessionInv env selectedProfile start w
      { notifyRetry selectedProfile (recordCall env s w1 (some err)) with
        now := s.now + env.duration s.calls.length + Minute } := by
  obtain ⟨hF, -, a1, he1, hp1⟩ := PartitionGPU_engineEvents _ _ _ _ _ _ hp
  have hF := hF (by simp)
  obtain ⟨added0, hev0, hse0, hcr0, hcf0⟩ := hinv.events
  generalize hx : (⟨s.now, s.now + env.duration s.calls.length, some err⟩ : Invocation) = x
  have hxs : x.start = s.now := by rw [← hx]
  have hxf : x.finish = s.now + env.duration s.calls.length := by rw [← hx]
  have hxe : x.err = some err := by rw [← hx]
  generalize hs3 : ({ notifyRetry selectedProfile (recordCall env s w1 (some err)) with
        now := s.now + env.duration s.calls.length + Minute } : RetryState σ) = s3
  have hcalls : s3.calls = s.calls ++ [x] := by
    rw [← hs3, ← hx]; simp [notifyRetry_calls, recordCall]
  have hnow : s3.now = s.now + env.duration s.calls.length + Minute := by rw [← hs3]
  have hnil : s.calls = [] → s3.w = markRetrying selectedProfile w1 ∧ s3.count = 2 := by
    intro h
    have h1 : (recordCall env s w1 (some err)).count = 1 := hinv.count.mpr h
    rw [← hs3, notifyRetry_first _ _ h1]
    exact ⟨rfl, by show (recordCall env s w1 (some err)).count + 1 = 2; rw [h1]⟩
  have hcons : s.calls ≠ [] → s3.w = w1 ∧ s3.count ≠ 1 := by
    intro h
    have h1 : (recordCall env s w1 (some err)).count ≠ 1 := fun h2 => h (hinv.count.mp h2)
    rw [← hs3, notifyRetry_later _ _ h1]
    exact ⟨rfl, h1⟩
  have hne : s.calls ++ [x] ≠ [] := by simp
  have hmul : (s.calls.length + 1) * Minute = s.calls.length * Minute + Minute :=
    Nat.succ_mul _ _
  exact
    { waits := by
        rw [hcalls]
        exact waitsBetween_concat _ _ hinv.waits (fun c hc1 =>
          ⟨hinv.failed c (List.mem_of_mem_getLast? hc1), by rw [hxs]; exact hinv.clockLast c hc1⟩)
      starts := by
        rw [hcalls]
        intro c hc1
        rcases List.mem_append.mp hc1 with hc1 | hc1
        · exact hinv.starts c hc1
        · rw [List.mem_singleton.mp hc1, hxs]; exact ⟨hle, hc⟩
      took := by
        rw [hcalls]
        intro k c hk
        rw [getElem?_concat] at hk
        split at hk
        · exact hinv.took k c hk
        · split at hk
          · next h2 => cases hk; rw [hxf, hxs, h2]
          · cases hk
      spaced := by
        rw [hcalls]
        intro k c hk
        rw [getElem?_concat] at hk
        split at hk
        · exact hinv.spaced k c hk
        · split at hk
          · next h2 => cases hk; rw [hxs, h2]; exact hinv.elapsed
          · cases hk
      failed := by
        rw [hcalls]
        intro c hc1
        rcases List.mem_append.mp hc1 with hc1 | hc1
        · exact hinv.failed c hc1
        · rw [List.mem_singleton.mp hc1, hxe]; simp
      clock := by rw [hcalls]; intro h; exact absurd h hne
      fresh := by rw [hcalls]; intro h; exact absurd h hne
      clockLast := by
        rw [hcalls, List.getLast?_concat]
        intro c hc1
        cases hc1
        rw [hnow, hxf]
      elapsed := by
        rw [hcalls, hnow, List.length_append, List.length_singleton, hmul]
        have := hinv.elapsed
        omega
      count := by
        rw [hcalls]
        refine ⟨fun h => ?_, fun h => absurd h hne⟩
        by_cases h0 : s.calls = []
        · rw [(hnil h0).2] at h; cases h
        · exact absurd h (hcons h0).2
      events := by
        rw [hcalls, if_neg hne]
        by_cases h0 : s.calls = []
        · refine ⟨added0 ++ a1 ++ [retryingEvent selectedProfile w1.partStatus], ?_, ?_, ?_, ?_⟩
          · rw [(hnil h0).1, markRetrying_events, he1, hev0]
            simp only [List.append_assoc]
          · intro ev hev
            rcases List.mem_append.mp hev with hev | hev
            · rcases List.mem_append.mp hev with hev | hev
              · exact hse0 ev hev
              · exact Or.inl (hp1 ev hev)
            · rw [List.mem_singleton.mp hev]
              exact Or.inr (Or.inl ⟨rfl, rfl⟩)
          · rw [countReason_append, countReason_append, hcr0, if_pos h0,
              countReason_engine _ a1 hp1 (by decide), countReason_singleton]
            rfl
          · rw [countReason_append, countReason_append, hcf0,
              countReason_engine _ a1 hp1 (by decide), countReason_singleton]
            rfl
        · refine ⟨added0 ++ a1, ?_, ?_, ?_, ?_⟩
          · rw [(hcons h0).1, he1, hev0, List.append_assoc]
          · intro ev hev
            rcases List.mem_append.mp hev with hev | hev
            · exact hse0 ev hev
            · exact Or.inl (hp1 ev hev)
          · rw [countReason_append, hcr0, if_neg h0, countReason_engine _ a1 hp1 (by decide)]
          · rw [countReason_append, hcf0, countReason_engine _ a1 hp1 (by decide)]
      statusOne := by
        rw [hcalls, List.length_append, List.length_singleton]
        intro h
        have h0 : s.calls = [] := List.length_eq_zero.mp (by omega)
        rw [(hnil h0).1]
        rfl
      statusMore := by
        rw [hcalls, List.length_append, List.length_singleton]
        intro h
        have h0 : s.calls ≠ [] := fun h1 => by rw [h1] at h; simp at h
        rw [(hcons h0).1]
        exact hF
      first := by
        rw [hcalls]
        intro c hc1
        by_cases h0 : s.calls = []
        · have hlen : s.calls.length = 0 := by rw [h0]; rfl
          rw [h0] at hc1
          simp only [List.nil_append, List.getElem?_cons_zero, Option.some.injEq] at hc1
          rw [hlen, hinv.clock h0, hinv.fresh h0] at hp
          refine ⟨w1, err, [], hp, ?_, ?_⟩
          · rw [← hc1, ← hx, hlen, hinv.clock h0]
          · rw [(hnil h0).1, markRetrying_events]
        · have hpos : 0 < s.calls.length := List.length_pos.mpr h0
          rw [List.getElem?_append_left hpos] at hc1
          obtain ⟨w0, err0, rest, h1, h2, h3⟩ := hinv.first c hc1
          refine ⟨w0, err0, rest ++ a1, h1, h2, ?_⟩
          rw [(hcons h0).1, he1, h3]
          simp }

end session

theorem Minute_pos : 0 < Minute := by unfold Minute; omega

theorem calls_bound (start : Nat) (calls : List Invocation)
    (hspaced : ∀ (k : Nat) (c : Invocation), calls[k]? = some c → start + k * Minute ≤ c.start)
    (hstarts : ∀ c ∈ calls, c.start ≤ start + 30 * Minute) : calls.length ≤ 31 := by
  by_contra hcon
  have h31 : 31 < calls.length := by omega
  have hget : calls[31]? = some calls[31] := List.getElem?_eq_getElem h31
  have h1 := hspaced 31 _ hget
  have h2 := hstarts _ (List.getElem?_mem hget)
  have := Minute_pos
  omega

theorem any_failed_iff (calls : List Invocation) (h : ∀ c ∈ calls, c.err ≠ none) :
    calls.any (fun c => c.err.isSome) = true ↔ calls ≠ [] := by
  cases calls with
  | nil => simp
  | cons c rest =>
    have hc := h c (List.mem_cons_self _ _)
    cases hce : c.err with
    | none => exact absurd hce hc
    | some e => simp [hce]

section sessionEnd
variable {σ : Type} (env : RetryEnv σ) (selectedProfile : String) (start : Nat) (w : World σ)

/-- A session that ends without a further engine invocation and without expiring. -/
theorem SessionEnd_of_inv (s s' : RetryState σ) (e : Ending)
    (hinv : SessionInv env selectedProfile start w s)
    (hcalls : s'.calls = s.calls) (hw : s'.w = s.w)
    (he : e ≠ Ending.expired) (hd : e ≠ Ending.done)
    (hab : e = Ending.aborted → ctxDone env s'.now = true ∧ s'.now = s.now)
    (hin : e = Ending.abortedInWait →
      ∃ c, s'.calls.getLast? = some c ∧ c.err ≠ none ∧ waitCancelled env c.finish = true) :
    SessionEnd env selectedProfile start w e s' := by
  obtain ⟨added0, hev0, hse0, hcr0, hcf0⟩ := hinv.events
  exact
    { waits := by rw [hcalls]; exact hinv.waits
      starts := by rw [hcalls]; exact hinv.starts
      took := by rw [hcalls]; exact hinv.took
      spaced := by rw [hcalls]; exact hinv.spaced
      bound := by
        rw [hcalls]
        exact calls_bound start _ hinv.spaced (fun c hc => (hinv.starts c hc).1)
      events := by
        rw [hcalls, hw]
        refine ⟨added0, hev0, hse0, ?_, by rw [hcf0, if_neg he]⟩
        rw [hcr0]
        by_cases h0 : s.calls = []
        · rw [if_pos h0, h0]; rfl
        · rw [if_neg h0, if_pos ((any_failed_iff _ hinv.failed).mpr h0)]
      first := by rw [hcalls, hw]; exact fun c hc _ => hinv.first c hc
      expired := fun h => absurd h he
      aborted := fun h => (hab h).1
      clock := by
        rw [hcalls]
        intro h
        rcases h with h | h
        · rw [(hab h).2]; exact ⟨hinv.clock, hinv.clockLast⟩
        · exact absurd h he
      inWait := hin
      done := fun h => absurd h hd
      failed := by rw [hcalls]; exact fun _ => hinv.failed }

/-- A session that expires. -/
theorem SessionEnd_expired (s : RetryState σ)
    (hinv : SessionInv env selectedProfile start w s)
    (hc : ctxDone env s.now = false) (hx : start + 30 * Minute < s.now) :
    SessionEnd env selectedProfile start w Ending.expired
      { s with w := generateK8sEvent (some "partition failed") K8EventPartitionFailed s.w } := by
  obtain ⟨added0, hev0, hse0, hcr0, hcf0⟩ := hinv.events
  have hne : s.calls ≠ [] := by
    intro h
    have := hinv.clock h
    omega
  have hlen : s.calls.length = 1 ∨ 2 ≤ s.calls.length := by
    have := List.length_pos.mpr hne
    omega
  exact
    { waits := hinv.waits
      starts := hinv.starts
      took := hinv.took
      spaced := hinv.spaced
      bound := calls_bound start _ hinv.spaced (fun c hc => (hinv.starts c hc).1)
      events := by
        refine ⟨added0 ++ [⟨K8EventPartitionFailed, true, s.w.partStatus⟩], ?_, ?_, ?_, ?_⟩
        · show s.w.events ++ [_] = _
          rw [hev0, List.append_assoc]
          rfl
        · intro ev hev
          rcases List.mem_append.mp hev with hev | hev
          · exact hse0 ev hev
          · rw [List.mem_singleton.mp hev]
            refine Or.inr (Or.inr ⟨rfl, ?_⟩)
            rcases hlen with h | h
            · exact Or.inr (hinv.statusOne h)
            · exact Or.inl (hinv.statusMore h)
        · rw [countReason_append, hcr0, if_neg hne, countReason_singleton,
            if_pos ((any_failed_iff _ hinv.failed).mpr hne)]
          rfl
        · rw [countReason_append, hcf0, countReason_singleton]
          rfl
      first := fun c hc _ => by
        obtain ⟨w0, err0, rest, h1, h2, h3⟩ := hinv.first c hc
        refine ⟨w0, err0, rest ++ [⟨K8EventPartitionFailed, true, s.w.partStatus⟩], h1, h2, ?_⟩
        show s.w.events ++ [_] = _
        rw [h3]
        simp
      expired := fun _ => ⟨hc, hx, hne, by
        show (s.w.events ++ [_]).getLast? = _
        rw [List.getLast?_concat]
        rfl, hinv.statusOne, hinv.statusMore⟩
      aborted := fun h => by cases h
      clock := fun _ => ⟨hinv.clock, hinv.clockLast⟩
      inWait := fun h => by cases h
      done := fun h => by cases h
      failed := fun _ => hinv.failed }

/-- A session whose engine invocation returns nil. -/
theorem SessionEnd_done (s : RetryState σ) (w1 : World σ)
    (hinv : SessionInv env selectedProfile start w s)
    (hc : ctxDone env s.now = false) (hle : s.now ≤ start + 30 * Minute)
    (hp : PartitionGPU (env.driver s.calls.length) (env.config s.now) selectedProfile s.w =
      some (w1, none)) :
    SessionEnd env selectedProfile start w Ending.done (recordCall env s w1 none) := by
  obtain ⟨-, -, a1, he1, hp1⟩ := PartitionGPU_engineEvents _ _ _ _ _ _ hp
  obtain ⟨added0, hev0, hse0, hcr0, hcf0⟩ := hinv.events
  generalize hx : (⟨s.now, s.now + env.duration s.calls.length, none⟩ : Invocation) = x
  have hxs : x.start = s.now := by rw [← hx]
  have hxf : x.finish = s.now + env.duration s.calls.length := by rw [← hx]
  have hxe : x.err = none := by rw [← hx]
  generalize hs3 : recordCall env s w1 none = s3
  have hcalls : s3.calls = s.calls ++ [x] := by rw [← hs3, ← hx]; rfl
  have hw3 : s3.w = w1 := by rw [← hs3]; rfl
  have hstarts : ∀ c ∈ s.calls ++ [x],
      c.start ≤ start + 30 * Minute ∧ ctxDone env c.start = false := by
    intro c hc1
    rcases List.mem_append.mp hc1 with hc1 | hc1
    · exact hinv.starts c hc1
    · rw [List.mem_singleton.mp hc1, hxs]; exact ⟨hle, hc⟩
  have hspaced : ∀ (k : Nat) (c : Invocation), (s.calls ++ [x])[k]? = some c →
      start + k * Minute ≤ c.start := by
    intro k c hk
    rw [getElem?_concat] at hk
    split at hk
    · exact hinv.spaced k c hk
    · split at hk
      · next h2 => cases hk; rw [hxs, h2]; exact hinv.elapsed
      · cases hk
  exact
    { waits := by
        rw [hcalls]
        exact waitsBetween_concat _ _ hinv.waits (fun c hc1 =>
          ⟨hinv.failed c (List.mem_of_mem_getLast? hc1), by rw [hxs]; exact hinv.clockLast c hc1⟩)
      starts := by rw [hcalls]; exact hstarts
      took := by
        rw [hcalls]
        intro k c hk
        rw [getElem?_concat] at hk
        split at hk
        · exact hinv.took k c hk
        · split at hk
          · next h2 => cases hk; rw [hxf, hxs, h2]
          · cases hk
      spaced := by rw [hcalls]; exact hspaced
      bound := by
        rw [hcalls]
        exact calls_bound start _ hspaced (fun c hc1 => (hstarts c hc1).1)
      events := by
        rw [hcalls, hw3]
        refine ⟨added0 ++ a1, by rw [he1, hev0, List.append_assoc], ?_, ?_, ?_⟩
        · intro ev hev
          rcases List.mem_append.mp hev with hev | hev
          · exact hse0 ev hev
          · exact Or.inl (hp1 ev hev)
        · rw [countReason_append, hcr0, countReason_engine _ a1 hp1 (by decide),
            List.any_append]
          by_cases h0 : s.calls = []
          · rw [if_pos h0, h0]; simp [hxe]
          · rw [if_neg h0, (any_failed_iff _ hinv.failed).mpr h0]; simp
        · rw [countReason_append, hcf0, countReason_engine _ a1 hp1 (by decide)]
          simp
      first := by
        rw [hcalls, hw3]
        intro c hc1 hce
        by_cases h0 : s.calls = []
        · rw [h0] at hc1
          simp only [List.nil_append, List.getElem?_cons_zero, Option.some.injEq] at hc1
          rw [← hc1] at hce
          exact absurd hxe hce
        · have hpos : 0 < s.calls.length := List.length_pos.mpr h0
          rw [List.getElem?_append_left hpos] at hc1
          obtain ⟨w0, err0, rest, h1, h2, h3⟩ := hinv.first c hc1
          refine ⟨w0, err0, rest ++ a1, h1, h2, ?_⟩
          rw [he1, h3]
          simp
      expired := fun h => by cases h
      aborted := fun h => by cases h
      clock := fun h => by rcases h with h | h <;> cases h
      inWait := fun h => by cases h
      done := fun _ => ⟨x, by rw [hcalls, List.getLast?_concat], hxe⟩
      failed := fun h => absurd rfl h }

/-- However a session ends, `SessionEnd` describes it. -/
theorem retryLoop_sessionEnd (fuel : Nat) (s : RetryState σ)
    (hinv : SessionInv env selectedProfile start w s) :
    SessionEnd env selectedProfile start w
      (retryLoop env selectedProfile (start + 30 * Minute) fuel s).1
      (retryLoop env selectedProfile (start + 30 * Minute) fuel s).2 := by
  refine retryLoop_rule env selectedProfile (start + 30 * Minute)
    (SessionInv env selectedProfile start w) (SessionEnd env selectedProfile start w)
    ?_ ?_ ?_ fuel s hinv
  · intro s1 h1
    exact SessionEnd_of_inv env selectedProfile start w s1 s1 _ h1 rfl rfl (by simp) (by simp)
      (fun h => by cases h) (fun h => by cases h)
  · intro s1 s2 e h1 hi
    rcases retryIteration_cases env selectedProfile (start + 30 * Minute) s1 with
      ⟨hc, h2⟩ | ⟨hc, hx, h2⟩ | ⟨hc, hle, hp, h2⟩ | ⟨w1, hc, hle, hp, h2⟩ |
      ⟨w1, err, hc, hle, hp, hwc, h2⟩ | ⟨w1, err, hc, hle, hp, hwc, h2⟩
    all_goals rw [h2] at hi
    all_goals simp only [Prod.mk.injEq, Option.some.injEq, reduceCtorEq, and_false] at hi
    all_goals obtain ⟨hs, he⟩ := hi
    all_goals subst hs he
    · exact SessionEnd_of_inv env selectedProfile start w s1 s1 _ h1 rfl rfl (by simp) (by simp)
        (fun _ => ⟨hc, rfl⟩) (fun h => by cases h)
    · exact SessionEnd_expired env selectedProfile start w s1 h1 hc hx
    · exact SessionEnd_of_inv env selectedProfile start w s1 s1 _ h1 rfl rfl (by simp) (by simp)
        (fun h => by cases h) (fun h => by cases h)
    · exact SessionEnd_done env selectedProfile start w s1 w1 h1 hc hle hp
    · have h3 := SessionInv_call env selectedProfile start w s1 w1 err h1 hc hle hp
      refine SessionEnd_of_inv env selectedProfile start w _ _ _ h3 rfl rfl (by simp) (by simp)
        (fun h => by cases h) (fun _ => ?_)
      refine ⟨⟨s1.now, s1.now + env.duration s1.calls.length, some err⟩, ?_, by simp, hwc⟩
      rw [notifyRetry_calls]
      show (s1.calls ++ [_]).getLast? = _
      rw [List.getLast?_concat]
  · intro s1 s2 h1 hi
    rcases retryIteration_cases env selectedProfile (start + 30 * Minute) s1 with
      ⟨hc, h2⟩ | ⟨hc, hx, h2⟩ | ⟨hc, hle, hp, h2⟩ | ⟨w1, hc, hle, hp, h2⟩ |
      ⟨w1, err, hc, hle, hp, hwc, h2⟩ | ⟨w1, err, hc, hle, hp, hwc, h2⟩
    all_goals rw [h2] at hi
    all_goals simp only [Prod.mk.injEq, reduceCtorEq, and_false, and_true] at hi
    subst hi
    exact SessionInv_call env selectedProfile start w s1 w1 err h1 hc hle hp

/-- What `RetryPartition` leaves. -/
theorem RetryPartition_sessionEnd :
    SessionEnd env selectedProfile start w (RetryPartition env selectedProfile start w).1
      (RetryPartition env selectedProfile start w).2 :=
  retryLoop_sessionEnd env selectedProfile start w 32 _
    (SessionInv_start env selectedProfile start w)

end sessionEnd

/-! ## The claims about a session -/

/-- An engine invocation that stops on an attempt-fatal condition returns nil. -/
theorem PartitionGPU_attempt_fatal {σ : Type} (d : Driver σ) (cfg : ConfigFile)
    (selectedProfile : String) (w : World σ) (h : attemptFatal d cfg selectedProfile w) :
    ∃ w1, PartitionGPU d cfg selectedProfile w = some (w1, none) ∧
      w1.labels.getLast? = some "failure" ∧ w1.partStatus.FinalStatus = "Failure" ∧
      w1.trace = w.trace ∧ w1.hw = w.hw := by
  have hone : ∀ (reason msg : String) (err : Option String),
      (addStateLabel "failure" (generateK8sEvent err reason
        (setReason msg (resetStatus selectedProfile w)))).labels.getLast? = some "failure" := by
    intro reason msg err
    simp [addStateLabel]
  unfold attemptFatal at h
  cases cfg with
  | missing => exact ⟨_, rfl, hone _ _ _, rfl, rfl, rfl⟩
  | unparsable => exact ⟨_, rfl, hone _ _ _, rfl, rfl, rfl⟩
  | parsed ProfilesList =>
    simp only at h
    cases hl : lookupProfile selectedProfile ProfilesList with
    | none =>
      exact ⟨addStateLabel "failure"
        (generateK8sEvent (some "profile not found") K8EventNonExistentProfile
          (setReason "Profile does not exist in the configmap"
            (resetStatus selectedProfile w))),
        by unfold PartitionGPU; simp only [hl], hone _ _ _, rfl, rfl, rfl⟩
    | some profile =>
      rw [hl] at h
      simp only at h
      by_cases hinit : d.amdsmi_init w.hw = AMDSMI_STATUS_SUCCESS
      · rcases h with h | ⟨hpf, sockets, n, e, hs, hv⟩
        · exact absurd hinit h
        · have hr := PartitionGPU_rejected d ProfilesList selectedProfile profile w sockets n e
            hl hinit hs hv
          rw [hpf] at hr
          refine ⟨_, hr, by simp [addStateLabel], ?_, ?_, ?_⟩
          · simp [addStateLabel, generateK8sEvent, setReason, reportNoSockets_FinalStatus,
              resetStatus]
          · simp [addStateLabel, generateK8sEvent, setReason, reportNoSockets_trace, resetStatus]
          · simp [addStateLabel, generateK8sEvent, setReason, reportNoSockets_hw, resetStatus]
      · refine ⟨addStateLabel "failure"
          (generateK8sEvent none K8EventAMDSMIAPIFailure
            (setReason "AMD-SMI API error : Failed to initialize AMD SMI!"
              (resetStatus selectedProfile w))), ?_, hone _ _ _, rfl, rfl, rfl⟩
        unfold PartitionGPU
        simp only [hl]
        rw [if_pos (by simpa [resetStatus] using hinit)]

/-- An iteration whose engine invocation returns nil ends the session. -/
theorem retryLoop_of_nil {σ : Type} (env : RetryEnv σ) (selectedProfile : String)
    (expiration fuel : Nat) (s : RetryState σ) (w1 : World σ)
    (hc : ctxDone env s.now = false) (hle : s.now ≤ expiration)
    (hp : PartitionGPU (env.driver s.calls.length) (env.config s.now) selectedProfile s.w =
      some (w1, none)) :
    retryLoop env selectedProfile expiration (fuel + 1) s =
      (Ending.done, recordCall env s w1 none) := by
  have hi : retryIteration env selectedProfile expiration s =
      (recordCall env s w1 none, some Ending.done) := by
    unfold retryIteration
    rw [if_neg (by simp [hc]), if_neg (Nat.not_lt.mpr hle), hp]
  rw [retryLoop.eq_def]
  simp only
  rw [hi]

/-- An iteration whose engine invocation returns an error, the token not being cancelled
before the minute is over, is followed by the next one. -/
theorem retryLoop_of_err {σ : Type} (env : RetryEnv σ) (selectedProfile : String)
    (expiration fuel : Nat) (s : RetryState σ) (w1 : World σ) (err : String)
    (hc : ctxDone env s.now = false) (hle : s.now ≤ expiration)
    (hp : PartitionGPU (env.driver s.calls.length) (env.config s.now) selectedProfile s.w =
      some (w1, some err))
    (hw : waitCancelled env (s.now + env.duration s.calls.length) = false) :
    retryLoop env selectedProfile expiration (fuel + 1) s =
      retryLoop env selectedProfile expiration fuel
        { notifyRetry selectedProfile (recordCall env s w1 (some err)) with
          now := s.now + env.duration s.calls.length + Minute } := by
  have hi : retryIteration env selectedProfile expiration s =
      ({ notifyRetry selectedProfile (recordCall env s w1 (some err)) with
          now := s.now + env.duration s.calls.length + Minute }, none) := by
    unfold retryIteration
    rw [if_neg (by simp [hc]), if_neg (Nat.not_lt.mpr hle), hp]
    simp only
    have hnow : (notifyRetry selectedProfile (recordCall env s w1 (some err))).now =
        s.now + env.duration s.calls.length := by
      rw [notifyRetry_now]; rfl
    rw [hnow, if_neg (by simp [hw])]
  rw [retryLoop.eq_def]
  simp only
  rw [hi]

/-- C14 at a counterexample: eight devices in `SPX`/`NPS1`, a well-behaved driver, profile
`e2e_profile1`, no cancellation; the config document is missing when the session starts and
present from one minute on.  The only engine invocation of the session returns nil after
reporting `ConfigMapNotPresent`, and `RetryPartition` returns one second after its start: no
retrying notification, no wait, no later iteration, no device touched. -/
theorem RetryPartition_missing_config_not_retried :
    sessionView (RetryPartition lateConfigEnv "e2e_profile1" 0 (world0 hwSPX)) =
      ⟨Ending.done, 1000000000, [⟨0, 1000000000, none⟩], [("ConfigMapNotPresent", "Failure")],
        ["failure"], []⟩ := by
  decide

/-- C14, amended: an iteration of a session that is neither cancelled nor expired and whose
engine invocation stops on an attempt-fatal condition (config document missing or unparsable,
profile name not found, driver init failure, or validation failure with the flag
`partition_failed` not set on entry) ends the session: `PartitionGPU` returns nil after
requesting the node status label `failure`, and `RetryPartition` returns without a retrying
notification, a wait or a later iteration, whatever the config document becomes later; so
does every iteration whose engine invocation returns nil.  An iteration whose engine
invocation returns an error is followed, unless the token is cancelled
before the minute is over, by an iteration one minute after the invocation returned; that
iteration reads the config document as it is then, so that the session ends there when the
document has gone missing meanwhile. -/
theorem retryLoop_attempt_fatal_ends_session {σ : Type} (env : RetryEnv σ)
    (selectedProfile : String) (expiration fuel : Nat) (s : RetryState σ)
    (hc : ctxDone env s.now = false) (hle : s.now ≤ expiration) :
    (attemptFatal (env.driver s.calls.length) (env.config s.now) selectedProfile s.w →
      ∃ w1,
        PartitionGPU (env.driver s.calls.length) (env.config s.now) selectedProfile s.w =
          some (w1, none) ∧
        retryLoop env selectedProfile expiration (fuel + 1) s =
          (Ending.done,
            { s with
              w := w1
              now := s.now + env.duration s.calls.length
              calls := s.calls ++ [⟨s.now, s.now + env.duration s.calls.length, none⟩] }) ∧
        w1.labels.getLast? = some "failure" ∧ w1.partStatus.FinalStatus = "Failure" ∧
        w1.trace = s.w.trace ∧ w1.hw = s.w.hw ∧
        countReason K8EventPartitionRetrying w1.events =
          countReason K8EventPartitionRetrying s.w.events) ∧
    (∀ w1,
      PartitionGPU (env.driver s.calls.length) (env.config s.now) selectedProfile s.w =
        some (w1, none) →
      retryLoop env selectedProfile expiration (fuel + 1) s =
        (Ending.done,
          { s with
            w := w1
            now := s.now + env.duration s.calls.length
            calls := s.calls ++ [⟨s.now, s.now + env.duration s.calls.length, none⟩] })) ∧
    (∀ w1 err,
      PartitionGPU (env.driver s.calls.length) (env.config s.now) selectedProfile s.w =
        some (w1, some err) →
      waitCancelled env (s.now + env.duration s.calls.length) = false →
      ∃ s1 : RetryState σ,
        s1.now = s.now + env.duration s.calls.length + Minute ∧
        s1.calls = s.calls ++ [⟨s.now, s.now + env.duration s.calls.length, some err⟩] ∧
        s1.w = (if s.count = 1 then markRetrying selectedProfile w1 else w1) ∧
        retryLoop env selectedProfile expiration (fuel + 1) s =
          retryLoop env selectedProfile expiration fuel s1 ∧
        (ctxDone env s1.now = false → s1.now ≤ expiration →
          attemptFatal (env.driver s1.calls.length) (env.config s1.now) selectedProfile s1.w →
          ∃ w2,
            PartitionGPU (env.driver s1.calls.length) (env.config s1.now) selectedProfile
              s1.w = some (w2, none) ∧
            retryLoop env selectedProfile expiration (fuel + 2) s =
              (Ending.done,
                { s1 with
                  w := w2
                  now := s1.now + env.duration s1.calls.length
                  calls := s1.calls ++
                    [⟨s1.now, s1.now + env.duration s1.calls.length, none⟩] }))) := by
  refine ⟨?_, fun w1 hp => retryLoop_of_nil env selectedProfile expiration fuel s w1 hc hle hp,
    ?_⟩
  · intro hfatal
    obtain ⟨w1, hp, h1, h2, h3, h4⟩ := PartitionGPU_attempt_fatal _ _ _ _ hfatal
    obtain ⟨-, -, a1, he1, hp1⟩ := PartitionGPU_engineEvents _ _ _ _ _ _ hp
    refine ⟨w1, hp, retryLoop_of_nil env selectedProfile expiration fuel s w1 hc hle hp,
      h1, h2, h3, h4, ?_⟩
    rw [he1, countReason_append, countReason_engine _ a1 hp1 (by decide)]
    rfl
  · intro w1 err hp hw
    refine ⟨{ notifyRetry selectedProfile (recordCall env s w1 (some err)) with
          now := s.now + env.duration s.calls.length + Minute }, rfl, ?_, ?_,
      retryLoop_of_err env selectedProfile expiration fuel s w1 err hc hle hp hw, ?_⟩
    · show (notifyRetry selectedProfile (recordCall env s w1 (some err))).calls = _
      rw [notifyRetry_calls]
      rfl
    · show (notifyRetry selectedProfile (recordCall env s w1 (some err))).w = _
      unfold notifyRetry
      have hcount : (recordCall env s w1 (some err)).count = s.count := rfl
      rw [hcount]
      split <;> rfl
    · intro hc1 hle1 hfatal
      obtain ⟨w2, hp2, -⟩ := PartitionGPU_attempt_fatal _ _ _ _ hfatal
      refine ⟨w2, hp2, ?_⟩
      rw [retryLoop_of_err env selectedProfile expiration (fuel + 1) s w1 err hc hle hp hw]
      exact retryLoop_of_nil env selectedProfile expiration fuel _ w2 hc1 hle1 hp2

/-- C14, amended, on the simulated node.  A session whose config document is missing at its
start ends with that invocation, though the document is present a minute later; a session
whose driver does not initialize ends likewise; a session whose first invocation meets a
busy driver waits one minute and invokes the engine again, which finds the config document
removed meanwhile and ends the session. -/
theorem retryLoop_attempt_fatal_ends_session_witness :
    (∃ w1,
      PartitionGPU (simDriver idealConfig 8) ConfigFile.missing "e2e_profile1" (world0 hwSPX) =
        some (w1, none) ∧
      retryLoop lateConfigEnv "e2e_profile1" (30 * Minute) 32 ⟨world0 hwSPX, 0, 1, []⟩ =
        (Ending.done, ⟨w1, 1000000000, 1, [⟨0, 1000000000, none⟩]⟩) ∧
      w1.labels.getLast? = some "failure" ∧ w1.partStatus.FinalStatus = "Failure" ∧
      w1.trace = [] ∧ w1.hw = hwSPX ∧
      countReason K8EventPartitionRetrying w1.events = 0) ∧
    sessionView (retryLoop ⟨none, fun _ => ConfigFile.parsed e2eConfig, fun _ => noInitDriver,
        fun _ => 0⟩ "e2e_profile1" (30 * Minute) 32 ⟨world0 hwSPX, 0, 1, []⟩) =
      ⟨Ending.done, 0, [⟨0, 0, none⟩], [("AMDSMIAPIFailure", "Failure")], ["failure"], []⟩ ∧
    sessionView (RetryPartition removedConfigEnv "cpx" 0 (world0 hwSPX)) =
      ⟨Ending.done, Minute, [⟨0, 0, some "partition failed"⟩, ⟨Minute, Minute, none⟩],
        [("PartitionRetrying", "Partition failed, retrying."),
          ("ConfigMapNotPresent", "Failure")],
        ["failure", "failure"],
        [TraceEntry.gpu 0 "CPX" "NPS1", TraceEntry.read 0 "SPX" "NPS1",
          TraceEntry.setCompute 0 ComputePartitionType.CPX 30 "SPX" "SPX"]⟩ :=
  ⟨(retryLoop_attempt_fatal_ends_session lateConfigEnv "e2e_profile1" (30 * Minute) 31
      ⟨world0 hwSPX, 0, 1, []⟩ rfl (by decide)).1 trivial,
   by decide, by decide⟩

/-- In a session whose invocations are separated by waits, the first invocation failed if
any did. -/
theorem first_failed_of_any (calls : List Invocation) (hw : waitsBetween calls)
    (h : calls.any (fun c => c.err.isSome) = true) :
    ∃ c, calls[0]? = some c ∧ c.err ≠ none := by
  cases calls with
  | nil => simp at h
  | cons c rest =>
    refine ⟨c, by simp, ?_⟩
    cases rest with
    | nil =>
      simp only [List.any_cons, List.any_nil, Bool.or_false] at h
      intro hc
      rw [hc] at h
      simp at h
    | cons c' rest' => exact (hw 0 c c' (by simp) (by simp)).1

/-- C15: in every session (whatever the driver, the config document, the durations and the
cancellation), the events created by `RetryPartition` contain the partition-retrying
notification exactly once if some engine invocation of the session returned an error and not
at all otherwise; if some invocation failed the first one did, and the notification follows
the events of that first invocation directly, with no further notification among the events
of the second and later invocations; between two consecutive invocations the earlier one
failed and exactly one minute passed from its return to the start of the later one, and a
session that ends at the start of an iteration (cancelled or expired) does so one minute
after its last invocation returned, unless the token was cancelled during that minute. -/
theorem RetryPartition_retrying_once {σ : Type} (env : RetryEnv σ) (selectedProfile : String)
    (start : Nat) (w : World σ) :
    (∃ added,
      (RetryPartition env selectedProfile start w).2.w.events = w.events ++ added ∧
      countReason K8EventPartitionRetrying added =
        (if (RetryPartition env selectedProfile start w).2.calls.any (fun c => c.err.isSome)
          then 1 else 0)) ∧
    ((RetryPartition env selectedProfile start w).2.calls.any (fun c => c.err.isSome) = true →
      ∃ w1 err first rest,
        PartitionGPU (env.driver 0) (env.config start) selectedProfile w =
          some (w1, some err) ∧
        (RetryPartition env selectedProfile start w).2.calls[0]? =
          some ⟨start, start + env.duration 0, some err⟩ ∧
        w1.events = w.events ++ first ∧
        (RetryPartition env selectedProfile start w).2.w.events =
          w.events ++ first ++
            ⟨K8EventPartitionRetrying, true,
              { w1.partStatus with
                FinalStatus := "Partition failed, retrying."
                Reason := "Partition retrying for profile: " ++ selectedProfile }⟩ :: rest ∧
        countReason K8EventPartitionRetrying first = 0 ∧
        countReason K8EventPartitionRetrying rest = 0) ∧
    (∀ (i : Nat) (c c' : Invocation),
      (RetryPartition env selectedProfile start w).2.calls[i]? = some c →
      (RetryPartition env selectedProfile start w).2.calls[i + 1]? = some c' →
      c.err ≠ none ∧ c'.start = c.finish + Minute) ∧
    (∀ c, (RetryPartition env selectedProfile start w).2.calls.getLast? = some c →
      ((RetryPartition env selectedProfile start w).1 = Ending.aborted ∨
        (RetryPartition env selectedProfile start w).1 = Ending.expired →
        c.err ≠ none ∧ (RetryPartition env selectedProfile start w).2.now = c.finish + Minute) ∧
      ((RetryPartition env selectedProfile start w).1 = Ending.abortedInWait →
        c.err ≠ none ∧ ∃ t, env.cancelAt = some t ∧ t < c.finish + Minute) ∧
      ((RetryPartition env selectedProfile start w).1 = Ending.done ↔ c.err = none)) ∧
    (RetryPartition env selectedProfile start w).1 ≠ Ending.outOfFuel := by
  have hend := RetryPartition_sessionEnd env selectedProfile start w
  have hfuel := RetryPartition_ne_outOfFuel env selectedProfile start w
  generalize RetryPartition env selectedProfile start w = r at hend hfuel
  obtain ⟨added, hev, hse, hcr, hcf⟩ := hend.events
  refine ⟨⟨added, hev, hcr⟩, fun hany => ?_, hend.waits, fun c hc => ⟨fun he => ?_, fun he => ?_, ?_⟩,
    hfuel⟩
  · obtain ⟨c, hc0, hce⟩ := first_failed_of_any _ hend.waits hany
    obtain ⟨w1, err, rest, hp, hceq, hev1⟩ := hend.first c hc0 hce
    obtain ⟨-, -, first, hf1, hf2⟩ := PartitionGPU_engineEvents _ _ _ _ _ _ hp
    have hadded : added = first ++ retryingEvent selectedProfile w1.partStatus :: rest := by
      have h1 : w.events ++ added =
          w.events ++ (first ++ retryingEvent selectedProfile w1.partStatus :: rest) := by
        rw [← hev, hev1, hf1, List.append_assoc]
      exact List.append_cancel_left h1
    have hcount : countReason K8EventPartitionRetrying first + (1 +
        countReason K8EventPartitionRetrying rest) = 1 := by
      have h2 := hcr
      rw [if_pos hany, hadded, countReason_append,
        show retryingEvent selectedProfile w1.partStatus :: rest =
          [retryingEvent selectedProfile w1.partStatus] ++ rest from rfl,
        countReason_append, countReason_singleton] at h2
      exact h2
    refine ⟨w1, err, first, rest, hp, by rw [hc0, hceq], hf1, ?_, by omega, by omega⟩
    rw [hev1, hf1]
    rfl
  · exact ⟨hend.failed (by rcases he with he | he <;> rw [he] <;> simp) c
      (List.mem_of_mem_getLast? hc), (hend.clock he).2 c hc⟩
  · obtain ⟨c', hc', hce, hwc⟩ := hend.inWait he
    rw [hc] at hc'
    cases hc'
    refine ⟨hce, ?_⟩
    unfold waitCancelled at hwc
    cases hca : env.cancelAt with
    | none => rw [hca] at hwc; simp at hwc
    | some t =>
      rw [hca] at hwc
      exact ⟨t, rfl, by simpa using hwc⟩
  · constructor
    · intro he
      obtain ⟨c', hc', hce⟩ := hend.done he
      rw [hc] at hc'
      cases hc'
      exact hce
    · intro hce
      by_contra hne
      exact hend.failed hne c (List.mem_of_mem_getLast? hc) hce

/-- C15 on the simulated node, one device whose compute change is always refused, an engine
invocation taking five minutes: the invocations start at minutes 0, 6, 12, 18, 24 and 30,
each one minute after the one before returned, the session expires at minute 36, and its
events are one retrying notification, created after the first invocation, and the final
partition-failed event. -/
theorem RetryPartition_retrying_once_witness :
    (sessionView (RetryPartition (busyEnv none (5 * Minute)) "cpx" 0 (world0 hwSPX))).ending =
      Ending.expired ∧
    (sessionView (RetryPartition (busyEnv none (5 * Minute)) "cpx" 0 (world0 hwSPX))).now =
      36 * Minute ∧
    (sessionView (RetryPartition (busyEnv none (5 * Minute)) "cpx" 0 (world0 hwSPX))).calls.map
        (fun c => (c.start, c.finish)) =
      [(0, 5 * Minute), (6 * Minute, 11 * Minute), (12 * Minute, 17 * Minute),
        (18 * Minute, 23 * Minute), (24 * Minute, 29 * Minute), (30 * Minute, 35 * Minute)] ∧
    (sessionView (RetryPartition (busyEnv none (5 * Minute)) "cpx" 0 (world0 hwSPX))).events =
      [("PartitionRetrying", "Partition failed, retrying."), ("PartitionFailure", "Failure")] ∧
    (RetryPartition (busyEnv none (5 * Minute)) "cpx" 0 (world0 hwSPX)).1 ≠
      Ending.outOfFuel :=
  ⟨by decide, by decide, by decide, by decide,
   (RetryPartition_retrying_once (busyEnv none (5 * Minute)) "cpx" 0 (world0 hwSPX)).2.2.2.2⟩

/-- C16 at a counterexample: one device whose compute change is always refused, an engine
invocation taking thirty minutes, and the token cancelled 31 minutes after the start of the
session (by a new trigger).  The iteration that starts at minute 31 is past the deadline of
minute 30; it finds the token cancelled first (line 759) and returns without the final
partition-failed event. -/
theorem RetryPartition_cancelled_past_deadline :
    sessionView
        (RetryPartition (busyEnv (some (31 * Minute)) (30 * Minute)) "cpx" 0 (world0 hwSPX)) =
      ⟨Ending.aborted, 31 * Minute, [⟨0, 30 * Minute, some "partition failed"⟩],
        [("PartitionRetrying", "Partition failed, retrying.")], ["failure"],
        [TraceEntry.gpu 0 "CPX" "NPS1", TraceEntry.read 0 "SPX" "NPS1",
          TraceEntry.setCompute 0 ComputePartitionType.CPX 30 "SPX" "SPX"]⟩ := by
  decide

/-- C16, amended: an iteration that starts past the deadline with the token not cancelled
creates the final partition-failed event exactly once and `RetryPartition` returns; an
iteration that starts with the token cancelled returns without any event, past the deadline
or not.  For every session: `RetryPartition` returns (the 32 iterations of the model are
enough, and more change nothing); its events contain the final partition-failed event once
if it expired, as their last one, and not at all otherwise; it expires only past the
deadline with the token not cancelled; no engine invocation starts after the deadline, the
`k`-th one starts at least `k` minutes after the session, and there are at most 31. -/
theorem RetryPartition_expiration {σ : Type} (env : RetryEnv σ) (selectedProfile : String)
    (start : Nat) (w : World σ) (expiration fuel : Nat) (s : RetryState σ) :
    (ctxDone env s.now = false → expiration < s.now →
      retryLoop env selectedProfile expiration (fuel + 1) s =
        (Ending.expired,
          { s with w := { s.w with
              events := s.w.events ++ [⟨K8EventPartitionFailed, true, s.w.partStatus⟩] } })) ∧
    (ctxDone env s.now = true →
      retryLoop env selectedProfile expiration (fuel + 1) s = (Ending.aborted, s)) ∧
    (RetryPartition env selectedProfile start w).1 ≠ Ending.outOfFuel ∧
    (32 ≤ fuel →
      retryLoop env selectedProfile (start + 30 * Minute) fuel ⟨w, start, 1, []⟩ =
        RetryPartition env selectedProfile start w) ∧
    (∃ added,
      (RetryPartition env selectedProfile start w).2.w.events = w.events ++ added ∧
      countReason K8EventPartitionFailed added =
        (if (RetryPartition env selectedProfile start w).1 = Ending.expired then 1 else 0)) ∧
    ((RetryPartition env selectedProfile start w).1 = Ending.expired →
      ctxDone env (RetryPartition env selectedProfile start w).2.now = false ∧
      start + 30 * Minute < (RetryPartition env selectedProfile start w).2.now ∧
      (RetryPartition env selectedProfile start w).2.w.events.getLast? =
        some ⟨K8EventPartitionFailed, true,
          (RetryPartition env selectedProfile start w).2.w.partStatus⟩) ∧
    ((RetryPartition env selectedProfile start w).1 = Ending.aborted →
      ctxDone env (RetryPartition env selectedProfile start w).2.now = true) ∧
    (∀ (k : Nat) (c : Invocation),
      (RetryPartition env selectedProfile start w).2.calls[k]? = some c →
      start + k * Minute ≤ c.start ∧ c.start ≤ start + 30 * Minute ∧
        ctxDone env c.start = false) ∧
    (RetryPartition env selectedProfile start w).2.calls.length ≤ 31 := by
  have hend := RetryPartition_sessionEnd env selectedProfile start w
  have hfuel := RetryPartition_ne_outOfFuel env selectedProfile start w
  obtain ⟨added, hev, hse, hcr, hcf⟩ := hend.events
  refine ⟨fun hc hx => ?_, fun hc => ?_, hfuel, fun h32 => ?_, ⟨added, hev, hcf⟩, fun he => ?_,
    hend.aborted, fun k c hk => ?_, hend.bound⟩
  · rw [retryLoop.eq_def]
    simp only
    have hi : retryIteration env selectedProfile expiration s =
        ({ s with w := generateK8sEvent (some "partition failed") K8EventPartitionFailed s.w },
          some Ending.expired) := by
      unfold retryIteration
      rw [if_neg (by simp [hc]), if_pos hx]
    rw [hi]
    rfl
  · rw [retryLoop.eq_def]
    simp only
    have hi : retryIteration env selectedProfile expiration s = (s, some Ending.aborted) := by
      unfold retryIteration
      rw [if_pos hc]
    rw [hi]
  · obtain ⟨extra, rfl⟩ := Nat.exists_eq_add_of_le h32
    exact retryLoop_add env selectedProfile (start + 30 * Minute) 32 extra _ hfuel
  · obtain ⟨h1, h2, -, h3, -⟩ := hend.expired he
    exact ⟨h1, h2, h3⟩
  · have hm := List.getElem?_mem hk
    exact ⟨hend.spaced k c hk, hend.starts c hm⟩

/-- C16, amended, on the simulated node, one device whose compute change is always refused.
When an engine invocation takes no time the session makes 31 invocations, at minutes 0 to
30, and expires at minute 31 with the final partition-failed event as its last event; the
iteration of minute 31 taken alone creates that event and returns. -/
theorem RetryPartition_expiration_witness :
    (sessionView (RetryPartition (busyEnv none 0) "cpx" 0 (world0 hwSPX))).ending =
      Ending.expired ∧
    (sessionView (RetryPartition (busyEnv none 0) "cpx" 0 (world0 hwSPX))).now = 31 * Minute ∧
    (sessionView (RetryPartition (busyEnv none 0) "cpx" 0 (world0 hwSPX))).calls.map
        (fun c => c.start) = (List.range 31).map (fun k => k * Minute) ∧
    (sessionView (RetryPartition (busyEnv none 0) "cpx" 0 (world0 hwSPX))).events =
      [("PartitionRetrying", "Partition failed, retrying."), ("PartitionFailure", "Failure")] ∧
    retryLoop (busyEnv none 0) "cpx" (30 * Minute) 1 ⟨world0 hwSPX, 31 * Minute, 2, []⟩ =
      (Ending.expired,
        ⟨{ world0 hwSPX with
            events := [⟨K8EventPartitionFailed, true, (world0 hwSPX).partStatus⟩] },
          31 * Minute, 2, []⟩) :=
  ⟨by decide, by decide, by decide, by decide,
   (RetryPartition_expiration (busyEnv none 0) "cpx" 0 (world0 hwSPX) (30 * Minute) 0
      ⟨world0 hwSPX, 31 * Minute, 2, []⟩).1 rfl (by decide)⟩

/-- C20 at a counterexample: one device whose compute change is always refused, an engine
invocation taking thirty minutes, no cancellation.  The session makes one invocation and
expires; both events that `RetryPartition` hands to the reporter, the retrying notification
and the final partition-failed event, carry the overall status
`Partition failed, retrying.`. -/
theorem RetryPartition_third_overall_status :
    sessionView (RetryPartition (busyEnv none (30 * Minute)) "cpx" 0 (world0 hwSPX)) =
      ⟨Ending.expired, 31 * Minute, [⟨0, 30 * Minute, some "partition failed"⟩],
        [("PartitionRetrying", "Partition failed, retrying."),
          ("PartitionFailure", "Partition failed, retrying.")],
        ["failure"],
        [TraceEntry.gpu 0 "CPX" "NPS1", TraceEntry.read 0 "SPX" "NPS1",
          TraceEntry.setCompute 0 ComputePartitionType.CPX 30 "SPX" "SPX"]⟩ := by
  decide

/-- C20, amended: every event created by an engine invocation (`PartitionGPU` with
`amdSMIHelper`, whatever the driver and the config document) has one of the engine's event
names and carries overall status `Success` or `Failure`.  Every event created in a session
is such an engine event, or the retrying notification, which carries the overall status
`Partition failed, retrying.`, or the final partition-failed event, which carries
`Partition failed, retrying.` when the session made one engine invocation and `Failure`
when it made more.  The session is a complete one: `RetryPartition` returns. -/
theorem session_overall_status {σ : Type} (env : RetryEnv σ) (selectedProfile : String)
    (start : Nat) (w : World σ) (d : Driver σ) (cfg : ConfigFile) :
    (∀ w1 r, PartitionGPU d cfg selectedProfile w = some (w1, r) →
      ∃ added, w1.events = w.events ++ added ∧
        ∀ ev ∈ added, ev.reason ∈ engineEvents ∧
          (ev.status.FinalStatus = "Success" ∨ ev.status.FinalStatus = "Failure")) ∧
    (∃ added,
      (RetryPartition env selectedProfile start w).2.w.events = w.events ++ added ∧
      ∀ ev ∈ added,
        (ev.reason ∈ engineEvents ∧
          (ev.status.FinalStatus = "Success" ∨ ev.status.FinalStatus = "Failure")) ∨
        (ev.reason = K8EventPartitionRetrying ∧
          ev.status.FinalStatus = "Partition failed, retrying.") ∨
        (ev.reason = K8EventPartitionFailed ∧
          (ev.status.FinalStatus = "Failure" ∨
            ev.status.FinalStatus = "Partition failed, retrying."))) ∧
    ((RetryPartition env selectedProfile start w).2.calls.any (fun c => c.err.isSome) = true →
      ∃ ev ∈ (RetryPartition env selectedProfile start w).2.w.events,
        ev.reason = K8EventPartitionRetrying ∧
        ev.status.FinalStatus = "Partition failed, retrying.") ∧
    ((RetryPartition env selectedProfile start w).1 = Ending.expired →
      ∃ ev, (RetryPartition env selectedProfile start w).2.w.events.getLast? = some ev ∧
        ev.reason = K8EventPartitionFailed ∧
        ((RetryPartition env selectedProfile start w).2.calls.length = 1 →
          ev.status.FinalStatus = "Partition failed, retrying.") ∧
        (2 ≤ (RetryPartition env selectedProfile start w).2.calls.length →
          ev.status.FinalStatus = "Failure")) ∧
    (RetryPartition env selectedProfile start w).1 ≠ Ending.outOfFuel := by
  have hend := RetryPartition_sessionEnd env selectedProfile start w
  obtain ⟨added, hev, hse, hcr, hcf⟩ := hend.events
  refine ⟨fun w1 r hp => ?_, ⟨added, hev, hse⟩, fun hany => ?_, fun he => ?_,
    RetryPartition_ne_outOfFuel env selectedProfile start w⟩
  · obtain ⟨-, -, a1, h1, h2⟩ := PartitionGPU_engineEvents _ _ _ _ _ _ hp
    exact ⟨a1, h1, h2⟩
  · obtain ⟨c, hc0, hce⟩ := first_failed_of_any _ hend.waits hany
    obtain ⟨w1, err, rest, -, -, hev1⟩ := hend.first c hc0 hce
    exact ⟨retryingEvent selectedProfile w1.partStatus, by rw [hev1]; simp, rfl, rfl⟩
  · obtain ⟨-, -, -, h3, h4, h5⟩ := hend.expired he
    exact ⟨_, h3, rfl, h4, h5⟩

/-- C20, amended, on the simulated node: a session on eight devices and profile
`e2e_profile1` creates one engine event, with overall status `Success`; a session on one
device whose compute change is always refused, an engine invocation taking 29 minutes, makes
two invocations, and its final partition-failed event carries `Failure`. -/
theorem session_overall_status_witness :
    (sessionView (RetryPartition ⟨none, fun _ => ConfigFile.parsed e2eConfig,
        fun _ => simDriver idealConfig 8, fun _ => 0⟩ "e2e_profile1" 0 (world0 hwSPX))).events =
      [("SuccessfullyPartitioned", "Success")] ∧
    (sessionView (RetryPartition (busyEnv none (29 * Minute)) "cpx" 0 (world0 hwSPX))).events =
      [("PartitionRetrying", "Partition failed, retrying."), ("PartitionFailure", "Failure")] ∧
    (∃ ev ∈ (RetryPartition (busyEnv none (29 * Minute)) "cpx" 0 (world0 hwSPX)).2.w.events,
      ev.reason = K8EventPartitionRetrying ∧
      ev.status.FinalStatus = "Partition failed, retrying.") :=
  ⟨by decide, by decide,
   (session_overall_status (busyEnv none (29 * Minute)) "cpx" 0 (world0 hwSPX)
      (simDriver busyComputeConfig 1) ConfigFile.missing).2.2.1 (by decide)⟩

/-! ## The `Worker` and the mailbox -/

theorem countP_modify_cancelled (l : List Attempt) (i : Nat) :
    (List.modify (fun a => { a with cancelled := true }) i l).countP (fun a => !a.returned) =
      l.countP (fun a => !a.returned) := by
  induction l generalizing i with
  | nil => cases i <;> rfl
  | cons a l ih =>
    cases i with
    | zero => simp [List.modify_zero_cons, List.countP_cons]
    | succ i => simp [List.modify_succ_cons, List.countP_cons, ih]

theorem countP_modify_returned (l : List Attempt) (i : Nat) (a : Attempt)
    (h : l[i]? = some a) (hr : a.returned = false) :
    (List.modify (fun a => { a with returned := true }) i l).countP (fun a => !a.returned) + 1 =
      l.countP (fun a => !a.returned) := by
  induction l generalizing i with
  | nil => simp at h
  | cons b l ih =>
    cases i with
    | zero =>
      simp only [List.getElem?_cons_zero, Option.some.injEq] at h
      subst h
      simp [List.modify_zero_cons, List.countP_cons, hr]
    | succ i =>
      simp only [List.getElem?_cons_succ] at h
      have := ih i h
      simp only [List.modify_succ_cons, List.countP_cons]
      omega

theorem countP_eq_zero_returned (l : List Attempt)
    (h : l.countP (fun a => !a.returned) = 0) : ∀ a ∈ l, a.returned = true := by
  intro a ha
  rw [List.countP_eq_zero] at h
  have := h a ha
  simpa using this

theorem CoordInv_init : CoordInv Coordinator.init where
  wgRunning := rfl
  single := by decide
  earlier := fun i a h => by simp [Coordinator.init] at h
  lastCancelled := fun a h => by simp [Coordinator.init] at h
  stored := rfl
  idle := fun _ => rfl

theorem step_receive_start (c : Coordinator) (prof : String)
    (hw : c.worker = WorkerPc.receiving) (hch : c.retryCh = some prof)
    (hcf : c.cancelFunc = none) :
    c.step Action.receive = some (startAttempt prof { c with retryCh := none }) := by
  simp only [Coordinator.step, hw, hch, hcf]

theorem step_receive_cancel (c : Coordinator) (prof : String) (i : Nat)
    (hw : c.worker = WorkerPc.receiving) (hch : c.retryCh = some prof)
    (hcf : c.cancelFunc = some i) :
    c.step Action.receive =
      some { c with
        retryCh := none
        worker := WorkerPc.waiting prof
        attempts := cancelAttempt i c.attempts } := by
  simp only [Coordinator.step, hw, hch, hcf]

theorem step_receive_none (c : Coordinator)
    (h : (∃ prof, c.worker = WorkerPc.waiting prof) ∨ c.retryCh = none) :
    c.step Action.receive = none := by
  simp only [Coordinator.step]
  rcases h with ⟨prof, h⟩ | h
  · rw [h]
  · rw [h]
    cases c.worker <;> rfl

theorem step_resume (c : Coordinator) (prof : String)
    (hw : c.worker = WorkerPc.waiting prof) (hwg : c.wg = 0) :
    c.step Action.resume = some (startAttempt prof c) := by
  simp only [Coordinator.step, hw, hwg, if_true]

theorem step_resume_none (c : Coordinator)
    (h : c.worker = WorkerPc.receiving ∨ c.wg ≠ 0) : c.step Action.resume = none := by
  simp only [Coordinator.step]
  rcases h with h | h
  · rw [h]
  · cases c.worker with
    | receiving => rfl
    | waiting prof => simp only; rw [if_neg h]

theorem step_finish (c : Coordinator) (i : Nat) (a : Attempt)
    (hi : c.attempts[i]? = some a) (hr : a.returned = false) :
    c.step (Action.finish i) =
      some { c with
        wg := c.wg - 1
        attempts := List.modify (fun a => { a with returned := true }) i c.attempts } := by
  simp only [Coordinator.step, hi, hr, Bool.false_eq_true, if_false]

theorem step_finish_none (c : Coordinator) (i : Nat)
    (h : c.attempts[i]? = none ∨ ∃ a, c.attempts[i]? = some a ∧ a.returned = true) :
    c.step (Action.finish i) = none := by
  simp only [Coordinator.step]
  rcases h with h | ⟨a, h, hr⟩
  · rw [h]
  · rw [h]
    simp only [hr, if_true]

theorem modify_ne_nil {α : Type} (f : α → α) (i : Nat) (l : List α) (h : l ≠ []) :
    List.modify f i l ≠ [] := by
  intro h0
  have := congrArg List.length h0
  rw [List.length_modify] at this
  exact h (List.length_eq_zero.mp this)

/-- The invariant does not depend on the mailbox. -/
theorem CoordInv_retryCh (c : Coordinator) (ch : Option String) (h : CoordInv c) :
    CoordInv { c with retryCh := ch } :=
  ⟨h.wgRunning, h.single, h.earlier, h.lastCancelled, h.stored, h.idle⟩

/-- A new attempt may be started when none is running and the last one, if any, has been
cancelled. -/
theorem CoordInv_startAttempt (c : Coordinator) (prof : String) (h : CoordInv c)
    (hwg : c.wg = 0)
    (hlast : ∀ a, c.attempts.getLast? = some a → a.cancelled = true) :
    CoordInv (startAttempt prof c) := by
  have hrun0 : c.attempts.countP (fun a => !a.returned) = 0 := by
    have := h.wgRunning
    rw [hwg] at this
    exact this.symm
  have hne : c.attempts ++ [(⟨prof, false, false⟩ : Attempt)] ≠ [] := by simp
  exact
    { wgRunning := by
        simp only [startAttempt, Coordinator.running]
        rw [List.countP_append, hrun0, hwg]
        rfl
      single := by
        simp only [startAttempt, Coordinator.running]
        rw [List.countP_append, hrun0]
        simp [List.countP_cons]
      earlier := by
        simp only [startAttempt]
        intro i a hi hlt
        rw [List.length_append, List.length_singleton] at hlt
        rw [List.getElem?_append_left (by omega)] at hi
        refine ⟨?_, countP_eq_zero_returned _ hrun0 a (List.getElem?_mem hi)⟩
        by_cases hi2 : i + 1 < c.attempts.length
        · exact (h.earlier i a hi hi2).1
        · apply hlast
          rw [List.getLast?_eq_getElem?, ← hi]
          congr 1
          omega
      lastCancelled := by
        simp only [startAttempt]
        rw [List.getLast?_concat]
        intro a ha
        cases ha
        simp
      stored := by
        simp only [startAttempt]
        rw [if_neg hne, List.length_append, List.length_singleton]
        rfl
      idle := fun _ => rfl }

theorem CoordInv_cancel (c : Coordinator) (prof : String) (i : Nat) (h : CoordInv c)
    (hcf : c.cancelFunc = some i) :
    CoordInv { c with
      retryCh := none
      worker := WorkerPc.waiting prof
      attempts := cancelAttempt i c.attempts } := by
  have hne : c.attempts ≠ [] := by
    intro hnil
    have := h.stored
    rw [if_pos hnil, hcf] at this
    cases this
  have hi : i = c.attempts.length - 1 := by
    have := h.stored
    rw [if_neg hne, hcf] at this
    exact Option.some.inj this
  have hpos : 0 < c.attempts.length := List.length_pos.mpr hne
  have hne2 : cancelAttempt i c.attempts ≠ [] := modify_ne_nil _ _ _ hne
  exact
    { wgRunning := by
        simp only [Coordinator.running, cancelAttempt]
        rw [countP_modify_cancelled]
        exact h.wgRunning
      single := by
        simp only [Coordinator.running, cancelAttempt]
        rw [countP_modify_cancelled]
        exact h.single
      earlier := by
        simp only [cancelAttempt]
        intro j a hj hlt
        rw [List.length_modify] at hlt
        rw [List.getElem?_modify] at hj
        cases hcj : c.attempts[j]? with
        | none => rw [hcj] at hj; simp at hj
        | some b =>
          rw [hcj] at hj
          simp only [Option.map_eq_map, Option.map_some', Option.some.injEq] at hj
          rw [if_neg (by omega)] at hj
          subst hj
          exact h.earlier j b hcj hlt
      lastCancelled := by
        simp only [cancelAttempt]
        intro a ha
        rw [List.getLast?_eq_getElem?, List.length_modify, List.getElem?_modify] at ha
        cases hcj : c.attempts[c.attempts.length - 1]? with
        | none => rw [hcj] at ha; simp at ha
        | some b =>
          rw [hcj] at ha
          simp only [Option.map_eq_map, Option.map_some', Option.some.injEq] at ha
          rw [if_pos hi] at ha
          subst ha
          exact ⟨fun _ => ⟨prof, rfl⟩, fun _ => rfl⟩
      stored := by
        simp only
        rw [if_neg hne2]
        unfold cancelAttempt
        rw [List.length_modify, hcf, hi]
      idle := fun h0 => absurd h0 hne2 }

theorem CoordInv_finish (c : Coordinator) (i : Nat) (a : Attempt) (h : CoordInv c)
    (hci : c.attempts[i]? = some a) (hr : a.returned = false) :
    CoordInv { c with
      wg := c.wg - 1
      attempts := List.modify (fun a => { a with returned := true }) i c.attempts } := by
  have hcount := countP_modify_returned c.attempts i a hci hr
  have hne : c.attempts ≠ [] := by
    intro h0; rw [h0] at hci; simp at hci
  have hne2 : List.modify (fun a => { a with returned := true }) i c.attempts ≠ [] :=
    modify_ne_nil _ _ _ hne
  exact
    { wgRunning := by
        simp only [Coordinator.running]
        have := h.wgRunning
        unfold Coordinator.running at this
        omega
      single := by
        simp only [Coordinator.running]
        have := h.single
        unfold Coordinator.running at this
        omega
      earlier := by
        simp only
        intro j b hj hlt
        rw [List.length_modify] at hlt
        rw [List.getElem?_modify] at hj
        cases hcj : c.attempts[j]? with
        | none => rw [hcj] at hj; simp at hj
        | some b0 =>
          rw [hcj] at hj
          simp only [Option.map_eq_map, Option.map_some', Option.some.injEq] at hj
          have h0 := h.earlier j b0 hcj hlt
          subst hj
          split
          · exact ⟨h0.1, rfl⟩
          · exact h0
      lastCancelled := by
        simp only
        intro b hb
        rw [List.getLast?_eq_getElem?, List.length_modify, List.getElem?_modify] at hb
        cases hcj : c.attempts[c.attempts.length - 1]? with
        | none => rw [hcj] at hb; simp at hb
        | some b0 =>
          rw [hcj] at hb
          simp only [Option.map_eq_map, Option.map_some', Option.some.injEq] at hb
          have h0 := h.lastCancelled b0 (by rw [List.getLast?_eq_getElem?]; exact hcj)
          subst hb
          split
          · exact h0
          · exact h0
      stored := by
        simp only
        rw [List.length_modify, if_neg hne2]
        have := h.stored
        rw [if_neg hne] at this
        exact this
      idle := fun h0 => absurd h0 hne2 }

/-- Every step keeps the invariant. -/
theorem CoordInv_step (c c' : Coordinator) (a : Action) (h : CoordInv c)
    (hs : c.step a = some c') : CoordInv c' := by
  cases a with
  | trigger prof =>
    simp only [Coordinator.step, Option.some.injEq] at hs
    subst hs
    exact CoordInv_retryCh c _ h
  | receive =>
    cases hw : c.worker with
    | waiting q => rw [step_receive_none c (Or.inl ⟨q, hw⟩)] at hs; cases hs
    | receiving =>
      cases hch : c.retryCh with
      | none => rw [step_receive_none c (Or.inr hch)] at hs; cases hs
      | some prof =>
        cases hcf : c.cancelFunc with
        | none =>
          rw [step_receive_start c prof hw hch hcf] at hs
          cases hs
          have hnil : c.attempts = [] := by
            by_contra hne
            have := h.stored
            rw [if_neg hne, hcf] at this
            cases this
          refine CoordInv_startAttempt _ prof (CoordInv_retryCh c none h) ?_ ?_
          · have := h.wgRunning
            unfold Coordinator.running at this
            rw [hnil] at this
            exact this
          · intro a ha
            have ha2 : c.attempts.getLast? = some a := ha
            rw [hnil] at ha2
            simp at ha2
        | some i =>
          rw [step_receive_cancel c prof i hw hch hcf] at hs
          cases hs
          exact CoordInv_cancel c prof i h hcf
  | resume =>
    cases hw : c.worker with
    | receiving => rw [step_resume_none c (Or.inl hw)] at hs; cases hs
    | waiting prof =>
      by_cases hwg : c.wg = 0
      · rw [step_resume c prof hw hwg] at hs
        cases hs
        exact CoordInv_startAttempt c prof h hwg
          (fun a ha => (h.lastCancelled a ha).mpr ⟨prof, hw⟩)
      · rw [step_resume_none c (Or.inr hwg)] at hs
        cases hs
  | finish i =>
    cases hci : c.attempts[i]? with
    | none => rw [step_finish_none c i (Or.inl hci)] at hs; cases hs
    | some a =>
      cases hr : a.returned with
      | true => rw [step_finish_none c i (Or.inr ⟨a, hci, hr⟩)] at hs; cases hs
      | false =>
        rw [step_finish c i a hci hr] at hs
        cases hs
        exact CoordInv_finish c i a h hci hr

theorem CoordInv_run (acts : List Action) (c c' : Coordinator) (h : CoordInv c)
    (hr : c.run acts = some c') : CoordInv c' := by
  induction acts generalizing c with
  | nil =>
    simp only [Coordinator.run, Option.some.injEq] at hr
    subst hr
    exact h
  | cons a rest ih =>
    simp only [Coordinator.run] at hr
    cases hs : c.step a with
    | none => rw [hs] at hr; cases hr
    | some c1 =>
      rw [hs] at hr
      exact ih c1 (CoordInv_step c c1 a h hs) hr

theorem map_profile_modify (f : Attempt → Attempt) (hf : ∀ a, (f a).profile = a.profile)
    (i : Nat) (l : List Attempt) :
    (List.modify f i l).map (fun a => a.profile) = l.map (fun a => a.profile) := by
  induction l generalizing i with
  | nil => cases i <;> rfl
  | cons a l ih =>
    cases i with
    | zero => simp [List.modify_zero_cons, hf]
    | succ i => simp [List.modify_succ_cons, ih]

/-- A step of the `Worker` or of an attempt keeps the profiles of the attempts started
followed by the triggers pending, and counts the triggers received. -/
theorem step_conserves (c c' : Coordinator) (a : Action) (hs : c.step a = some c')
    (ha : ∀ p, a ≠ Action.trigger p) :
    c'.attempts.map (fun a => a.profile) ++ c'.pending =
      c.attempts.map (fun a => a.profile) ++ c.pending ∧
    c'.attempts.length + c'.held =
      c.attempts.length + c.held + (if a = Action.receive then 1 else 0) := by
  cases a with
  | trigger prof => exact absurd rfl (ha prof)
  | receive =>
    cases hw : c.worker with
    | waiting q => rw [step_receive_none c (Or.inl ⟨q, hw⟩)] at hs; cases hs
    | receiving =>
      cases hch : c.retryCh with
      | none => rw [step_receive_none c (Or.inr hch)] at hs; cases hs
      | some prof =>
        cases hcf : c.cancelFunc with
        | none =>
          rw [step_receive_start c prof hw hch hcf] at hs
          cases hs
          simp [startAttempt, Coordinator.pending, Coordinator.held, hw, hch]
        | some i =>
          rw [step_receive_cancel c prof i hw hch hcf] at hs
          cases hs
          simp only [Coordinator.pending, Coordinator.held, hw, hch, cancelAttempt,
            List.length_modify, if_true]
          rw [map_profile_modify (fun a : Attempt => { a with cancelled := true })
            (fun _ => rfl)]
          simp
  | resume =>
    cases hw : c.worker with
    | receiving => rw [step_resume_none c (Or.inl hw)] at hs; cases hs
    | waiting prof =>
      by_cases hwg : c.wg = 0
      · rw [step_resume c prof hw hwg] at hs
        cases hs
        simp [startAttempt, Coordinator.pending, Coordinator.held, hw]
      · rw [step_resume_none c (Or.inr hwg)] at hs
        cases hs
  | finish i =>
    cases hci : c.attempts[i]? with
    | none => rw [step_finish_none c i (Or.inl hci)] at hs; cases hs
    | some a =>
      cases hr : a.returned with
      | true => rw [step_finish_none c i (Or.inr ⟨a, hci, hr⟩)] at hs; cases hs
      | false =>
        rw [step_finish c i a hci hr] at hs
        cases hs
        simp only [Coordinator.pending, Coordinator.held, List.length_modify]
        rw [map_profile_modify (fun a : Attempt => { a with returned := true })
          (fun _ => rfl)]
        simp

theorem step_trigger_held (c c' : Coordinator) (prof : String)
    (hs : c.step (Action.trigger prof) = some c') :
    c'.attempts = c.attempts ∧ c'.held = c.held := by
  simp only [Coordinator.step, Option.some.injEq] at hs
  subst hs
  exact ⟨rfl, rfl⟩

theorem run_conserves (acts : List Action) (c c' : Coordinator)
    (hr : c.run acts = some c') (ha : ∀ a ∈ acts, ∀ p, a ≠ Action.trigger p) :
    c'.attempts.map (fun a => a.profile) ++ c'.pending =
      c.attempts.map (fun a => a.profile) ++ c.pending := by
  induction acts generalizing c with
  | nil =>
    simp only [Coordinator.run, Option.some.injEq] at hr
    subst hr
    rfl
  | cons a rest ih =>
    simp only [Coordinator.run] at hr
    cases hs : c.step a with
    | none => rw [hs] at hr; cases hr
    | some c1 =>
      rw [hs] at hr
      rw [ih c1 hr (fun b hb => ha b (List.mem_cons_of_mem _ hb))]
      exact (step_conserves c c1 a hs (ha a (List.mem_cons_self _ _))).1

/-- Every trigger received is turned into an attempt or held by the `Worker`. -/
theorem run_receives (acts : List Action) (c c' : Coordinator) (hr : c.run acts = some c') :
    c'.attempts.length + c'.held = c.attempts.length + c.held + acts.count Action.receive := by
  induction acts generalizing c with
  | nil =>
    simp only [Coordinator.run, Option.some.injEq] at hr
    subst hr
    rfl
  | cons a rest ih =>
    simp only [Coordinator.run] at hr
    cases hs : c.step a with
    | none => rw [hs] at hr; cases hr
    | some c1 =>
      rw [hs] at hr
      rw [ih c1 hr, List.count_cons]
      by_cases ht : ∃ p, a = Action.trigger p
      · obtain ⟨p, rfl⟩ := ht
        obtain ⟨h1, h2⟩ := step_trigger_held c c1 p hs
        rw [h1, h2]
        simp
      · have h1 := (step_conserves c c1 a hs (fun p hp => ht ⟨p, hp⟩)).2
        by_cases hrec : a = Action.receive
        · subst hrec
          simp at h1 ⊢
          omega
        · rw [if_neg hrec] at h1
          have : (a == Action.receive) = false := by simpa using hrec
          simp only [this, Bool.false_eq_true, if_false]
          omega

/-- Submissions to an occupied mailbox change nothing. -/
theorem run_triggers_occupied (c : Coordinator) (pending : String) (profs : List String)
    (h : c.retryCh = some pending) : c.run (profs.map Action.trigger) = some c := by
  induction profs with
  | nil => rfl
  | cons p rest ih =>
    simp only [List.map_cons, Coordinator.run, Coordinator.step, h, TriggerRetryLoop]
    have hc : ({ c with retryCh := some pending } : Coordinator) = c := by
      cases c
      simp only at h
      subst h
      rfl
    rw [hc]
    exact ih

theorem run_append (c : Coordinator) (xs ys : List Action) :
    c.run (xs ++ ys) = (c.run xs).bind (fun c1 => c1.run ys) := by
  induction xs generalizing c with
  | nil => rfl
  | cons a rest ih =>
    simp only [List.cons_append, Coordinator.run]
    cases c.step a with
    | none => rfl
    | some c1 => exact ih c1

/-! ## The claims about the `Worker` and the mailbox -/

/-- C17: `TriggerRetryLoop` returns in both cases of its `select` and a trigger can be
submitted in every state of the system; on an empty mailbox the submitted profile name
becomes the pending trigger, on an occupied mailbox the state is left as it is.  Hence any
number of submissions to an occupied mailbox leave the one pending trigger; in whatever the
`Worker` and the attempts do afterwards, the profiles of the attempts started followed by
the triggers pending stay the same, so that with the `Worker` at its `range` at most one
more attempt is started, and it is for the trigger that was pending, not for a submitted
one. -/
theorem TriggerRetryLoop_coalesces (c c' : Coordinator) (prof pending : String)
    (profs : List String) (acts : List Action)
    (hocc : c.retryCh = some pending)
    (hacts : ∀ a ∈ acts, ∀ p, a ≠ Action.trigger p)
    (hrun : c.run (profs.map Action.trigger ++ acts) = some c') :
    TriggerRetryLoop prof none = some prof ∧
    TriggerRetryLoop prof (some pending) = some pending ∧
    (∀ c0 : Coordinator,
      c0.step (Action.trigger prof) =
        some { c0 with retryCh := TriggerRetryLoop prof c0.retryCh }) ∧
    c.step (Action.trigger prof) = some c ∧
    c.run (profs.map Action.trigger) = some c ∧
    c'.attempts.map (fun a => a.profile) ++ c'.pending =
      c.attempts.map (fun a => a.profile) ++ c.pending ∧
    (c.worker = WorkerPc.receiving →
      c'.attempts.length ≤ c.attempts.length + 1 ∧
      ∀ (i : Nat) (a : Attempt), c'.attempts[i]? = some a → c.attempts.length ≤ i →
        a.profile = pending) := by
  have htr := run_triggers_occupied c pending profs hocc
  have hrun2 : c.run acts = some c' := by
    rw [run_append, htr] at hrun
    exact hrun
  have hcons := run_conserves acts c c' hrun2 hacts
  refine ⟨rfl, rfl, fun c0 => rfl, ?_, htr, hcons, fun hw => ?_⟩
  · have := run_triggers_occupied c pending [prof] hocc
    simp only [List.map_cons, List.map_nil, Coordinator.run] at this
    cases hs : c.step (Action.trigger prof) with
    | none => rw [hs] at this; cases this
    | some c1 => rw [hs] at this; exact this
  · have hp : c.pending = [pending] := by
      simp [Coordinator.pending, hw, hocc]
    rw [hp] at hcons
    have hlen := congrArg List.length hcons
    simp only [List.length_append, List.length_map, List.length_singleton] at hlen
    refine ⟨by omega, fun i a hi hle => ?_⟩
    have hlt : i < c'.attempts.length := by
      by_contra hge
      rw [List.getElem?_eq_none (by omega)] at hi
      cases hi
    have h1 : (c'.attempts.map (fun a => a.profile) ++ c'.pending)[i]? = some a.profile := by
      rw [List.getElem?_append_left (by rw [List.length_map]; exact hlt), List.getElem?_map, hi]
      rfl
    rw [hcons] at h1
    have hieq : i = c.attempts.length := by omega
    rw [List.getElem?_append_right (by rw [List.length_map]; exact hle), List.length_map,
      hieq] at h1
    simp at h1
    exact h1.symm

/-- C17 with the trigger `"A"` pending: the submissions of `"B"`, `"C"` and `"D"` are
dropped, and the `Worker` starts one attempt, for `"A"`. -/
theorem TriggerRetryLoop_coalesces_witness :
    pendingA.run ([Action.trigger "B", Action.trigger "C", Action.trigger "D"] ++
        [Action.receive, Action.finish 0]) =
      some ⟨none, WorkerPc.receiving, some 0, 0, [⟨"A", false, true⟩]⟩ ∧
    (pendingA.run [Action.trigger "B", Action.trigger "C", Action.trigger "D"] =
      some pendingA) ∧
    (WorkerPc.receiving = WorkerPc.receiving →
      [(⟨"A", false, true⟩ : Attempt)].length ≤ 0 + 1 ∧
      ∀ (i : Nat) (a : Attempt), [(⟨"A", false, true⟩ : Attempt)][i]? = some a → 0 ≤ i →
        a.profile = "A") :=
  ⟨by decide, by decide,
   (TriggerRetryLoop_coalesces pendingA ⟨none, WorkerPc.receiving, some 0, 0, [⟨"A", false, true⟩]⟩
      "B" "A" ["B", "C", "D"] [Action.receive, Action.finish 0] rfl
      (by intro a ha p; simp at ha; rcases ha with rfl | rfl <;> simp)
      (by decide)).2.2.2.2.2.2⟩

/-- C18 at a counterexample: the trigger `"A"` is submitted, then the trigger `"B"` while
`"A"` is still pending.  `TriggerRetryLoop` takes the `default` branch of its `select`
(line 826, "ignoring trigger"): the mailbox keeps `"A"`, the next trigger the `Worker`
receives is `"A"`, and `"B"` is in no attempt and nowhere pending. -/
theorem mailbox_keeps_earlier_trigger :
    TriggerRetryLoop "B" (some "A") = some "A" ∧
    Coordinator.init.run [Action.trigger "A", Action.trigger "B"] = some pendingA ∧
    Coordinator.init.run [Action.trigger "A", Action.trigger "B", Action.receive] =
      some ⟨none, WorkerPc.receiving, some 0, 1, [⟨"A", false, false⟩]⟩ := by
  decide

/-- C18, amended: the mailbox is earliest-wins.  When a trigger for profile `B` is submitted
while a trigger for profile `A` is pending, the mailbox keeps `A` and the submission of `B`
is dropped: the state of the system is what it was, the next trigger the `Worker` receives
is `A` (it starts an attempt for `A`, or cancels the attempt in flight and holds `A` until
that attempt has returned), and the mailbox is empty thereafter. -/
theorem TriggerRetryLoop_earliest_wins (c : Coordinator) (A B : String)
    (hocc : c.retryCh = some A) :
    TriggerRetryLoop B (some A) = some A ∧
    c.step (Action.trigger B) = some c ∧
    c.run [Action.trigger B, Action.receive] = c.step Action.receive ∧
    (c.worker = WorkerPc.receiving →
      ∃ c1, c.run [Action.trigger B, Action.receive] = some c1 ∧ c1.retryCh = none ∧
        c1.pending ++ (c1.attempts.drop c.attempts.length).map (fun a => a.profile) = [A] ∧
        ((c.cancelFunc = none ∧ c1.worker = WorkerPc.receiving ∧
            c1.attempts = c.attempts ++ [⟨A, false, false⟩]) ∨
          (c.cancelFunc ≠ none ∧ c1.worker = WorkerPc.waiting A ∧
            c1.attempts.map (fun a => a.profile) = c.attempts.map (fun a => a.profile)))) := by
  have hstep : c.step (Action.trigger B) = some c := by
    have := run_triggers_occupied c A [B] hocc
    simp only [List.map_cons, List.map_nil, Coordinator.run] at this
    cases hs : c.step (Action.trigger B) with
    | none => rw [hs] at this; cases this
    | some c1 => rw [hs] at this; exact this
  have hrun : c.run [Action.trigger B, Action.receive] = c.step Action.receive := by
    simp only [Coordinator.run, hstep]
    cases c.step Action.receive <;> rfl
  refine ⟨rfl, hstep, hrun, fun hw => ?_⟩
  rw [hrun]
  cases hcf : c.cancelFunc with
  | none =>
    refine ⟨_, step_receive_start c A hw hocc hcf, rfl, ?_, Or.inl ⟨rfl, rfl, rfl⟩⟩
    simp [startAttempt, Coordinator.pending]
  | some i =>
    refine ⟨_, step_receive_cancel c A i hw hocc hcf, rfl, ?_,
      Or.inr ⟨by simp, rfl, ?_⟩⟩
    · simp [Coordinator.pending, cancelAttempt]
    · exact map_profile_modify (fun a : Attempt => { a with cancelled := true })
        (fun _ => rfl) i c.attempts

/-- C18, amended, with `"A"` pending and `"B"` submitted: the `Worker` receives `"A"`. -/
theorem TriggerRetryLoop_earliest_wins_witness :
    pendingA.retryCh = some "A" ∧
    pendingA.step (Action.trigger "B") = some pendingA ∧
    pendingA.run [Action.trigger "B", Action.receive] =
      some ⟨none, WorkerPc.receiving, some 0, 1, [⟨"A", false, false⟩]⟩ :=
  ⟨rfl, (TriggerRetryLoop_earliest_wins pendingA "A" "B" rfl).2.1, by decide⟩

/-- C19 at a counterexample: the triggers `"A"` and `"B"` are both submitted before the
first attempt completes, `"B"` while `"A"` is still in the mailbox.  `"B"` is dropped; the
`Worker` starts one attempt, for `"A"`, which returns without having been cancelled, and
then nothing more can happen: no attempt is cancelled. -/
theorem second_trigger_dropped_none_cancelled :
    Coordinator.init.run
        [Action.trigger "A", Action.trigger "B", Action.receive, Action.finish 0] =
      some ⟨none, WorkerPc.receiving, some 0, 0, [⟨"A", false, true⟩]⟩ ∧
    (⟨none, WorkerPc.receiving, some 0, 0, [⟨"A", false, true⟩]⟩ : Coordinator).step
      Action.receive = none ∧
    (⟨none, WorkerPc.receiving, some 0, 0, [⟨"A", false, true⟩]⟩ : Coordinator).step
      Action.resume = none ∧
    (⟨none, WorkerPc.receiving, some 0, 0, [⟨"A", false, true⟩]⟩ : Coordinator).step
      (Action.finish 0) = none := by
  decide

/-- C19, amended: in every state the system reaches, at most one attempt has not returned
(so the driver is never used by two attempts at once) and `wg` counts it; every attempt but
the last has been cancelled and has returned, so a new `RetryPartition` is started only
after the one before was cancelled and has returned; the last attempt is cancelled exactly
while the `Worker` waits for it in `wg.Wait()`; and each trigger the `Worker` has received
has become one attempt or is held by the waiting `Worker`.  Hence two triggers that the
`Worker` has both received, the `Worker` being back at its `range`, yield exactly two
attempts, the first cancelled and returned, the second not cancelled.  (A trigger submitted
while another is still in the mailbox is not received: it is dropped.) -/
theorem Worker_single_flight (acts : List Action) (c : Coordinator)
    (hrun : Coordinator.init.run acts = some c) :
    c.attempts.countP (fun a => !a.returned) ≤ 1 ∧
    c.wg = c.attempts.countP (fun a => !a.returned) ∧
    (∀ (i : Nat) (a : Attempt), c.attempts[i]? = some a → i + 1 < c.attempts.length →
      a.cancelled = true ∧ a.returned = true) ∧
    (∀ a, c.attempts.getLast? = some a →
      (a.cancelled = true ↔ ∃ prof, c.worker = WorkerPc.waiting prof)) ∧
    c.attempts.length + c.held = acts.count Action.receive ∧
    (acts.count Action.receive = 2 → c.worker = WorkerPc.receiving →
      ∃ a0 a1, c.attempts = [a0, a1] ∧ a0.cancelled = true ∧ a0.returned = true ∧
        a1.cancelled = false) := by
  have hinv := CoordInv_run acts _ c CoordInv_init hrun
  have hrec := run_receives acts _ c hrun
  have hrec2 : c.attempts.length + c.held = acts.count Action.receive := by
    rw [hrec]
    simp [Coordinator.init, Coordinator.held]
  refine ⟨hinv.single, hinv.wgRunning, hinv.earlier, hinv.lastCancelled, hrec2,
    fun h2 hw => ?_⟩
  have hheld : c.held = 0 := by simp [Coordinator.held, hw]
  have hlen : c.attempts.length = 2 := by omega
  match hc : c.attempts, hlen with
  | [a0, a1], _ =>
    refine ⟨a0, a1, rfl, ?_, ?_, ?_⟩
    · exact (hinv.earlier 0 a0 (by rw [hc]; rfl) (by rw [hc]; simp)).1
    · exact (hinv.earlier 0 a0 (by rw [hc]; rfl) (by rw [hc]; simp)).2
    · have h3 := hinv.lastCancelled a1 (by rw [hc]; rfl)
      cases hca : a1.cancelled with
      | false => rfl
      | true =>
        obtain ⟨prof, hp⟩ := h3.mp hca
        rw [hw] at hp
        cases hp

/-- C19, amended, on two triggers both received: `"B"` is submitted while the attempt for
`"A"` runs; the `Worker` cancels that attempt, waits until it has returned and then starts
the attempt for `"B"`, which returns without having been cancelled.  While the first
attempt has not returned the `Worker` cannot start the second. -/
theorem Worker_single_flight_witness :
    Coordinator.init.run
        [Action.trigger "A", Action.receive, Action.trigger "B", Action.receive,
          Action.finish 0, Action.resume, Action.finish 1] =
      some ⟨none, WorkerPc.receiving, some 1, 0, [⟨"A", true, true⟩, ⟨"B", false, true⟩]⟩ ∧
    Coordinator.init.run
        [Action.trigger "A", Action.receive, Action.trigger "B", Action.receive,
          Action.resume] = none ∧
    (∃ a0 a1,
      (⟨none, WorkerPc.receiving, some 1, 0, [⟨"A", true, true⟩, ⟨"B", false, true⟩]⟩ :
        Coordinator).attempts = [a0, a1] ∧
      a0.cancelled = true ∧ a0.returned = true ∧ a1.cancelled = false) :=
  ⟨by decide, by decide,
   (Worker_single_flight
      [Action.trigger "A", Action.receive, Action.trigger "B", Action.receive,
        Action.finish 0, Action.resume, Action.finish 1]
      ⟨none, WorkerPc.receiving, some 1, 0, [⟨"A", true, true⟩, ⟨"B", false, true⟩]⟩
      (by decide)).2.2.2.2.2 (by decide) rfl⟩

/-! ## What one turn of the engine loop does to the world -/

section effect
variable {σ : Type} (d : Driver σ)

theorem countP_failed_pos_iff (tail : List TraceEntry) :
    tail.any failedChange = true ↔ List.replicate (tail.countP failedChange) "failure" ≠ [] := by
  rw [Ne, List.replicate_eq_nil_iff, List.countP_eq_zero, List.any_eq_true]
  constructor
  · rintro ⟨e, he, hf⟩ h
    exact h e he hf
  · intro h
    by_contra hcon
    exact h (fun e he hf => hcon ⟨e, he, hf⟩)

/-- The two change steps request the node status label `failure` once for each change that
fails, and nothing else. -/
theorem changeSteps_labels (cc cm em : String) (h : Nat) (st : LoopState σ) :
    ∃ tail : List TraceEntry,
      let st2 := computeStep d cc h (memoryStep d cm em h st)
      st2.w.trace = st.w.trace ++ tail ∧
      (∀ e ∈ tail, isMutation e = true) ∧
      st2.w.partition_failed = (st.w.partition_failed || tail.any failedChange) ∧
      st2.w.labels = st.w.labels ++ List.replicate (tail.countP failedChange) "failure" ∧
      st2.idx = st.idx ∧ st2.w.partStatus = st.w.partStatus ∧ st2.w.events = st.w.events := by
  by_cases hm : cm = em
  · rw [memoryStep_same d cm em h st hm]
    by_cases hc : cc = getCurrentGPUComputePartition d st.w.hw h
    · rw [computeStep_same d cc h st hc]
      exact ⟨[], by simp⟩
    · rw [computeStep_diff d cc h st hc]
      refine ⟨[computeEntry d cc h st.w.hw], ?_⟩
      simp only
      split <;> simp_all [logTrace, markFailed, addStateLabel, computeEntry, isMutation,
        List.countP_cons]
  · rw [memoryStep_diff d cm em h st hm]
    simp only
    generalize hst1 : (if failedChange (memoryEntry d cm em h st.w.hw) = true then _ else _) = st1
    have h1 : st1.w.trace = st.w.trace ++ [memoryEntry d cm em h st.w.hw] ∧
        st1.w.partition_failed =
          (st.w.partition_failed || failedChange (memoryEntry d cm em h st.w.hw)) ∧
        st1.w.labels = st.w.labels ++
          List.replicate (if failedChange (memoryEntry d cm em h st.w.hw) = true then 1 else 0)
            "failure" ∧
        st1.idx = st.idx ∧ st1.w.partStatus = st.w.partStatus ∧ st1.w.events = st.w.events := by
      subst hst1
      split <;> simp_all [logTrace, markFailed, addStateLabel]
    obtain ⟨ht, hf, hl, hi, hp, he⟩ := h1
    by_cases hc : cc = getCurrentGPUComputePartition d st1.w.hw h
    · rw [computeStep_same d cc h st1 hc]
      refine ⟨[memoryEntry d cm em h st.w.hw], ?_⟩
      refine ⟨ht, ?_, ?_, ?_, hi, hp, he⟩
      · simp [memoryEntry, isMutation]
      · simp [hf]
      · rw [hl]; simp [List.countP_cons]
    · rw [computeStep_diff d cc h st1 hc]
      refine ⟨[memoryEntry d cm em h st.w.hw, computeEntry d cc h st1.w.hw], ?_⟩
      simp only
      have hmut : ∀ e ∈ [memoryEntry d cm em h st.w.hw, computeEntry d cc h st1.w.hw],
          isMutation e = true := by
        simp [memoryEntry, computeEntry, isMutation]
      by_cases hfc : failedChange (computeEntry d cc h st1.w.hw) = true
      · rw [if_pos hfc]
        refine ⟨by simp [markFailed, addStateLabel, logTrace, ht], hmut,
          by simp [markFailed, addStateLabel, logTrace, hfc], ?_,
          by simp [markFailed, logTrace, hi],
          by simp [markFailed, addStateLabel, logTrace, hp],
          by simp [markFailed, addStateLabel, logTrace, he]⟩
        simp only [markFailed, addStateLabel, logTrace, hl, List.countP_cons, hfc, if_true,
          List.countP_nil, List.append_assoc]
        by_cases hfm : failedChange (memoryEntry d cm em h st.w.hw) = true
        · simp [hfm, List.replicate]
        · simp [hfm, List.replicate]
      · rw [if_neg hfc]
        refine ⟨by simp [logTrace, ht], hmut, by simp [logTrace, hf, hfc], ?_,
          by simp [logTrace, hi], by simp [logTrace, hp], by simp [logTrace, he]⟩
        simp only [logTrace, hl, List.countP_cons, hfc, List.countP_nil]
        by_cases hfm : failedChange (memoryEntry d cm em h st.w.hw) = true
        · simp [hfm]
        · simp [hfm]

end effect

section effect2
variable {σ : Type} (d : Driver σ)

theorem LoopEffect_refl (st : LoopState σ) : LoopEffect st st 0 false where
  idxGe := Nat.le_refl _
  idxLe := Nat.le_refl _
  len := rfl
  status := rfl
  mono := id
  labels := ⟨[], by simp, fun l hl => (by cases hl), fun h => Or.inl h,
    fun _ h => absurd rfl h, fun h => (by cases h)⟩
  events := ⟨fun _ => rfl, fun h => (by cases h)⟩

theorem LoopEffect_trans (a b c : LoopState σ) (m n : Nat) (r : Bool)
    (h1 : LoopEffect a b m false) (h2 : LoopEffect b c n r) : LoopEffect a c (m + n) r := by
  obtain ⟨la1, hl1, hf1, hp1, hn1, -⟩ := h1.labels
  obtain ⟨la2, hl2, hf2, hp2, hn2, hr2⟩ := h2.labels
  exact
    { idxGe := Nat.le_trans h1.idxGe h2.idxGe
      idxLe := by have := h1.idxLe; have := h2.idxLe; omega
      len := h2.len.trans h1.len
      status := h2.status.trans h1.status
      mono := fun h => h2.mono (h1.mono h)
      labels := by
        refine ⟨la1 ++ la2, by rw [hl2, hl1, List.append_assoc], ?_, ?_, ?_, ?_⟩
        · intro l hl
          rcases List.mem_append.mp hl with hl | hl
          · exact hf1 l hl
          · exact hf2 l hl
        · intro hc
          rcases hp2 hc with hb | hla2
          · rcases hp1 hb with ha | hla1
            · exact Or.inl ha
            · exact Or.inr (by simp [hla1])
          · exact Or.inr (by simp [hla2])
        · intro hr hne
          by_cases hla2 : la2 = []
          · have hla1 : la1 ≠ [] := by
              intro h0; apply hne; rw [h0, hla2]; rfl
            exact h2.mono (hn1 rfl hla1)
          · exact hn2 hr hla2
        · intro hr
          have := hr2 hr
          simp [this]
      events := by
        refine ⟨fun hr => ?_, fun hr => ?_⟩
        · rw [h2.events.1 hr, h1.events.1 rfl]
        · obtain ⟨e, he, h3, h4, h5⟩ := h2.events.2 hr
          exact ⟨e, by rw [he, h1.events.1 rfl], h3, h4, h5.trans h1.status⟩ }

/-- The effect of one turn of the loop. -/
theorem processGPU_effect (sockets ids : List Nat) (p : ProfileConfig) (st st1 : LoopState σ) :
    (processGPU d sockets ids p st = Step.next st1 → LoopEffect st st1 1 false) ∧
    (processGPU d sockets ids p st = Step.ret st1 → LoopEffect st st1 1 true) := by
  unfold processGPU
  cases hid : ids[st.idx]? with
  | none => simp
  | some gpu_id =>
    simp only
    cases hprobe : probeGPU d (logTrace (TraceEntry.gpu gpu_id p.ComputePartition p.MemoryPartition) st).w.hw sockets gpu_id with
    | panic => simp
    | apiError =>
      simp only [Step.ret.injEq, reduceCtorEq, false_implies, true_and]
      intro h
      subst h
      exact
        { idxGe := Nat.le_refl _
          idxLe := Nat.le_succ _
          len := rfl
          status := rfl
          mono := id
          labels := ⟨["failure"], rfl, fun l hl => List.mem_singleton.mp hl,
            fun h => Or.inl h, fun h => (by cases h), fun _ => by simp⟩
          events := ⟨fun h => (by cases h), fun _ => ⟨_, rfl, rfl, rfl, rfl⟩⟩ }
    | notGPU =>
      simp only [Step.next.injEq, reduceCtorEq, false_implies, and_true]
      intro h
      subst h
      have h0 := LoopEffect_refl (logTrace (TraceEntry.gpu gpu_id p.ComputePartition
        p.MemoryPartition) st)
      exact ⟨Nat.le_refl _, Nat.le_succ _, rfl, rfl, id, h0.labels, h0.events⟩
    | gpu ph =>
      simp only
      split
      · generalize hst0 : (logTrace (TraceEntry.read ph
              (getCurrentGPUComputePartition d (logTrace (TraceEntry.gpu gpu_id p.ComputePartition p.MemoryPartition) st).w.hw ph)
              (getCurrentGPUMemoryPartition d (logTrace (TraceEntry.gpu gpu_id p.ComputePartition p.MemoryPartition) st).w.hw ph))
              (logTrace (TraceEntry.gpu gpu_id p.ComputePartition p.MemoryPartition) st)) = st0
        have h0 : st0.w.partStatus = st.w.partStatus ∧ st0.w.events = st.w.events ∧
            st0.w.labels = st.w.labels ∧ st0.w.partition_failed = st.w.partition_failed ∧
            st0.idx = st.idx := by
          subst hst0; exact ⟨rfl, rfl, rfl, rfl, rfl⟩
        obtain ⟨hps, hev, hlb, hpf, hix⟩ := h0
        by_cases hidx : st0.idx < st0.w.partStatus.GPUStatus.length
        · rw [recordGPU_eq _ _ _ _ _ hidx]
          simp only [Step.next.injEq, reduceCtorEq, false_implies, and_true]
          intro h
          subst h
          exact
            { idxGe := by simp only; omega
              idxLe := by simp only; omega
              len := by simp only [List.length_set]; rw [hps]
              status := by simp only; rw [hps]
              mono := fun h => by simp only; rw [hpf]; exact h
              labels := ⟨[], by simp only [List.append_nil]; exact hlb,
                fun l hl => (by cases hl), fun h => Or.inl (by simpa [hpf] using h),
                fun _ h => absurd rfl h, fun h => (by cases h)⟩
              events := ⟨fun _ => hev, fun h => (by cases h)⟩ }
        · have : recordGPU gpu_id (p.ComputePartition ++ "-" ++ p.MemoryPartition) "Success"
              "Partition not required" st0 = none := by
            simp [recordGPU, populateGPUEventStatus, hidx]
          rw [this]
          simp
      · generalize hst0 : ({ logTrace (TraceEntry.read ph
              (getCurrentGPUComputePartition d (logTrace (TraceEntry.gpu gpu_id p.ComputePartition p.MemoryPartition) st).w.hw ph)
              (getCurrentGPUMemoryPartition d (logTrace (TraceEntry.gpu gpu_id p.ComputePartition p.MemoryPartition) st).w.hw ph))
              (logTrace (TraceEntry.gpu gpu_id p.ComputePartition p.MemoryPartition) st) with partition_needed := true } :
              LoopState σ) = st0
        have h0 : st0.w.partStatus = st.w.partStatus ∧ st0.w.events = st.w.events ∧
            st0.w.labels = st.w.labels ∧ st0.w.partition_failed = st.w.partition_failed ∧
            st0.idx = st.idx := by
          subst hst0; exact ⟨rfl, rfl, rfl, rfl, rfl⟩
        obtain ⟨hps, hev, hlb, hpf, hix⟩ := h0
        obtain ⟨tail, -, -, hf2, hl2, hi2, hp2, he2⟩ := changeSteps_labels d p.ComputePartition
          p.MemoryPartition
          (getCurrentGPUMemoryPartition d (logTrace (TraceEntry.gpu gpu_id p.ComputePartition p.MemoryPartition) st).w.hw ph) ph st0
        generalize computeStep d p.ComputePartition ph (memoryStep d p.MemoryPartition
          (getCurrentGPUMemoryPartition d (logTrace (TraceEntry.gpu gpu_id p.ComputePartition p.MemoryPartition) st).w.hw ph) ph st0)
          = st2 at hf2 hl2 hi2 hp2 he2
        by_cases hidx : st2.idx < st2.w.partStatus.GPUStatus.length
        · rw [recordStep_eq _ _ _ hidx]
          simp only [Step.next.injEq, reduceCtorEq, false_implies, and_true]
          intro h
          subst h
          have hany := countP_failed_pos_iff tail
          exact
            { idxGe := by simp only; omega
              idxLe := by simp only; omega
              len := by simp only [List.length_set]; rw [hp2, hps]
              status := by simp only; rw [hp2, hps]
              mono := fun h => by
                simp only
                rw [hf2, hpf, h]
                rfl
              labels := by
                refine ⟨List.replicate (tail.countP failedChange) "failure", ?_, ?_, ?_, ?_, ?_⟩
                · simp only; rw [hl2, hlb]
                · intro l hl
                  exact (List.mem_replicate.mp hl).2
                · intro h
                  simp only at h
                  rw [hf2, hpf, Bool.or_eq_true] at h
                  rcases h with h | h
                  · exact Or.inl h
                  · exact Or.inr (hany.mp h)
                · intro _ hne
                  simp only
                  rw [hf2, hany.mpr hne]
                  simp
                · intro h
                  cases h
              events := ⟨fun _ => by simp only; rw [he2, hev], fun h => (by cases h)⟩ }
        · rw [recordStep_panic _ _ _ hidx]
          simp

theorem deviceLoop_effect (sockets ids : List Nat) (ts : List ProfileConfig)
    (st stF : LoopState σ) :
    (deviceLoop d sockets ids ts st = Step.next stF → LoopEffect st stF ts.length false) ∧
    (deviceLoop d sockets ids ts st = Step.ret stF → LoopEffect st stF ts.length true) := by
  induction ts generalizing st with
  | nil =>
    simp only [deviceLoop, Step.next.injEq, reduceCtorEq, false_implies, and_true,
      List.length_nil]
    intro h
    subst h
    exact LoopEffect_refl st
  | cons p ts ih =>
    simp only [deviceLoop, List.length_cons]
    cases hp : processGPU d sockets ids p st with
    | panic => simp
    | ret st1 =>
      simp only [Step.ret.injEq, reduceCtorEq, false_implies, true_and]
      intro h
      subst h
      have h1 := (processGPU_effect d sockets ids p st st1).2 hp
      exact ⟨h1.idxGe, by have := h1.idxLe; omega, h1.len, h1.status, h1.mono, h1.labels,
        h1.events⟩
    | next st1 =>
      simp only
      have h1 := (processGPU_effect d sockets ids p st st1).1 hp
      obtain ⟨ih1, ih2⟩ := ih st1
      constructor
      · intro h
        have := LoopEffect_trans st st1 stF 1 ts.length false h1 (ih1 h)
        rwa [Nat.add_comm] at this
      · intro h
        have := LoopEffect_trans st st1 stF 1 ts.length true h1 (ih2 h)
        rwa [Nat.add_comm] at this

end effect2

section report
variable {σ : Type} (d : Driver σ)

theorem reportNoSockets_of_ne (n : Nat) (w : World σ) (h : n ≠ 0) : reportNoSockets n w = w := by
  unfold reportNoSockets
  rw [if_neg h]

theorem reportNoSockets_labels (n : Nat) (w : World σ) :
    (reportNoSockets n w).labels = w.labels ++ (if n = 0 then ["failure"] else []) ∧
    (reportNoSockets n w).partStatus.FinalStatus = w.partStatus.FinalStatus ∧
    (reportNoSockets n w).partition_failed = w.partition_failed := by
  unfold reportNoSockets
  split
  · exact ⟨rfl, rfl, rfl⟩
  · exact ⟨by simp, rfl, rfl⟩

/-- What `amdSMIHelper` reports after the socket enumeration: either the label `success`
alone with one event, the flag `partition_failed` not being set; or only labels `failure`, at
least one, with one event, or with no event when the batch ran to its end with a failed
change. -/
theorem amdSMIHelper_report (profile : GPUConfigProfile) (w w1 : World σ)
    (sockets : List Nat) (n : Nat)
    (hs : amdsmiGetSocketHandles d w.hw = some (sockets, n))
    (h : amdSMIHelper d profile w = some w1) :
    ∃ la ev, w1.labels = (reportNoSockets n w).labels ++ la ∧
      w1.events = (reportNoSockets n w).events ++ ev ∧ la ≠ [] ∧
      ((la = ["success"] ∧ w1.partition_failed = false ∧ (∃ e, ev = [e]) ∧
          w1.partStatus.FinalStatus = "Success") ∨
        ((∀ l ∈ la, l = "failure") ∧
          ((∃ e, ev = [e]) ∨ (ev = [] ∧ w1.partition_failed = true)))) := by
  unfold amdSMIHelper at h
  simp only [hs] at h
  cases hv : validateProfile profile n with
  | panic => simp [hv] at h
  | err msg =>
    simp only [hv, Option.some.injEq] at h
    subst h
    exact ⟨["failure"], [_], rfl, rfl, by simp,
      Or.inr ⟨fun l hl => List.mem_singleton.mp hl, Or.inl ⟨_, rfl⟩⟩⟩
  | nil =>
    simp only [hv, outerLoop_eq_deviceLoop] at h
    generalize hst : startBatch (createGPUIDList profile.Filters n) (reportNoSockets n w) = st0
      at h
    have h0 : st0.w.labels = (reportNoSockets n w).labels ∧
        st0.w.events = (reportNoSockets n w).events ∧ st0.w.partition_failed = false := by
      subst hst; exact ⟨rfl, rfl, rfl⟩
    obtain ⟨h0l, h0e, h0f⟩ := h0
    cases hl : deviceLoop d sockets (createGPUIDList profile.Filters n)
        (boundTargets profile.Profiles) st0 with
    | panic => simp [hl] at h
    | ret st1 =>
      simp only [hl, Option.some.injEq] at h
      subst h
      have heff := (deviceLoop_effect d sockets _ _ st0 st1).2 hl
      obtain ⟨la, h1, h2, -, -, h5⟩ := heff.labels
      obtain ⟨e, h6, -⟩ := heff.events.2 rfl
      exact ⟨la, [e], by rw [h1, h0l], by rw [h6, h0e], h5 rfl, Or.inr ⟨h2, Or.inl ⟨e, rfl⟩⟩⟩
    | next st1 =>
      simp only [hl, Option.some.injEq] at h
      subst h
      have heff := (deviceLoop_effect d sockets _ _ st0 st1).1 hl
      obtain ⟨la, h1, h2, h3, h4, -⟩ := heff.labels
      have h6 := heff.events.1 rfl
      cases hpf : st1.w.partition_failed with
      | true =>
        rw [finishBatch_failed st1 hpf]
        have hne : la ≠ [] := by
          rcases h3 hpf with hb | hb
          · rw [h0f] at hb; cases hb
          · exact hb
        exact ⟨la, [], by rw [h1, h0l], by rw [h6, h0e, List.append_nil], hne,
          Or.inr ⟨h2, Or.inr ⟨rfl, hpf⟩⟩⟩
      | false =>
        have hla : la = [] := by
          by_contra hne
          have := h4 rfl hne
          rw [hpf] at this
          cases this
        obtain ⟨hfs, hff, -, e, hfe, -⟩ := finishBatch_not_failed st1 hpf
        refine ⟨["success"], [e], ?_, by rw [hfe, h6, h0e], by simp,
          Or.inl ⟨rfl, hff, ⟨e, rfl⟩, hfs⟩⟩
        have : (finishBatch st1).labels = st1.w.labels ++ ["success"] := by
          unfold finishBatch
          rw [hpf]
          simp only [Bool.false_eq_true, if_false]
          split <;> rfl
        rw [this, h1, hla, List.append_nil, h0l]

/-- What an engine invocation requests for the node status label: at least one value, each
`success` or `failure`; only `failure` when the invocation returns an error; `success` only
as the last value. -/
theorem PartitionGPU_labels (cfg : ConfigFile) (selectedProfile : String) (w w1 : World σ)
    (r : Option String) (h : PartitionGPU d cfg selectedProfile w = some (w1, r)) :
    ∃ la, w1.labels = w.labels ++ la ∧ la ≠ [] ∧
      (∀ l ∈ la, l = "success" ∨ l = "failure") ∧
      (r ≠ none → ∀ l ∈ la, l = "failure") ∧
      ("success" ∈ la → la.getLast? = some "success" ∧ r = none ∧
        w1.partStatus.FinalStatus = "Success") := by
  have hone : ∀ (reason msg : String) (err : Option String),
      some (addStateLabel "failure" (generateK8sEvent err reason
        (setReason msg (resetStatus selectedProfile w))), (none : Option String)) =
        some (w1, r) →
      ∃ la, w1.labels = w.labels ++ la ∧ la ≠ [] ∧
        (∀ l ∈ la, l = "success" ∨ l = "failure") ∧
        (r ≠ none → ∀ l ∈ la, l = "failure") ∧
        ("success" ∈ la → la.getLast? = some "success" ∧ r = none ∧
          w1.partStatus.FinalStatus = "Success") := by
    intro reason msg err heq
    simp only [Option.some.injEq, Prod.mk.injEq] at heq
    obtain ⟨hw, hr⟩ := heq
    subst hw
    refine ⟨["failure"], rfl, by simp, fun l hl => Or.inr (List.mem_singleton.mp hl),
      fun _ l hl => List.mem_singleton.mp hl, fun hmem => ?_⟩
    simp at hmem
  unfold PartitionGPU at h
  cases cfg with
  | missing => exact hone _ _ _ h
  | unparsable => exact hone _ _ _ h
  | parsed ProfilesList =>
    simp only at h
    cases hl : lookupProfile selectedProfile ProfilesList with
    | none =>
      simp only [hl] at h
      exact hone _ _ _ h
    | some profile =>
      simp only [hl] at h
      split at h
      · exact hone _ _ _ h
      · cases ha : amdSMIHelper d profile (resetStatus selectedProfile w) with
        | none => simp [ha] at h
        | some w2 =>
          simp only [ha, Option.some.injEq, Prod.mk.injEq] at h
          obtain ⟨hw, hr⟩ := h
          subst hw
          cases hs : amdsmiGetSocketHandles d (resetStatus selectedProfile w).hw with
          | none => simp [amdSMIHelper, hs] at ha
          | some sn =>
            obtain ⟨sockets, n⟩ := sn
            obtain ⟨la, ev, h1, -, h3, h4⟩ := amdSMIHelper_report d profile _ w2 sockets n hs ha
            obtain ⟨h5, -, -⟩ := reportNoSockets_labels n (resetStatus selectedProfile w)
            have h5' : (reportNoSockets n (resetStatus selectedProfile w)).labels =
                w.labels ++ (if n = 0 then ["failure"] else []) := h5
            refine ⟨(if n = 0 then ["failure"] else []) ++ la,
              by rw [h1, h5', List.append_assoc], by simp [h3], ?_, ?_, ?_⟩
            · intro l hl
              rcases List.mem_append.mp hl with hl | hl
              · split at hl
                · exact Or.inr (List.mem_singleton.mp hl)
                · cases hl
              · rcases h4 with ⟨h4, -⟩ | ⟨h4, -⟩
                · rw [h4] at hl; exact Or.inl (List.mem_singleton.mp hl)
                · exact Or.inr (h4 l hl)
            · intro hne l hl
              rcases List.mem_append.mp hl with hl | hl
              · split at hl
                · exact List.mem_singleton.mp hl
                · cases hl
              · rcases h4 with ⟨-, h4, -⟩ | ⟨h4, -⟩
                · rw [h4] at hr
                  simp only [Bool.false_eq_true, if_false] at hr
                  exact absurd hr.symm hne
                · exact h4 l hl
            · intro hmem
              rcases h4 with ⟨h4, h4f, -, h4s⟩ | ⟨h4, -⟩
              · rw [h4f] at hr
                simp only [Bool.false_eq_true, if_false] at hr
                refine ⟨?_, hr.symm, h4s⟩
                rw [h4]
                split <;> rfl
              · rcases List.mem_append.mp hmem with hl | hl
                · split at hl
                  · simp at hl
                  · cases hl
                · have := h4 _ hl
                  simp at this

/-- An engine invocation that does not find zero sockets creates exactly one event, or none
when the batch ran to its end with a failed change (an error is returned then). -/
theorem PartitionGPU_one_event (cfg : ConfigFile) (selectedProfile : String) (w w1 : World σ)
    (r : Option String) (h : PartitionGPU d cfg selectedProfile w = some (w1, r))
    (hn : ∀ sockets, amdsmiGetSocketHandles d w.hw ≠ some (sockets, 0)) :
    (∃ e, w1.events = w.events ++ [e]) ∨ (w1.events = w.events ∧ r ≠ none) := by
  have hone : ∀ (reason msg : String) (err : Option String),
      some (addStateLabel "failure" (generateK8sEvent err reason
        (setReason msg (resetStatus selectedProfile w))), (none : Option String)) =
        some (w1, r) →
      (∃ e, w1.events = w.events ++ [e]) ∨ (w1.events = w.events ∧ r ≠ none) := by
    intro reason msg err heq
    simp only [Option.some.injEq, Prod.mk.injEq] at heq
    obtain ⟨hw, hr⟩ := heq
    subst hw
    exact Or.inl ⟨_, rfl⟩
  unfold PartitionGPU at h
  cases cfg with
  | missing => exact hone _ _ _ h
  | unparsable => exact hone _ _ _ h
  | parsed ProfilesList =>
    simp only at h
    cases hl : lookupProfile selectedProfile ProfilesList with
    | none =>
      simp only [hl] at h
      exact hone _ _ _ h
    | some profile =>
      simp only [hl] at h
      split at h
      · exact hone _ _ _ h
      · cases ha : amdSMIHelper d profile (resetStatus selectedProfile w) with
        | none => simp [ha] at h
        | some w2 =>
          simp only [ha, Option.some.injEq, Prod.mk.injEq] at h
          obtain ⟨hw, hr⟩ := h
          subst hw
          cases hs : amdsmiGetSocketHandles d (resetStatus selectedProfile w).hw with
          | none => simp [amdSMIHelper, hs] at ha
          | some sn =>
            obtain ⟨sockets, n⟩ := sn
            have hn0 : n ≠ 0 := by
              intro h0
              subst h0
              exact hn sockets hs
            obtain ⟨la, ev, -, h2, -, h4⟩ := amdSMIHelper_report d profile _ w2 sockets n hs ha
            rw [reportNoSockets_of_ne n _ hn0] at h2
            have h2' : w2.events = w.events ++ ev := h2
            rcases h4 with ⟨-, -, ⟨e, he⟩, -⟩ | ⟨-, ⟨e, he⟩ | ⟨he, hpf⟩⟩
            · exact Or.inl ⟨e, by rw [h2', he]⟩
            · exact Or.inl ⟨e, by rw [h2', he]⟩
            · refine Or.inr ⟨by rw [h2', he, List.append_nil], ?_⟩
              rw [hpf] at hr
              rw [← hr]
              simp

end report

/-! ## The claims about what is reported -/

/-- C21 at the failing input: the socket enumeration of the driver fails (or reports zero
sockets), so that `totalGPUCount` is 0.  `amdSMIHelper` reports the driver failure (event
`AMDSMIAPIFailure`, label `failure`) and goes on (lines 373-380 have no `return`): with the
profile `default` of the end-to-end tests validation fails and a second event,
`InvalidProfileInfo`, is created; with a profile of one assignment of no device the batch
"succeeds" and the second event is `RequestedPartitionConfigAlreadyExists`, with overall
status `Success` and label `success`.  With any other socket count an invocation that
returns creates exactly one event, or none when it returns an error (a change failed). -/
theorem PartitionGPU_zero_sockets_two_events {σ : Type} (d : Driver σ) (cfg : ConfigFile)
    (selectedProfile : String) (w w1 : World σ) (r : Option String) :
    invocationView (PartitionGPU (simDriver idealConfig 0) (ConfigFile.parsed e2eConfig)
        "default" (world0 hwSPX)) =
      some ⟨none, "Failure",
        [("AMDSMIAPIFailure", true, "Failure"), ("InvalidProfileInfo", true, "Failure")],
        ["failure", "failure"], [], []⟩ ∧
    invocationView (PartitionGPU (simDriver idealConfig 0) (ConfigFile.parsed smallConfig)
        "zero" (world0 hwSPX)) =
      some ⟨none, "Success",
        [("AMDSMIAPIFailure", true, "Failure"),
          ("RequestedPartitionConfigAlreadyExists", true, "Success")],
        ["failure", "success"], [], []⟩ ∧
    (PartitionGPU d cfg selectedProfile w = some (w1, r) →
      (∀ sockets, amdsmiGetSocketHandles d w.hw ≠ some (sockets, 0)) →
      (∃ e, w1.events = w.events ++ [e]) ∨ (w1.events = w.events ∧ r ≠ none)) :=
  ⟨by decide, by decide, fun h hn => PartitionGPU_one_event d cfg selectedProfile w w1 r h hn⟩

theorem notifyRetry_labels {σ : Type} (selectedProfile : String) (s : RetryState σ) :
    (notifyRetry selectedProfile s).w.labels = s.w.labels := by
  unfold notifyRetry
  split <;> rfl

/-- The node status labels a session requests: each is `success` or `failure`, every engine
invocation requests at least one, and all are `failure` unless the session ends with an
invocation that returns nil. -/
theorem retryLoop_labels {σ : Type} (env : RetryEnv σ) (selectedProfile : String)
    (expiration : Nat) (w : World σ) (fuel : Nat) (s : RetryState σ)
    (h : ∃ la, s.w.labels = w.labels ++ la ∧ (∀ l ∈ la, l = "failure") ∧
      s.calls.length ≤ la.length) :
    ∃ la, (retryLoop env selectedProfile expiration fuel s).2.w.labels = w.labels ++ la ∧
      (∀ l ∈ la, l = "success" ∨ l = "failure") ∧
      (retryLoop env selectedProfile expiration fuel s).2.calls.length ≤ la.length ∧
      ((retryLoop env selectedProfile expiration fuel s).1 ≠ Ending.done →
        ∀ l ∈ la, l = "failure") := by
  have hkeep : ∀ (s1 : RetryState σ) (e : Ending),
      (∃ la, s1.w.labels = w.labels ++ la ∧ (∀ l ∈ la, l = "failure") ∧
        s1.calls.length ≤ la.length) →
      ∃ la, s1.w.labels = w.labels ++ la ∧ (∀ l ∈ la, l = "success" ∨ l = "failure") ∧
        s1.calls.length ≤ la.length ∧ (e ≠ Ending.done → ∀ l ∈ la, l = "failure") := by
    rintro s1 e ⟨la, h1, h2, h3⟩
    exact ⟨la, h1, fun l hl => Or.inr (h2 l hl), h3, fun _ => h2⟩
  have hcall : ∀ (s1 : RetryState σ) (w1 : World σ) (err : String),
      (∃ la, s1.w.labels = w.labels ++ la ∧ (∀ l ∈ la, l = "failure") ∧
        s1.calls.length ≤ la.length) →
      PartitionGPU (env.driver s1.calls.length) (env.config s1.now) selectedProfile s1.w =
        some (w1, some err) →
      ∃ la, (notifyRetry selectedProfile (recordCall env s1 w1 (some err))).w.labels =
          w.labels ++ la ∧ (∀ l ∈ la, l = "failure") ∧
        (notifyRetry selectedProfile (recordCall env s1 w1 (some err))).calls.length ≤
          la.length := by
    rintro s1 w1 err ⟨la, h1, h2, h3⟩ hp
    obtain ⟨la1, h4, h5, -, h7, -⟩ := PartitionGPU_labels _ _ _ _ _ _ hp
    refine ⟨la ++ la1, ?_, ?_, ?_⟩
    · rw [notifyRetry_labels]
      show w1.labels = _
      rw [h4, h1, List.append_assoc]
    · intro l hl
      rcases List.mem_append.mp hl with hl | hl
      · exact h2 l hl
      · exact h7 (by simp) l hl
    · rw [notifyRetry_calls]
      show (s1.calls ++ [_]).length ≤ _
      have := List.length_pos.mpr h5
      simp only [List.length_append, List.length_singleton]
      omega
  refine retryLoop_rule env selectedProfile expiration
    (fun s1 => ∃ la, s1.w.labels = w.labels ++ la ∧ (∀ l ∈ la, l = "failure") ∧
      s1.calls.length ≤ la.length)
    (fun e s1 => ∃ la, s1.w.labels = w.labels ++ la ∧
      (∀ l ∈ la, l = "success" ∨ l = "failure") ∧ s1.calls.length ≤ la.length ∧
      (e ≠ Ending.done → ∀ l ∈ la, l = "failure")) ?_ ?_ ?_ fuel s h
  · intro s1 h1
    exact hkeep s1 _ h1
  · intro s1 s2 e h1 hi
    rcases retryIteration_cases env selectedProfile expiration s1 with
      ⟨hc, h2⟩ | ⟨hc, hx, h2⟩ | ⟨hc, hle, hp, h2⟩ | ⟨w1, hc, hle, hp, h2⟩ |
      ⟨w1, err, hc, hle, hp, hwc, h2⟩ | ⟨w1, err, hc, hle, hp, hwc, h2⟩
    all_goals rw [h2] at hi
    all_goals simp only [Prod.mk.injEq, Option.some.injEq, reduceCtorEq, and_false] at hi
    all_goals obtain ⟨hs, he⟩ := hi
    all_goals subst hs he
    · exact hkeep s1 _ h1
    · exact hkeep _ _ h1
    · exact hkeep s1 _ h1
    · obtain ⟨la, h3, h4, h5⟩ := h1
      obtain ⟨la1, h6, h7, h8, -, -⟩ := PartitionGPU_labels _ _ _ _ _ _ hp
      refine ⟨la ++ la1, ?_, ?_, ?_, fun hne => absurd rfl hne⟩
      · show w1.labels = _
        rw [h6, h3, List.append_assoc]
      · intro l hl
        rcases List.mem_append.mp hl with hl | hl
        · exact Or.inr (h4 l hl)
        · exact h8 l hl
      · show (s1.calls ++ [_]).length ≤ _
        have := List.length_pos.mpr h7
        simp only [List.length_append, List.length_singleton]
        omega
    · exact hkeep _ _ (hcall s1 w1 err h1 hp)
  · intro s1 s2 h1 hi
    rcases retryIteration_cases env selectedProfile expiration s1 with
      ⟨hc, h2⟩ | ⟨hc, hx, h2⟩ | ⟨hc, hle, hp, h2⟩ | ⟨w1, hc, hle, hp, h2⟩ |
      ⟨w1, err, hc, hle, hp, hwc, h2⟩ | ⟨w1, err, hc, hle, hp, hwc, h2⟩
    all_goals rw [h2] at hi
    all_goals simp only [Prod.mk.injEq, reduceCtorEq, and_false, and_true] at hi
    subst hi
    exact hcall s1 w1 err h1 hp

/-- C22 at a counterexample: one device whose compute change is always refused, an engine
invocation taking 29 minutes, no cancellation.  The first invocation has a failed partition
change and is followed by a retry iteration, yet it requests the node status label
`failure` (line 506); so does the second; when the session expires at minute 60 no label is
requested: two invocations, two labels. -/
theorem failed_change_labels_before_retry :
    sessionView (RetryPartition (busyEnv none (29 * Minute)) "cpx" 0 (world0 hwSPX)) =
      ⟨Ending.expired, 60 * Minute,
        [⟨0, 29 * Minute, some "partition failed"⟩,
          ⟨30 * Minute, 59 * Minute, some "partition failed"⟩],
        [("PartitionRetrying", "Partition failed, retrying."), ("PartitionFailure", "Failure")],
        ["failure", "failure"],
        [TraceEntry.gpu 0 "CPX" "NPS1", TraceEntry.read 0 "SPX" "NPS1",
          TraceEntry.setCompute 0 ComputePartitionType.CPX 30 "SPX" "SPX",
          TraceEntry.gpu 0 "CPX" "NPS1", TraceEntry.read 0 "SPX" "NPS1",
          TraceEntry.setCompute 0 ComputePartitionType.CPX 30 "SPX" "SPX"]⟩ ∧
    (invocationView (PartitionGPU (simDriver busyComputeConfig 1)
        (ConfigFile.parsed oneDeviceConfig) "cpx" (world0 hwSPX))).map
        (fun v => (v.err, v.labels)) = some (some "partition failed", ["failure"]) := by
  decide

/-- C22, amended: the node status label is requested by the engine, with value `success` or
`failure`, and never by `RetryPartition`.  The two change steps of a device request
`failure` once for each change that fails, at once.  Every engine invocation requests at
least one value: only `failure` when it returns an error (so also when a retry follows),
and `success` only as its last value, when it returns nil with overall status `Success`.
The iteration in which a session expires requests no label.  In a session every label
requested is `success` or `failure`, there is at least one per engine invocation, all are
`failure` unless the session ends with an invocation that returns nil, and the last value
requested in a session that expires is `failure`. -/
theorem node_label_requests {σ : Type} (env : RetryEnv σ) (selectedProfile : String)
    (start : Nat) (w : World σ) (d : Driver σ) (cfg : ConfigFile) (cc cm em : String)
    (h : Nat) (st : LoopState σ) (expiration fuel : Nat) (s : RetryState σ) :
    (∃ tail : List TraceEntry,
      (computeStep d cc h (memoryStep d cm em h st)).w.trace = st.w.trace ++ tail ∧
      (computeStep d cc h (memoryStep d cm em h st)).w.labels =
        st.w.labels ++ List.replicate (tail.countP failedChange) "failure") ∧
    (∀ w1 r, PartitionGPU d cfg selectedProfile w = some (w1, r) →
      ∃ la, w1.labels = w.labels ++ la ∧ la ≠ [] ∧
        (∀ l ∈ la, l = "success" ∨ l = "failure") ∧
        (r ≠ none → ∀ l ∈ la, l = "failure") ∧
        ("success" ∈ la → la.getLast? = some "success" ∧ r = none ∧
          w1.partStatus.FinalStatus = "Success")) ∧
    (ctxDone env s.now = false → expiration < s.now →
      (retryLoop env selectedProfile expiration (fuel + 1) s).1 = Ending.expired ∧
      (retryLoop env selectedProfile expiration (fuel + 1) s).2.w.labels = s.w.labels) ∧
    (∃ la, (RetryPartition env selectedProfile start w).2.w.labels = w.labels ++ la ∧
      (∀ l ∈ la, l = "success" ∨ l = "failure") ∧
      (RetryPartition env selectedProfile start w).2.calls.length ≤ la.length ∧
      ((RetryPartition env selectedProfile start w).1 ≠ Ending.done →
        ∀ l ∈ la, l = "failure") ∧
      ((RetryPartition env selectedProfile start w).1 = Ending.expired →
        la.getLast? = some "failure")) := by
  refine ⟨?_, fun w1 r hp => PartitionGPU_labels d cfg selectedProfile w w1 r hp,
    fun hc hx => ?_, ?_⟩
  · obtain ⟨tail, h1, -, -, h4, -⟩ := changeSteps_labels d cc cm em h st
    exact ⟨tail, h1, h4⟩
  · have hi : retryIteration env selectedProfile expiration s =
        ({ s with w := generateK8sEvent (some "partition failed") K8EventPartitionFailed s.w },
          some Ending.expired) := by
      unfold retryIteration
      rw [if_neg (by simp [hc]), if_pos hx]
    rw [retryLoop.eq_def]
    simp only
    rw [hi]
    exact ⟨rfl, rfl⟩
  · have hend := RetryPartition_sessionEnd env selectedProfile start w
    obtain ⟨la, h1, h2, h3, h4⟩ := retryLoop_labels env selectedProfile (start + 30 * Minute) w
      32 ⟨w, start, 1, []⟩ ⟨[], by simp, fun l hl => (by cases hl), by simp⟩
    refine ⟨la, h1, h2, h3, h4, fun he => ?_⟩
    obtain ⟨-, -, hne, -⟩ := hend.expired he
    have hpos : 0 < la.length := by
      have := List.length_pos.mpr hne
      have h3' : (RetryPartition env selectedProfile start w).2.calls.length ≤ la.length := h3
      omega
    have hne2 : la ≠ [] := List.length_pos.mp hpos
    have hall := h4 (by
      show (RetryPartition env selectedProfile start w).1 ≠ Ending.done
      rw [he]; simp)
    rw [List.getLast?_eq_getLast _ hne2]
    exact congrArg some (hall _ (List.getLast_mem hne2))

/-- C22, amended, on the simulated node: a session on eight devices and profile
`e2e_profile1` requests `success` once; the session of one device whose compute change is
always refused, five minutes an invocation, requests `failure` six times, once in each of its
six invocations, and none when it expires. -/
theorem node_label_requests_witness :
    (sessionView (RetryPartition ⟨none, fun _ => ConfigFile.parsed e2eConfig,
        fun _ => simDriver idealConfig 8, fun _ => 0⟩ "e2e_profile1" 0 (world0 hwSPX))).labels =
      ["success"] ∧
    (sessionView (RetryPartition (busyEnv none (5 * Minute)) "cpx" 0 (world0 hwSPX))).labels =
      List.replicate 6 "failure" ∧
    (∃ la, (RetryPartition (busyEnv none (5 * Minute)) "cpx" 0 (world0 hwSPX)).2.w.labels =
        (world0 hwSPX).labels ++ la ∧
      (∀ l ∈ la, l = "success" ∨ l = "failure") ∧
      (RetryPartition (busyEnv none (5 * Minute)) "cpx" 0 (world0 hwSPX)).2.calls.length ≤
        la.length ∧
      ((RetryPartition (busyEnv none (5 * Minute)) "cpx" 0 (world0 hwSPX)).1 ≠ Ending.done →
        ∀ l ∈ la, l = "failure") ∧
      ((RetryPartition (busyEnv none (5 * Minute)) "cpx" 0 (world0 hwSPX)).1 = Ending.expired →
        la.getLast? = some "failure")) :=
  ⟨by decide, by decide,
   (node_label_requests (busyEnv none (5 * Minute)) "cpx" 0 (world0 hwSPX)
      (simDriver busyComputeConfig 1) ConfigFile.missing "CPX" "NPS1" "NPS1" 0 oneDeviceStart
      0 0 ⟨world0 hwSPX, 0, 1, []⟩).2.2.2⟩

/-! ## The checks of the config document -/

/-- C23: `PartitionGPU` first checks that the config document exists, then that it parses,
then that it holds the selected profile name.  The first check that fails ends the
invocation: the result record is the selected profile with overall status `Failure`, the
reason of the condition and no per-device entry; one `Warning` event is created, named
`ConfigMapNotPresent`, `InvalidJSONInConfigMap` or `NonExistentProfile`; the node status
label `failure` is requested; `PartitionGPU` returns nil.  The hardware, the flag
`partition_failed` and the trace of driver calls are left as they were, and the result is
the same with any other driver: the driver is not reached.  The three event names differ
from each other and from the name used for a driver failure. -/
theorem PartitionGPU_config_checks {σ : Type} (d d' : Driver σ) (selectedProfile : String)
    (ProfilesList : List (String × GPUConfigProfile)) (w : World σ) :
    PartitionGPU d ConfigFile.missing selectedProfile w =
      some (⟨w.hw, ⟨selectedProfile, "Failure", "Configmap does not exist", []⟩,
        w.partition_failed, w.trace,
        w.events ++ [⟨K8EventConfigMapNotPresent, true,
          ⟨selectedProfile, "Failure", "Configmap does not exist", []⟩⟩],
        w.labels ++ ["failure"]⟩, none) ∧
    PartitionGPU d ConfigFile.unparsable selectedProfile w =
      some (⟨w.hw, ⟨selectedProfile, "Failure", "Invalid JSON inside configmap", []⟩,
        w.partition_failed, w.trace,
        w.events ++ [⟨K8EventInvalidJSONInConfigMap, true,
          ⟨selectedProfile, "Failure", "Invalid JSON inside configmap", []⟩⟩],
        w.labels ++ ["failure"]⟩, none) ∧
    (lookupProfile selectedProfile ProfilesList = none →
      PartitionGPU d (ConfigFile.parsed ProfilesList) selectedProfile w =
        some (⟨w.hw, ⟨selectedProfile, "Failure", "Profile does not exist in the configmap", []⟩,
          w.partition_failed, w.trace,
          w.events ++ [⟨K8EventNonExistentProfile, true,
            ⟨selectedProfile, "Failure", "Profile does not exist in the configmap", []⟩⟩],
          w.labels ++ ["failure"]⟩, none)) ∧
    PartitionGPU d ConfigFile.missing selectedProfile w =
      PartitionGPU d' ConfigFile.missing selectedProfile w ∧
    PartitionGPU d ConfigFile.unparsable selectedProfile w =
      PartitionGPU d' ConfigFile.unparsable selectedProfile w ∧
    (lookupProfile selectedProfile ProfilesList = none →
      PartitionGPU d (ConfigFile.parsed ProfilesList) selectedProfile w =
        PartitionGPU d' (ConfigFile.parsed ProfilesList) selectedProfile w) ∧
    [K8EventConfigMapNotPresent, K8EventInvalidJSONInConfigMap, K8EventNonExistentProfile,
      K8EventAMDSMIAPIFailure].Nodup := by
  refine ⟨rfl, rfl, fun h => ?_, rfl, rfl, fun h => ?_, by decide⟩
  · unfold PartitionGPU
    simp only [h]
    rfl
  · unfold PartitionGPU
    simp only [h]

/-- C23 on the simulated node: the config document of the end-to-end tests has no profile
`nope`; the invocation ends with the event `NonExistentProfile`, also with a driver that
does not initialize; a missing and an unparsable document are reported whatever the
profile name. -/
theorem PartitionGPU_config_checks_witness :
    lookupProfile "nope" e2eConfig = none ∧
    invocationView (PartitionGPU noInitDriver (ConfigFile.parsed e2eConfig) "nope"
        (world0 hwSPX)) =
      some ⟨none, "Failure", [("NonExistentProfile", true, "Failure")], ["failure"], [], []⟩ ∧
    invocationView (PartitionGPU (simDriver idealConfig 8) ConfigFile.missing "default"
        (world0 hwSPX)) =
      some ⟨none, "Failure", [("ConfigMapNotPresent", true, "Failure")], ["failure"], [], []⟩ ∧
    invocationView (PartitionGPU (simDriver idealConfig 8) ConfigFile.unparsable "default"
        (world0 hwSPX)) =
      some ⟨none, "Failure", [("InvalidJSONInConfigMap", true, "Failure")], ["failure"], [],
        []⟩ ∧
    PartitionGPU (simDriver idealConfig 8) (ConfigFile.parsed e2eConfig) "nope" (world0 hwSPX) =
      PartitionGPU noInitDriver (ConfigFile.parsed e2eConfig) "nope" (world0 hwSPX) :=
  ⟨by decide, by decide, by decide, by decide,
   (PartitionGPU_config_checks (simDriver idealConfig 8) noInitDriver "nope" e2eConfig
      (world0 hwSPX)).2.2.2.2.2.1 (by decide)⟩

/-! ## The per-device record -/

/-- C24 at the failing input: two devices in `SPX`/`NPS1`, both to become `CPX`/`NPS1`; the
compute change of device 0 is refused with `AMDSMI_STATUS_BUSY`, the one of device 1
returns success and the device reads back `CPX`.  Line 518 tests the flag of the batch, set
by device 0, so device 1 is recorded with status `Failure` and the message of device 0.
In general lines 518-524 record `Failure`, with the reason of the last failed change,
whenever the flag of the batch is set. -/
theorem later_device_recorded_failed {σ : Type} (gpu_id : Nat) (partitionType : String)
    (st : LoopState σ) :
    invocationView (PartitionGPU (firstBusyDriver 2) (ConfigFile.parsed smallConfig) "cpx2"
        (world0 hwSPX)) =
      some ⟨some "partition failed", "Failure", [], ["failure"],
        [⟨0, "CPX-NPS1", "Failure", "Partition failed with reason: Device busy."⟩,
          ⟨1, "CPX-NPS1", "Failure", "Partition failed with reason: Device busy."⟩],
        [TraceEntry.gpu 0 "CPX" "NPS1", TraceEntry.read 0 "SPX" "NPS1",
          TraceEntry.setCompute 0 ComputePartitionType.CPX 30 "SPX" "SPX",
          TraceEntry.gpu 1 "CPX" "NPS1", TraceEntry.read 1 "SPX" "NPS1",
          TraceEntry.setCompute 1 ComputePartitionType.CPX 0 "SPX" "CPX"]⟩ ∧
    (st.idx < st.w.partStatus.GPUStatus.length → st.w.partition_failed = true →
      ∃ st1, recordStep gpu_id partitionType st = Step.next st1 ∧
        st1.w.partStatus.GPUStatus[st.idx]? =
          some ⟨gpu_id, partitionType, "Failure",
            "Partition failed with reason: " ++ st.partition_err_reason⟩) := by
  refine ⟨by decide, fun hidx hf => ⟨_, recordStep_eq gpu_id partitionType st hidx, ?_⟩⟩
  simp only [recordedStatus, hf, if_true]
  rw [List.getElem?_set_self hidx]

/-! ## Cancellation -/

/-- C25: an iteration of `RetryPartition` that starts with the token cancelled returns at
once, leaving the state as it is: no engine invocation, no event, no label, whether the
deadline has passed or not.  An iteration whose engine invocation returns an error and
whose wait is cut short by the cancellation returns after that invocation (and the retry
notification, if it is the first failure), without another one.  For every session: started
with the token cancelled it returns at once with nothing done; every engine invocation
started in an iteration that found the token not cancelled; a session that ends at the
check of the token found it cancelled; a session that ends in the wait made its last
invocation, a failed one, before the wait in which the token was cancelled. -/
theorem RetryPartition_cancellation {σ : Type} (env : RetryEnv σ) (selectedProfile : String)
    (start : Nat) (w : World σ) (expiration fuel : Nat) (s : RetryState σ) :
    (ctxDone env s.now = true →
      retryLoop env selectedProfile expiration (fuel + 1) s = (Ending.aborted, s)) ∧
    (∀ w1 err, ctxDone env s.now = false → s.now ≤ expiration →
      PartitionGPU (env.driver s.calls.length) (env.config s.now) selectedProfile s.w =
        some (w1, some err) →
      waitCancelled env (s.now + env.duration s.calls.length) = true →
      retryLoop env selectedProfile expiration (fuel + 1) s =
        (Ending.abortedInWait, notifyRetry selectedProfile (recordCall env s w1 (some err))) ∧
      (notifyRetry selectedProfile (recordCall env s w1 (some err))).calls =
        s.calls ++ [⟨s.now, s.now + env.duration s.calls.length, some err⟩]) ∧
    (ctxDone env start = true →
      RetryPartition env selectedProfile start w = (Ending.aborted, ⟨w, start, 1, []⟩)) ∧
    (∀ c ∈ (RetryPartition env selectedProfile start w).2.calls, ctxDone env c.start = false) ∧
    ((RetryPartition env selectedProfile start w).1 = Ending.aborted →
      ctxDone env (RetryPartition env selectedProfile start w).2.now = true) ∧
    ((RetryPartition env selectedProfile start w).1 = Ending.abortedInWait →
      ∃ c, (RetryPartition env selectedProfile start w).2.calls.getLast? = some c ∧
        c.err ≠ none ∧ waitCancelled env c.finish = true) := by
  have hend := RetryPartition_sessionEnd env selectedProfile start w
  have hab : ∀ (x n : Nat) (s1 : RetryState σ), ctxDone env s1.now = true →
      retryLoop env selectedProfile x (n + 1) s1 = (Ending.aborted, s1) := by
    intro x n s1 hc
    rw [retryLoop.eq_def]
    simp only
    have hi : retryIteration env selectedProfile x s1 = (s1, some Ending.aborted) := by
      unfold retryIteration
      rw [if_pos hc]
    rw [hi]
  refine ⟨hab expiration fuel s, fun w1 err hc hle hp hwc => ⟨?_, ?_⟩, fun hc => ?_,
    fun c hc => (hend.starts c hc).2, hend.aborted, hend.inWait⟩
  · rw [retryLoop.eq_def]
    simp only
    have hi : retryIteration env selectedProfile expiration s =
        (notifyRetry selectedProfile (recordCall env s w1 (some err)),
          some Ending.abortedInWait) := by
      unfold retryIteration
      rw [if_neg (by simp [hc]), if_neg (by omega), hp]
      simp only
      rw [if_pos (by rw [notifyRetry_now]; exact hwc)]
    rw [hi]
  · rw [notifyRetry_calls]
    rfl
  · exact hab (start + 30 * Minute) 31 ⟨w, start, 1, []⟩ hc

/-- C25 on the simulated node: one device whose compute change is always refused, five
minutes an invocation.  A session started with the token already cancelled does nothing; a
session whose token is cancelled three minutes after its start (during the first
invocation) ends in the wait after that one invocation. -/
theorem RetryPartition_cancellation_witness :
    sessionView (RetryPartition (busyEnv (some 0) (5 * Minute)) "cpx" Minute (world0 hwSPX)) =
      ⟨Ending.aborted, Minute, [], [], [], []⟩ ∧
    sessionView
        (RetryPartition (busyEnv (some (3 * Minute)) (5 * Minute)) "cpx" 0 (world0 hwSPX)) =
      ⟨Ending.abortedInWait, 5 * Minute, [⟨0, 5 * Minute, some "partition failed"⟩],
        [("PartitionRetrying", "Partition failed, retrying.")], ["failure"],
        [TraceEntry.gpu 0 "CPX" "NPS1", TraceEntry.read 0 "SPX" "NPS1",
          TraceEntry.setCompute 0 ComputePartitionType.CPX 30 "SPX" "SPX"]⟩ ∧
    RetryPartition (busyEnv (some 0) (5 * Minute)) "cpx" Minute (world0 hwSPX) =
      (Ending.aborted, ⟨world0 hwSPX, Minute, 1, []⟩) :=
  ⟨by decide, by decide,
   (RetryPartition_cancellation (busyEnv (some 0) (5 * Minute)) "cpx" Minute (world0 hwSPX)
      0 0 ⟨world0 hwSPX, Minute, 1, []⟩).2.2.1 (by decide)⟩

/-! ## The accesses of the engine loop -/

section accesses
variable {σ : Type} (d : Driver σ)

/-- With `sockets[gpu_id]` in range the probe panics only on the processor handles of the
socket. -/
theorem probeGPU_panic_cases (hw : σ) (sockets : List Nat) (gpu_id socket : Nat)
    (hs : sockets[gpu_id]? = some socket)
    (h : probeGPU d hw sockets gpu_id = Probe.panic) :
    amdsmiGetProcessorHandles d hw socket = none ∨
      ∃ k, amdsmiGetProcessorHandles d hw socket = some ([], k) := by
  unfold probeGPU at h
  simp only [hs] at h
  cases hp : amdsmiGetProcessorHandles d hw socket with
  | none => exact Or.inl rfl
  | some r =>
    obtain ⟨handles, k⟩ := r
    rw [hp] at h
    simp only at h
    cases handles with
    | nil => exact Or.inr ⟨k, rfl⟩
    | cons ph rest =>
      simp only at h
      split at h
      · cases h
      · split at h <;> cases h

/-- With `gpu_ids_list[idx]` and `partStatus.GPUStatus[idx]` in range the loop body panics
only in the probe. -/
theorem processGPU_panic_probe (sockets ids : List Nat) (p : ProfileConfig)
    (st : LoopState σ) (gpu_id : Nat)
    (hid : ids[st.idx]? = some gpu_id)
    (hidx : st.idx < st.w.partStatus.GPUStatus.length)
    (h : processGPU d sockets ids p st = Step.panic) :
    probeGPU d st.w.hw sockets gpu_id = Probe.panic := by
  cases hprobe : probeGPU d st.w.hw sockets gpu_id with
  | panic => rfl
  | apiError =>
    exfalso
    unfold processGPU at h
    simp only [hid, logTrace, hprobe] at h
    cases h
  | notGPU =>
    exfalso
    unfold processGPU at h
    simp only [hid, logTrace, hprobe] at h
    cases h
  | gpu ph =>
    exfalso
    obtain ⟨st1, -, -, -, h1, -⟩ := processGPU_gpu_spec d sockets ids p st gpu_id ph hid hprobe hidx
    rw [h1] at h
    cases h

/-- The turn of a device whose index is not below the length of `sockets` panics at
`sockets[gpu_id]` (line 430). -/
theorem processGPU_panic_of_no_socket (sockets ids : List Nat) (p : ProfileConfig)
    (st : LoopState σ) (gpu_id : Nat)
    (hid : ids[st.idx]? = some gpu_id) (h : sockets.length ≤ gpu_id) :
    processGPU d sockets ids p st = Step.panic := by
  have hs : sockets[gpu_id]? = none := List.getElem?_eq_none h
  have hprobe : probeGPU d st.w.hw sockets gpu_id = Probe.panic := by
    unfold probeGPU
    simp only [hs]
  unfold processGPU
  simp only [hid, logTrace, hprobe]

/-- A loop that panics does so in the turn of one of its devices, reached by the turns
before it. -/
theorem deviceLoop_panic_turn (sockets ids : List Nat) (ts : List ProfileConfig)
    (st : LoopState σ) (h : deviceLoop d sockets ids ts st = Step.panic) :
    ∃ pre p post st1, ts = pre ++ p :: post ∧
      deviceLoop d sockets ids pre st = Step.next st1 ∧
      processGPU d sockets ids p st1 = Step.panic := by
  induction ts generalizing st with
  | nil => cases h
  | cons p ts ih =>
    simp only [deviceLoop] at h
    cases hp : processGPU d sockets ids p st with
    | panic => exact ⟨[], p, ts, st, rfl, rfl, hp⟩
    | ret st1 =>
      rw [hp] at h
      cases h
    | next st1 =>
      rw [hp] at h
      obtain ⟨pre, q, post, st2, h1, h2, h3⟩ := ih st1 h
      refine ⟨p :: pre, q, post, st2, by rw [h1]; rfl, ?_, h3⟩
      simp only [deviceLoop, hp]
      exact h2

/-- The indices at the start of the turn of a bound device of an accepted profile, whatever
the slice `sockets`. -/
theorem reached_turn_in_range (profile : GPUConfigProfile) (n : Nat) (sockets : List Nat)
    (w0 : World σ) (hv : validateProfile profile n = Verdict.nil)
    (pre : List ProfileConfig) (p : ProfileConfig) (post : List ProfileConfig)
    (st : LoopState σ) (hts : boundTargets profile.Profiles = pre ++ p :: post)
    (hrun : deviceLoop d sockets (createGPUIDList profile.Filters n) pre
      (startBatch (createGPUIDList profile.Filters n) w0) = Step.next st) :
    st.idx ≤ pre.length ∧ st.idx < (createGPUIDList profile.Filters n).length ∧
    st.idx < st.w.partStatus.GPUStatus.length ∧
    ∃ gpu_id, (createGPUIDList profile.Filters n)[st.idx]? = some gpu_id ∧ gpu_id < n := by
  have heff := (deviceLoop_effect d sockets (createGPUIDList profile.Filters n) pre
    (startBatch (createGPUIDList profile.Filters n) w0) st).1 hrun
  have hb := accepted_bound_le profile n hv
  have hi : st.idx ≤ pre.length := by
    have := heff.idxLe
    simpa [startBatch] using this
  have hl : pre.length < (boundTargets profile.Profiles).length := by
    rw [hts]
    simp
  have hids : st.idx < (createGPUIDList profile.Filters n).length := by omega
  have hg : st.w.partStatus.GPUStatus.length = (createGPUIDList profile.Filters n).length := by
    rw [heff.len]
    simp [startBatch]
  refine ⟨hi, hids, by omega, ?_⟩
  have hget := List.getElem?_eq_getElem hids
  have hmem : (createGPUIDList profile.Filters n)[st.idx] ∈ createGPUIDList profile.Filters n :=
    List.getElem_mem hids
  exact ⟨_, hget, ((mem_createGPUIDList _ _ _).mp hmem).1⟩

end accesses

/-- C26 at a counterexample: a driver that counts two sockets when asked for the count and
three when asked for the handles.  `amdsmiGetSocketHandles` returns a slice of two handles
with the count 3 (lines 226-236); the profile `spx3`, one assignment of three devices, is
accepted with device count 3 and the usable list is `[0, 1, 2]`; after the turns of
devices 0 and 1 the index is 2, within `gpu_ids_list` and `partStatus.GPUStatus`, and
`sockets[2]` (line 430) is out of range: the invocation panics. -/
theorem socket_count_exceeds_handles :
    amdsmiGetSocketHandles overcountDriver hwSPX = some ([0, 1], 3) ∧
    lookupProfile "spx3" threeConfig = some ⟨[], [⟨"SPX", "NPS1", 3⟩]⟩ ∧
    validateProfile ⟨[], [⟨"SPX", "NPS1", 3⟩]⟩ 3 = Verdict.nil ∧
    createGPUIDList [] 3 = [0, 1, 2] ∧
    (match deviceLoop overcountDriver [0, 1] [0, 1, 2]
        [⟨"SPX", "NPS1", 3⟩, ⟨"SPX", "NPS1", 3⟩] (startBatch [0, 1, 2] (world0 hwSPX)) with
      | Step.next st =>
        some (st.idx, [0, 1, 2][st.idx]?, st.w.partStatus.GPUStatus.length, [0, 1][2]?,
          probeGPU overcountDriver st.w.hw [0, 1] 2)
      | _ => none) = some (2, some 2, 3, none, Probe.panic) ∧
    invocationView (PartitionGPU overcountDriver (ConfigFile.parsed threeConfig) "spx3"
        (world0 hwSPX)) = none := by
  decide

/-- C26, amended: for a profile accepted by `validateProfile` with device count `n`, the
sum of the counts is at most the length of `createGPUIDList(exclusions, n)` and every
element of that list is below `n`.  In the engine loop, at the start of the turn of every
bound device the index `idx` is at most the number of turns made and below the length of
`gpu_ids_list` and of `partStatus.GPUStatus`, and the device `gpu_ids_list[idx]` is below
`n`.  The access `sockets[gpu_id]` is in range when the count the driver reported is at
most the length of the slice of handles (`n ≤ len(sockets)`), and then the turn panics only
if the enumeration of the processors of that socket finds none; for a device at or beyond
the length of the slice the turn panics.  Hence with `n ≤ len(sockets)` `amdSMIHelper`
panics only in the turn of a bound device whose socket enumerates no processor. -/
theorem engine_loop_accesses_in_range {σ : Type} (d : Driver σ) (profile : GPUConfigProfile)
    (w : World σ) (sockets : List Nat) (n : Nat)
    (hs : amdsmiGetSocketHandles d w.hw = some (sockets, n))
    (hv : validateProfile profile n = Verdict.nil) :
    (profile.Profiles.map (·.NumGPUsAssigned)).sum ≤
      (createGPUIDList profile.Filters n).length ∧
    (∀ id ∈ createGPUIDList profile.Filters n, id < n) ∧
    (∀ (pre : List ProfileConfig) (p : ProfileConfig) (post : List ProfileConfig)
      (st : LoopState σ), boundTargets profile.Profiles = pre ++ p :: post →
      deviceLoop d sockets (createGPUIDList profile.Filters n) pre
        (startBatch (createGPUIDList profile.Filters n) (reportNoSockets n w)) = Step.next st →
      st.idx ≤ pre.length ∧ st.idx < (createGPUIDList profile.Filters n).length ∧
      st.idx < st.w.partStatus.GPUStatus.length ∧
      ∃ gpu_id, (createGPUIDList profile.Filters n)[st.idx]? = some gpu_id ∧ gpu_id < n ∧
        (n ≤ sockets.length → ∃ socket, sockets[gpu_id]? = some socket ∧
          (processGPU d sockets (createGPUIDList profile.Filters n) p st = Step.panic →
            amdsmiGetProcessorHandles d st.w.hw socket = none ∨
              ∃ k, amdsmiGetProcessorHandles d st.w.hw socket = some ([], k))) ∧
        (sockets.length ≤ gpu_id →
          processGPU d sockets (createGPUIDList profile.Filters n) p st = Step.panic)) ∧
    (n ≤ sockets.length → amdSMIHelper d profile w = none →
      ∃ (pre : List ProfileConfig) (p : ProfileConfig) (post : List ProfileConfig)
        (st : LoopState σ) (gpu_id socket : Nat),
        boundTargets profile.Profiles = pre ++ p :: post ∧
        deviceLoop d sockets (createGPUIDList profile.Filters n) pre
          (startBatch (createGPUIDList profile.Filters n) (reportNoSockets n w)) =
            Step.next st ∧
        (createGPUIDList profile.Filters n)[st.idx]? = some gpu_id ∧
        sockets[gpu_id]? = some socket ∧
        (amdsmiGetProcessorHandles d st.w.hw socket = none ∨
          ∃ k, amdsmiGetProcessorHandles d st.w.hw socket = some ([], k))) := by
  have hturn : ∀ (pre : List ProfileConfig) (p : ProfileConfig) (post : List ProfileConfig)
      (st : LoopState σ), boundTargets profile.Profiles = pre ++ p :: post →
      deviceLoop d sockets (createGPUIDList profile.Filters n) pre
        (startBatch (createGPUIDList profile.Filters n) (reportNoSockets n w)) = Step.next st →
      st.idx ≤ pre.length ∧ st.idx < (createGPUIDList profile.Filters n).length ∧
      st.idx < st.w.partStatus.GPUStatus.length ∧
      ∃ gpu_id, (createGPUIDList profile.Filters n)[st.idx]? = some gpu_id ∧ gpu_id < n ∧
        (n ≤ sockets.length → ∃ socket, sockets[gpu_id]? = some socket ∧
          (processGPU d sockets (createGPUIDList profile.Filters n) p st = Step.panic →
            amdsmiGetProcessorHandles d st.w.hw socket = none ∨
              ∃ k, amdsmiGetProcessorHandles d st.w.hw socket = some ([], k))) ∧
        (sockets.length ≤ gpu_id →
          processGPU d sockets (createGPUIDList profile.Filters n) p st = Step.panic) := by
    intro pre p post st hts hrun
    obtain ⟨h1, h2, h3, gpu_id, h4, h5⟩ :=
      reached_turn_in_range d profile n sockets (reportNoSockets n w) hv pre p post st hts hrun
    refine ⟨h1, h2, h3, gpu_id, h4, h5, fun hlen => ?_, fun hge => ?_⟩
    · have hlt : gpu_id < sockets.length := by omega
      have h6 : sockets[gpu_id]? = some sockets[gpu_id] := List.getElem?_eq_getElem hlt
      exact ⟨sockets[gpu_id], h6, fun hp =>
        probeGPU_panic_cases d st.w.hw sockets gpu_id _ h6
          (processGPU_panic_probe d sockets _ p st gpu_id h4 h3 hp)⟩
    · exact processGPU_panic_of_no_socket d sockets _ p st gpu_id h4 hge
  refine ⟨?_, fun id hid => ((mem_createGPUIDList _ _ _).mp hid).1, hturn, fun hlen hp => ?_⟩
  · have := accepted_bound_le profile n hv
    rwa [boundTargets_length] at this
  · have hloop : deviceLoop d sockets (createGPUIDList profile.Filters n)
        (boundTargets profile.Profiles)
        (startBatch (createGPUIDList profile.Filters n) (reportNoSockets n w)) =
          Step.panic := by
      unfold amdSMIHelper at hp
      simp only [hs, hv, outerLoop_eq_deviceLoop] at hp
      split at hp
      · assumption
      · cases hp
      · cases hp
    obtain ⟨pre, p, post, st, h1, h2, h3⟩ := deviceLoop_panic_turn d sockets _ _ _ hloop
    obtain ⟨-, -, -, gpu_id, h4, -, h6, -⟩ := hturn pre p post st h1 h2
    obtain ⟨socket, h7, h8⟩ := h6 hlen
    exact ⟨pre, p, post, st, gpu_id, socket, h1, h2, h4, h7, h8 h3⟩

/-- C26, amended, on the simulated node: profile `e2e_profile1` (exclusions `[2, 3]`,
counts 1, 4 and 1) on eight devices, the driver reporting eight sockets with eight
handles; the usable list is `[0, 1, 4, 5, 6, 7]`, at the start of the turn of the third
bound device the index is 2 and the device is 4, and the engine does not panic. -/
theorem engine_loop_accesses_in_range_witness :
    amdsmiGetSocketHandles (simDriver idealConfig 8) (world0 hwSPX).hw =
      some (List.range 8, 8) ∧
    validateProfile exampleB 8 = Verdict.nil ∧
    createGPUIDList exampleB.Filters 8 = [0, 1, 4, 5, 6, 7] ∧
    (match deviceLoop (simDriver idealConfig 8) (List.range 8) [0, 1, 4, 5, 6, 7]
        [⟨"CPX", "NPS1", 1⟩, ⟨"DPX", "NPS1", 4⟩]
        (startBatch [0, 1, 4, 5, 6, 7] (world0 hwSPX)) with
      | Step.next st => some (st.idx, [0, 1, 4, 5, 6, 7][st.idx]?)
      | _ => none) = some (2, some 4) ∧
    (amdSMIHelper (simDriver idealConfig 8) exampleB (world0 hwSPX)).isSome = true ∧
    (exampleB.Profiles.map (·.NumGPUsAssigned)).sum ≤ (createGPUIDList exampleB.Filters 8).length ∧
    (∀ id ∈ createGPUIDList exampleB.Filters 8, id < 8) :=
  ⟨by decide, by decide, by decide, by decide, by decide,
   (engine_loop_accesses_in_range (simDriver idealConfig 8) exampleB (world0 hwSPX)
      (List.range 8) 8 (by decide) (by decide)).1,
   (engine_loop_accesses_in_range (simDriver idealConfig 8) exampleB (world0 hwSPX)
      (List.range 8) 8 (by decide) (by decide)).2.1⟩

/-! ## Profiles at the edge of the validator -/

/-- Without repetitions in the exclusion list, in range, the usable list has the devices
that are not excluded: `n` less the length of the exclusion list. -/
theorem createGPUIDList_length_nodup (f : List Nat) (n : Nat) (hnd : f.Nodup)
    (hlt : ∀ id ∈ f, id < n) : (createGPUIDList f n).length + f.length = n := by
  rw [createGPUIDList_eq_filter]
  have h1 := @List.length_eq_length_filter_add _ (List.range n) (fun i => filterHit i f)
  have h2 : ((List.range n).filter (fun i => filterHit i f)).length = f.length := by
    apply List.Perm.length_eq
    rw [List.perm_ext_iff_of_nodup (List.Nodup.filter _ (List.nodup_range n)) hnd]
    intro i
    rw [List.mem_filter, List.mem_range, filterHit_iff]
    exact ⟨fun h => h.2, fun h => ⟨hlt i h, h⟩⟩
  rw [List.length_range] at h1
  omega

/-- C27 at the failing input: eight devices in `SPX`/`NPS1`, exclusions `[2, 2]` and one
assignment of `CPX`/`NPS1` to six devices.  `validateProfile` counts the entries of the
exclusion list (`6 + 2 = 8`) and accepts; the usable list has the seven devices other than
device 2; the engine binds six of them, device 7 gets no turn and stays in `SPX`, the
seventh entry of the per-device list stays the zero value, and the batch is reported
`Success`.  For an accepted profile whose exclusion list has no repetition the number of
devices bound is the length of the usable list. -/
theorem repeated_exclusion_leaves_device_unbound (profile : GPUConfigProfile) (n : Nat) :
    lookupProfile "dup" smallConfig = some ⟨[2, 2], [⟨"CPX", "NPS1", 6⟩]⟩ ∧
    validateProfile ⟨[2, 2], [⟨"CPX", "NPS1", 6⟩]⟩ 8 = Verdict.nil ∧
    createGPUIDList [2, 2] 8 = [0, 1, 3, 4, 5, 6, 7] ∧
    (boundTargets [⟨"CPX", "NPS1", 6⟩]).length = 6 ∧
    invocationView (PartitionGPU (simDriver idealConfig 8) (ConfigFile.parsed smallConfig) "dup"
        (world0 hwSPX)) =
      some ⟨none, "Success", [("SuccessfullyPartitioned", false, "Success")], ["success"],
        [⟨0, "CPX-NPS1", "Success", "Successfully partitioned"⟩,
          ⟨1, "CPX-NPS1", "Success", "Successfully partitioned"⟩,
          ⟨3, "CPX-NPS1", "Success", "Successfully partitioned"⟩,
          ⟨4, "CPX-NPS1", "Success", "Successfully partitioned"⟩,
          ⟨5, "CPX-NPS1", "Success", "Successfully partitioned"⟩,
          ⟨6, "CPX-NPS1", "Success", "Successfully partitioned"⟩,
          ⟨0, "", "", ""⟩],
        [TraceEntry.gpu 0 "CPX" "NPS1", TraceEntry.read 0 "SPX" "NPS1",
          TraceEntry.setCompute 0 ComputePartitionType.CPX 0 "SPX" "CPX",
          TraceEntry.gpu 1 "CPX" "NPS1", TraceEntry.read 1 "SPX" "NPS1",
          TraceEntry.setCompute 1 ComputePartitionType.CPX 0 "SPX" "CPX",
          TraceEntry.gpu 3 "CPX" "NPS1", TraceEntry.read 3 "SPX" "NPS1",
          TraceEntry.setCompute 3 ComputePartitionType.CPX 0 "SPX" "CPX",
          TraceEntry.gpu 4 "CPX" "NPS1", TraceEntry.read 4 "SPX" "NPS1",
          TraceEntry.setCompute 4 ComputePartitionType.CPX 0 "SPX" "CPX",
          TraceEntry.gpu 5 "CPX" "NPS1", TraceEntry.read 5 "SPX" "NPS1",
          TraceEntry.setCompute 5 ComputePartitionType.CPX 0 "SPX" "CPX",
          TraceEntry.gpu 6 "CPX" "NPS1", TraceEntry.read 6 "SPX" "NPS1",
          TraceEntry.setCompute 6 ComputePartitionType.CPX 0 "SPX" "CPX"]⟩ ∧
    (PartitionGPU (simDriver idealConfig 8) (ConfigFile.parsed smallConfig) "dup"
        (world0 hwSPX)).map (fun x => x.1.hw 7) = some ("SPX", "NPS1") ∧
    (profile.Filters.Nodup → validateProfile profile n = Verdict.nil →
      (profile.Profiles.map (·.NumGPUsAssigned)).sum =
        (createGPUIDList profile.Filters n).length) := by
  refine ⟨by decide, by decide, by decide, by decide, by decide, by decide, fun hnd hv => ?_⟩
  obtain ⟨-, h2, h3⟩ := validateProfile_nil_rules123 profile n hv
  have := createGPUIDList_length_nodup profile.Filters n hnd h2
  omega

/-- The validator panics exactly on a profile without assignments that passes rules 1-3. -/
theorem validateProfile_panic_iff (profile : GPUConfigProfile) (n : Nat) :
    validateProfile profile n = Verdict.panic ↔ profile.Profiles = [] ∧ rules123 profile n := by
  constructor
  · intro h
    have hp : profile.Profiles = [] := by
      by_contra hne
      exact validateProfile_ne_panic profile n hne h
    refine ⟨hp, ?_⟩
    unfold validateProfile at h
    simp only [gt_iff_lt, sumAssigned_eq, Nat.zero_add, ne_eq] at h
    split at h
    · cases h
    · next h1 =>
      split at h
      · cases h
      · next h2 =>
        split at h
        · cases h
        · next h3 =>
          exact ⟨Nat.not_lt.mp h1, (hasInvalidGPUID_false_iff n _).mp (by simpa using h2),
            not_not.mp h3⟩
  · rintro ⟨hp, hr⟩
    rw [validateProfile_of_rules123 profile n hr, hp]

/-- C28 at the failing input: `validateProfile` returns no verdict exactly for the profiles
without assignments whose exclusions are in range and as many as the devices; reading
`profiles[0]` at line 316 panics.  On a node whose socket enumeration fails the engine
reports zero sockets and passes the count 0 on to the validator, so that an invocation with
a profile without assignments and exclusions panics. -/
theorem validateProfile_not_total (profile : GPUConfigProfile) (n : Nat) :
    (validateProfile profile n = Verdict.panic ↔
      profile.Profiles = [] ∧ profile.Filters.length = n ∧ ∀ id ∈ profile.Filters, id < n) ∧
    lookupProfile "none" smallConfig = some ⟨[], []⟩ ∧
    amdsmiGetSocketHandles (simDriver idealConfig 0) hwSPX = some ([], 0) ∧
    invocationView (PartitionGPU (simDriver idealConfig 0) (ConfigFile.parsed smallConfig)
        "none" (world0 hwSPX)) = none := by
  refine ⟨?_, by decide, by decide, by decide⟩
  rw [validateProfile_panic_iff]
  constructor
  · rintro ⟨hp, h1, h2, h3⟩
    rw [hp] at h3
    exact ⟨hp, by simpa using h3, h2⟩
  · rintro ⟨hp, h1, h2⟩
    refine ⟨hp, by omega, h2, ?_⟩
    rw [hp]
    simpa using h1

/-! ## The flag `partition_failed` across invocations -/

/-- An invocation whose profile is rejected by the validator returns an error exactly when
the flag `partition_failed` was set when it started. -/
theorem PartitionGPU_rejected_error {σ : Type} (d : Driver σ)
    (ProfilesList : List (String × GPUConfigProfile)) (selectedProfile : String)
    (profile : GPUConfigProfile) (w : World σ) (sockets : List Nat) (n : Nat) (e : String)
    (hl : lookupProfile selectedProfile ProfilesList = some profile)
    (hi : d.amdsmi_init w.hw = AMDSMI_STATUS_SUCCESS)
    (hs : amdsmiGetSocketHandles d w.hw = some (sockets, n))
    (hv : validateProfile profile n = Verdict.err e) :
    ∃ w1, PartitionGPU d (ConfigFile.parsed ProfilesList) selectedProfile w =
        some (w1, if w.partition_failed then some "partition failed" else none) ∧
      w1.partition_failed = w.partition_failed := by
  have hs' : amdsmiGetSocketHandles d (resetStatus selectedProfile w).hw =
      some (sockets, n) := hs
  have hi' : d.amdsmi_init (resetStatus selectedProfile w).hw = AMDSMI_STATUS_SUCCESS := hi
  have hpf : (reportNoSockets n (resetStatus selectedProfile w)).partition_failed =
      w.partition_failed := by
    unfold reportNoSockets
    split <;> rfl
  unfold PartitionGPU
  simp only [hl, hi', ne_eq, not_true_eq_false, if_false]
  unfold amdSMIHelper
  simp only [hs', hv]
  have hpf2 : (addStateLabel "failure"
      (generateK8sEvent (some e) K8EventInvalidProfile
        (setReason ("Partition failed with reason: " ++ e)
          (reportNoSockets n (resetStatus selectedProfile w))))).partition_failed =
      w.partition_failed := hpf
  refine ⟨addStateLabel "failure"
      (generateK8sEvent (some e) K8EventInvalidProfile
        (setReason ("Partition failed with reason: " ++ e)
          (reportNoSockets n (resetStatus selectedProfile w)))), ?_, hpf2⟩
  rw [hpf2]

/-- C29 at the failing input: one device whose compute change is always refused.  From a
fresh process an invocation with the profile `many`, which the validator rejects (a
hundred devices on a node of one), returns nil.  After an invocation with the profile
`cpx1`, whose change fails, the same invocation - same document, same profile name, same
hardware state and the same answer of the driver to the socket enumeration - returns the
error `partition failed`: the flag `partition_failed` is reset only at line 418, after the
return of line 412.  In general, an invocation whose profile is rejected returns an error
exactly when the flag was set when it started. -/
theorem PartitionGPU_error_depends_on_flag {σ : Type} (d : Driver σ)
    (ProfilesList : List (String × GPUConfigProfile)) (selectedProfile : String)
    (profile : GPUConfigProfile) (w : World σ) (sockets : List Nat) (n : Nat) (e : String) :
    (invocationView (PartitionGPU (simDriver busyComputeConfig 1)
        (ConfigFile.parsed smallConfig) "many" (world0 hwSPX))).map (fun v => (v.err, v.events)) =
      some (none, [("InvalidProfileInfo", true, "Failure")]) ∧
    (PartitionGPU (simDriver busyComputeConfig 1) (ConfigFile.parsed smallConfig) "cpx1"
        (world0 hwSPX)).map (fun x => (x.2, x.1.partition_failed, x.1.hw 0)) =
      some (some "partition failed", true, ("SPX", "NPS1")) ∧
    (PartitionGPU (simDriver busyComputeConfig 1) (ConfigFile.parsed smallConfig) "cpx1"
        (world0 hwSPX)).map
        (fun x => amdsmiGetSocketHandles (simDriver busyComputeConfig 1) x.1.hw) =
      some (amdsmiGetSocketHandles (simDriver busyComputeConfig 1) hwSPX) ∧
    (((PartitionGPU (simDriver busyComputeConfig 1) (ConfigFile.parsed smallConfig) "cpx1"
        (world0 hwSPX)).bind
        (fun x => invocationView (PartitionGPU (simDriver busyComputeConfig 1)
          (ConfigFile.parsed smallConfig) "many" x.1))).map (fun v => (v.err, v.events)) =
      some (some "partition failed", [("InvalidProfileInfo", true, "Failure")])) ∧
    (lookupProfile selectedProfile ProfilesList = some profile →
      d.amdsmi_init w.hw = AMDSMI_STATUS_SUCCESS →
      amdsmiGetSocketHandles d w.hw = some (sockets, n) →
      validateProfile profile n = Verdict.err e →
      ∃ w1, PartitionGPU d (ConfigFile.parsed ProfilesList) selectedProfile w =
        some (w1, if w.partition_failed then some "partition failed" else none)) := by
  refine ⟨by decide, by decide, by decide, by decide, fun hl hi hs hv => ?_⟩
  obtain ⟨w1, h1, -⟩ := PartitionGPU_rejected_error d ProfilesList selectedProfile profile w
    sockets n e hl hi hs hv
  exact ⟨w1, h1⟩

/-! ## The type of the events -/

/-- C30 at the failing input: `generateK8sEvent` makes the event a `Warning` exactly when
the error it is passed is not nil.  When the driver does not initialize, line 671 passes
`err`, the result of `json.Unmarshal`, which is nil at that point: the event
`AMDSMIAPIFailure` of a driver initialization failure is not a `Warning`. -/
theorem init_failure_event_not_warning {σ : Type} (d : Driver σ)
    (ProfilesList : List (String × GPUConfigProfile)) (selectedProfile : String)
    (profile : GPUConfigProfile) (w : World σ) :
    (∀ (err : Option String) (event_n : String),
      (generateK8sEvent err event_n w).events =
        w.events ++ [⟨event_n, err.isSome, w.partStatus⟩]) ∧
    (lookupProfile selectedProfile ProfilesList = some profile →
      d.amdsmi_init w.hw ≠ AMDSMI_STATUS_SUCCESS →
      ∃ w1, PartitionGPU d (ConfigFile.parsed ProfilesList) selectedProfile w =
          some (w1, none) ∧
        w1.events = w.events ++ [⟨K8EventAMDSMIAPIFailure, false,
          ⟨selectedProfile, "Failure", "AMD-SMI API error : Failed to initialize AMD SMI!",
            []⟩⟩]) ∧
    invocationView (PartitionGPU noInitDriver (ConfigFile.parsed e2eConfig) "default"
        (world0 hwSPX)) =
      some ⟨none, "Failure", [("AMDSMIAPIFailure", false, "Failure")], ["failure"], [], []⟩ := by
  refine ⟨fun err event_n => rfl, fun hl hi => ?_, by decide⟩
  have hi' : d.amdsmi_init (resetStatus selectedProfile w).hw ≠ AMDSMI_STATUS_SUCCESS := hi
  unfold PartitionGPU
  simp only [hl, hi', ne_eq, not_false_eq_true, if_true]
  exact ⟨_, rfl, rfl⟩

end DCM
